import Mathlib

/-!
# Single-decree Paxos engine (`paxos/paxos.c`, `paxos/paxos.h`)

A shallow embedding of the protocol engine.  The C records keep their typedef
names (`paxos_t`, `paxos_message_t`, ...); every handler is a pure function
from the engine state (and the inbound message, and the wall clock reading
`now`) to the new state together with the list of host callbacks it performed,
in call order.

Conventions of the embedding

* `uint64_t`, `uint32_t` and `uint16_t` fields are natural numbers; every C
  operation that can wrap is reduced modulo `2^64`, `2^32` or `2^16` explicitly.
* `uint8_t` flags that the code only ever assigns `0` or `1` are `Bool`.
* `paxos_time_now ()` is the parameter `now` of the entry point: one clock
  reading per host call.
* `ASSERT` only prints to `stderr`; it has no effect on the state.
* The three host callbacks of `paxos_context_t` are recorded as events:
  `send`, `broadcast` and `learned_value`.  The `learned_value` callback has no
  payload in C (the host reads `learner.paxos_id` and `learner.learned_value`);
  the event records the two fields as they stand when the callback is called.
* `paxos_commit` is the synchronous stub of the source: it calls the
  completion callback before returning.
-/

namespace Paxos

/-! ## Machine integers -/

/-- Modulus of `uint64_t`. -/
def U64 : Nat := 2 ^ 64

/-- Modulus of `uint32_t` (and of `unsigned int`). -/
def U32 : Nat := 2 ^ 32

/-- Modulus of `uint16_t`. -/
def U16 : Nat := 2 ^ 16

/-- Unsigned 64-bit addition. -/
def u64_add (a b : Nat) : Nat := (a + b) % U64

/-- Unsigned 64-bit subtraction: the difference, plus `2^64` when `a < b`. -/
def u64_sub (a b : Nat) : Nat :=
  if b % U64 ≤ a % U64 then a % U64 - b % U64 else a % U64 + U64 - b % U64

/-- Unsigned 32-bit addition. -/
def u32_add (a b : Nat) : Nat := (a + b) % U32

/-- Unsigned 32-bit subtraction: the difference, plus `2^32` when `a < b`. -/
def u32_sub (a b : Nat) : Nat :=
  if b % U32 ≤ a % U32 then a % U32 - b % U32 else a % U32 + U32 - b % U32

/-! ## Message types (`enum paxos_message_type`) -/

def PAXOS_PREPARE_REQUEST : Nat := 1
def PAXOS_PREPARE_REJECTED : Nat := 2
def PAXOS_PREPARE_PREVIOUSLY_ACCEPTED : Nat := 3
def PAXOS_PREPARE_CURRENTLY_OPEN : Nat := 4
def PAXOS_PROPOSE_REQUEST : Nat := 5
def PAXOS_PROPOSE_REJECTED : Nat := 6
def PAXOS_PROPOSE_ACCEPTED : Nat := 7
def PAXOS_LEARN_PROPOSAL : Nat := 8
def PAXOS_LEARN_VALUE : Nat := 9
def PAXOS_REQUEST_CHOSEN : Nat := 10
def PAXOS_BOOTSTRAP : Nat := 21
def PAXOS_CATCHUP_START : Nat := 22
def PAXOS_CATCHUP_REQUEST : Nat := 23
def PAXOS_CATCHUP_RESPONSE : Nat := 24
def PAXOS_USER_PROPOSE_VALUE : Nat := 31
def PAXOS_USER_LEARN_VALUE : Nat := 32

def PAXOS_ROUND_TIMEOUT : Nat := 5000
def PAXOS_CHOSEN_TIMEOUT : Nat := PAXOS_ROUND_TIMEOUT + 1000
def PAXOS_RESTART_TIMEOUT : Nat := 1000

/-! ## Data model (`paxos.h`) -/

/-- The record `struct paxos_proposer_state`. -/
structure paxos_proposer_state_t where
  proposal_id : Nat
  highest_received_proposal_id : Nat
  highest_promised_proposal_id : Nat
  proposed_value : Nat
  preparing : Bool
  proposing : Bool
  learn_sent : Bool
deriving DecidableEq, Repr

/-- The record `struct paxos_acceptor_state`. -/
structure paxos_acceptor_state_t where
  promised_proposal_id : Nat
  accepted_proposal_id : Nat
  accepted_value : Nat
  accepted : Bool
deriving DecidableEq, Repr

/-- The record `struct paxos_timeout`.  The `callback` and `arg` members are fixed
by `paxos_proposer_init` for each of the three timers of the proposer, so the
callback of a timer is determined by the slot it occupies (`paxos_timer_id`). -/
structure paxos_timeout_t where
  active : Bool
  timeout : Nat
  expire_time : Nat
deriving DecidableEq, Repr

/-- The record `struct paxos_message`. -/
structure paxos_message_t where
  type : Nat
  paxos_id : Nat
  node_id : Nat
  proposal_id : Nat
  accepted_proposal_id : Nat
  promised_proposal_id : Nat
  value : Nat
deriving DecidableEq, Repr

/-- The record `struct paxos_acceptor`. -/
structure paxos_acceptor_t where
  state : paxos_acceptor_state_t
  sender_id : Nat
  written_paxos_id : Nat
  is_committing : Bool
deriving DecidableEq, Repr

/-- The record `struct paxos_proposer`. -/
structure paxos_proposer_t where
  state : paxos_proposer_state_t
  prepare_timeout : paxos_timeout_t
  propose_timeout : paxos_timeout_t
  restart_timeout : paxos_timeout_t
deriving DecidableEq, Repr

/-- The record `struct paxos_learner`. -/
structure paxos_learner_t where
  paxos_id : Nat
  learned_value : Nat
  has_learned_value : Bool
  last_request_chosen_time : Nat
deriving DecidableEq, Repr

/-- The record `struct paxos_quorum`. -/
structure paxos_quorum_t where
  num_accepted : Nat
  num_rejected : Nat
  num_nodes : Nat
deriving DecidableEq, Repr

/-- The record `struct paxos` (the `context` pointer is the event trace). -/
structure paxos_t where
  proposer : paxos_proposer_t
  acceptor : paxos_acceptor_t
  learner : paxos_learner_t
  quorum : paxos_quorum_t
  node_id : Nat
deriving DecidableEq, Repr

/-- One call of a host callback of `paxos_context_t`. -/
inductive paxos_event where
  | send (node_id : Nat) (message : paxos_message_t)
  | broadcast (message : paxos_message_t)
  | learned_value (paxos_id : Nat) (value : Nat)
deriving DecidableEq, Repr

/-- The three timers owned by the proposer. -/
inductive paxos_timer_id where
  | prepare_timeout
  | propose_timeout
  | restart_timeout
deriving DecidableEq, Repr

/-! ## State resets -/

def paxos_proposer_state_reset (self : paxos_proposer_state_t) : paxos_proposer_state_t :=
  { self with
    preparing := false
    proposing := false
    learn_sent := false
    proposal_id := 0
    highest_received_proposal_id := 0
    highest_promised_proposal_id := 0
    proposed_value := 0 }

def paxos_acceptor_state_reset (self : paxos_acceptor_state_t) : paxos_acceptor_state_t :=
  { self with
    promised_proposal_id := 0
    accepted := false
    accepted_proposal_id := 0
    accepted_value := 0 }

/-! ## Timers -/

def paxos_timeout_init (_self : paxos_timeout_t) (timeout : Nat) : paxos_timeout_t :=
  { active := false, timeout := timeout, expire_time := 0 }

def paxos_timeout_start (self : paxos_timeout_t) (now : Nat) : paxos_timeout_t :=
  { self with active := true, expire_time := u64_add now self.timeout }

def paxos_timeout_stop (self : paxos_timeout_t) : paxos_timeout_t :=
  { self with active := false }

/-! ## Message builders -/

def __paxos_message_paxos_id (type paxos_id node_id : Nat) : paxos_message_t :=
  { type := type, paxos_id := paxos_id, node_id := node_id, proposal_id := 0,
    accepted_proposal_id := 0, promised_proposal_id := 0, value := 0 }

def __paxos_message_proposal_id (type paxos_id node_id proposal_id : Nat) : paxos_message_t :=
  { type := type, paxos_id := paxos_id, node_id := node_id, proposal_id := proposal_id,
    accepted_proposal_id := 0, promised_proposal_id := 0, value := 0 }

def paxos_message_request_chosen (paxos_id node_id : Nat) : paxos_message_t :=
  __paxos_message_paxos_id PAXOS_REQUEST_CHOSEN paxos_id node_id

def paxos_message_bootstrap (node_id : Nat) : paxos_message_t :=
  __paxos_message_paxos_id PAXOS_BOOTSTRAP 0 node_id

def paxos_message_catchup_start (paxos_id node_id : Nat) : paxos_message_t :=
  __paxos_message_paxos_id PAXOS_CATCHUP_START paxos_id node_id

def paxos_message_catchup_request (paxos_id node_id : Nat) : paxos_message_t :=
  __paxos_message_paxos_id PAXOS_CATCHUP_REQUEST paxos_id node_id

def paxos_message_prepare_request (paxos_id node_id proposal_id : Nat) : paxos_message_t :=
  __paxos_message_proposal_id PAXOS_PREPARE_REQUEST paxos_id node_id proposal_id

def paxos_message_prepare_currently_open (paxos_id node_id proposal : Nat) : paxos_message_t :=
  __paxos_message_proposal_id PAXOS_PREPARE_CURRENTLY_OPEN paxos_id node_id proposal

def paxos_message_propose_accepted (paxos_id node_id proposal_id : Nat) : paxos_message_t :=
  __paxos_message_proposal_id PAXOS_PROPOSE_ACCEPTED paxos_id node_id proposal_id

def paxos_message_propose_rejected (paxos_id node_id proposal_id : Nat) : paxos_message_t :=
  __paxos_message_proposal_id PAXOS_PROPOSE_REJECTED paxos_id node_id proposal_id

def paxos_message_learn_proposal (paxos_id node_id proposal_id : Nat) : paxos_message_t :=
  __paxos_message_proposal_id PAXOS_LEARN_PROPOSAL paxos_id node_id proposal_id

def paxos_message_catchup_response (paxos_id node_id value : Nat) : paxos_message_t :=
  { type := PAXOS_CATCHUP_RESPONSE, paxos_id := paxos_id, node_id := node_id,
    proposal_id := 0, accepted_proposal_id := 0, promised_proposal_id := 0, value := value }

/-- The source builds a `PAXOS_CATCHUP_START` record here, not `PAXOS_LEARN_VALUE`. -/
def paxos_message_learn_value (paxos_id node_id value : Nat) : paxos_message_t :=
  { type := PAXOS_CATCHUP_START, paxos_id := paxos_id, node_id := node_id,
    proposal_id := 0, accepted_proposal_id := 0, promised_proposal_id := 0, value := value }

def paxos_message_propose_request (paxos_id node_id proposal_id value : Nat) : paxos_message_t :=
  { type := PAXOS_PROPOSE_REQUEST, paxos_id := paxos_id, node_id := node_id,
    proposal_id := proposal_id, accepted_proposal_id := 0, promised_proposal_id := 0,
    value := value }

def paxos_message_prepare_previously_accepted
    (paxos_id node_id proposal_id accepted_proposal_id value : Nat) : paxos_message_t :=
  { type := PAXOS_PREPARE_PREVIOUSLY_ACCEPTED, paxos_id := paxos_id, node_id := node_id,
    proposal_id := proposal_id, accepted_proposal_id := accepted_proposal_id,
    promised_proposal_id := 0, value := value }

def paxos_message_prepare_rejected
    (paxos_id node_id proposal_id promised_proposal_id : Nat) : paxos_message_t :=
  { type := PAXOS_PREPARE_REJECTED, paxos_id := paxos_id, node_id := node_id,
    proposal_id := proposal_id, accepted_proposal_id := 0,
    promised_proposal_id := promised_proposal_id, value := 0 }

/-! ## Quorum -/

/-- The macro `__math_ceil(a, b)`, expanded in `unsigned int` arithmetic. -/
def __math_ceil (a b : Nat) : Nat := u32_sub (u32_add a b) 1 / b

/-- The macro `__math_max(a, b)`. -/
def __math_max (a b : Nat) : Nat := if a > b then a else b

def paxos_quorum_vote_reset (self : paxos_quorum_t) : paxos_quorum_t :=
  { self with num_rejected := 0, num_accepted := 0 }

def paxos_quorum_vote_accepted (self : paxos_quorum_t) (_node_id : Nat) : paxos_quorum_t :=
  { self with num_accepted := (self.num_accepted + 1) % U16 }

def paxos_quorum_vote_rejected (self : paxos_quorum_t) (_node_id : Nat) : paxos_quorum_t :=
  { self with num_rejected := (self.num_rejected + 1) % U16 }

def paxos_quorum_vote_is_rejected (self : paxos_quorum_t) : Bool :=
  decide (self.num_rejected ≥ __math_ceil self.num_nodes 2)

def paxos_quorum_vote_is_accepted (self : paxos_quorum_t) : Bool :=
  decide (self.num_accepted ≥ __math_ceil (u32_add self.num_nodes 1) 2)

def paxos_quorum_vote_is_complete (self : paxos_quorum_t) : Bool :=
  decide (self.num_accepted + self.num_rejected ≥ self.num_nodes)

/-! ## Helpers -/

def paxos_get_accepted_value (self : paxos_t) (paxos_id : Nat) : Option Nat :=
  if self.learner.paxos_id = paxos_id then some self.learner.learned_value else none

def paxos_start_new_round (self : paxos_t) : paxos_t :=
  { self with
    learner := { self.learner with paxos_id := u64_add self.learner.paxos_id 1 }
    proposer := { self.proposer with state := paxos_proposer_state_reset self.proposer.state }
    acceptor := { self.acceptor with state := paxos_acceptor_state_reset self.acceptor.state } }

/-- The macro `__paxos_learned_timeout(self)`. -/
def __paxos_learned_timeout (self : paxos_t) (now : Nat) : Nat :=
  u64_sub now self.learner.last_request_chosen_time

/-- The macro `paxos_is_blocked(self)`. -/
def paxos_is_blocked (self : paxos_t) (now : Nat) : Bool :=
  decide (__paxos_learned_timeout self now > PAXOS_CHOSEN_TIMEOUT)

/-! ## Learner -/

/-- Records the value and calls the host callback `learned_value`
(`paxos_context_learned_value`). -/
def paxos_learner_learn_value (self : paxos_t) (value : Nat) : paxos_t × List paxos_event :=
  let self1 : paxos_t :=
    { self with learner := { self.learner with learned_value := value, has_learned_value := true } }
  (self1, [paxos_event.learned_value self1.learner.paxos_id self1.learner.learned_value])

def __on_request_chosen (self : paxos_t) (message : paxos_message_t) : paxos_t × List paxos_event :=
  if message.paxos_id ≥ self.learner.paxos_id then (self, [])
  else
    let omsg : paxos_message_t :=
      match paxos_get_accepted_value self message.paxos_id with
      | some value => paxos_message_learn_value message.paxos_id self.node_id value
      | none => paxos_message_catchup_start self.learner.paxos_id self.node_id
    (self, [paxos_event.send message.node_id omsg])

def paxos_learner_init (learner : paxos_learner_t) : paxos_learner_t :=
  { learner with paxos_id := 0, has_learned_value := false, last_request_chosen_time := 0 }

/-! ## Acceptor -/

/-- Completion callback of the commit: re-enables the acceptor and sends the
queued response when the instance has not moved under the write. -/
def __on_state_written (paxos : paxos_t) (message : paxos_message_t) : paxos_t × List paxos_event :=
  let paxos1 : paxos_t := { paxos with acceptor := { paxos.acceptor with is_committing := false } }
  if paxos1.acceptor.written_paxos_id = paxos1.learner.paxos_id then
    (paxos1, [paxos_event.send paxos1.acceptor.sender_id message])
  else (paxos1, [])

/-- The stub of the source: no write-ahead log, the callback runs at once. -/
def paxos_commit (self : paxos_t) (callback : paxos_t → paxos_t × List paxos_event) :
    paxos_t × List paxos_event :=
  callback self

def __commit (paxos : paxos_t) (message : paxos_message_t) : paxos_t × List paxos_event :=
  let paxos1 : paxos_t :=
    { paxos with
      acceptor := { paxos.acceptor with
                    written_paxos_id := paxos.learner.paxos_id
                    is_committing := true } }
  paxos_commit paxos1 (fun p => __on_state_written p message)

def __accept_prepare_request (paxos : paxos_t) (message : paxos_message_t) :
    paxos_t × List paxos_event :=
  let paxos1 : paxos_t :=
    { paxos with
      acceptor := { paxos.acceptor with
                    state := { paxos.acceptor.state with
                               promised_proposal_id := message.proposal_id }
                    sender_id := message.node_id } }
  let omsg : paxos_message_t :=
    if !paxos1.acceptor.state.accepted then
      paxos_message_prepare_currently_open message.paxos_id paxos1.node_id message.proposal_id
    else
      paxos_message_prepare_previously_accepted message.paxos_id paxos1.node_id
        message.proposal_id paxos1.acceptor.state.accepted_proposal_id
        paxos1.acceptor.state.accepted_value
  __commit paxos1 omsg

def __accept_propose_request (paxos : paxos_t) (message : paxos_message_t) :
    paxos_t × List paxos_event :=
  let paxos1 : paxos_t :=
    { paxos with
      acceptor := { paxos.acceptor with
                    state := { paxos.acceptor.state with
                               accepted := true
                               accepted_proposal_id := message.proposal_id
                               accepted_value := message.value }
                    sender_id := message.node_id } }
  let omsg : paxos_message_t :=
    paxos_message_propose_accepted message.paxos_id paxos1.node_id message.proposal_id
  __commit paxos1 omsg

def __can_accept_request (paxos : paxos_t) (message : paxos_message_t) : Bool :=
  if message.paxos_id ≠ paxos.learner.paxos_id then false
  else if message.proposal_id < paxos.acceptor.state.promised_proposal_id then false
  else if paxos.acceptor.is_committing then false
  else true

def __on_prepare_request (paxos : paxos_t) (message : paxos_message_t) : paxos_t × List paxos_event :=
  if __can_accept_request paxos message then
    __accept_prepare_request paxos message
  else
    let omsg : paxos_message_t :=
      paxos_message_prepare_rejected message.paxos_id paxos.node_id message.proposal_id
        paxos.acceptor.state.promised_proposal_id
    (paxos, [paxos_event.send message.node_id omsg])

def __on_propose_request (paxos : paxos_t) (message : paxos_message_t) : paxos_t × List paxos_event :=
  if __can_accept_request paxos message then
    __accept_propose_request paxos message
  else
    let omsg : paxos_message_t :=
      paxos_message_propose_rejected message.paxos_id paxos.node_id message.proposal_id
    (paxos, [paxos_event.send message.node_id omsg])

def __request_chosen (paxos : paxos_t) (node_id : Nat) (now : Nat) : paxos_t × List paxos_event :=
  let paxos1 : paxos_t :=
    { paxos with learner := { paxos.learner with last_request_chosen_time := now } }
  let omsg : paxos_message_t := paxos_message_request_chosen paxos1.learner.paxos_id paxos1.node_id
  (paxos1, [paxos_event.send node_id omsg])

def __on_learn_chosen (paxos : paxos_t) (message : paxos_message_t) (now : Nat) :
    paxos_t × List paxos_event :=
  if paxos.acceptor.is_committing then (paxos, [])
  else if message.paxos_id > paxos.learner.paxos_id then
    __request_chosen paxos message.node_id now
  else if message.paxos_id < paxos.learner.paxos_id then (paxos, [])
  else if message.type = PAXOS_LEARN_VALUE then
    let paxos1 : paxos_t :=
      { paxos with
        acceptor := { paxos.acceptor with
                      state := { paxos.acceptor.state with
                                 accepted := true
                                 accepted_value := message.value } } }
    let r := paxos_learner_learn_value paxos1 paxos1.acceptor.state.accepted_value
    (paxos_start_new_round r.1, r.2)
  else if !(decide (message.type = PAXOS_LEARN_PROPOSAL) &&
            paxos.acceptor.state.accepted &&
            decide (paxos.acceptor.state.accepted_proposal_id = message.proposal_id)) then
    __request_chosen paxos message.node_id now
  else
    let r := paxos_learner_learn_value paxos paxos.acceptor.state.accepted_value
    (paxos_start_new_round r.1, r.2)

def paxos_acceptor_init (acceptor : paxos_acceptor_t) : paxos_acceptor_t :=
  { is_committing := false
    sender_id := 0
    written_paxos_id := 0
    state := paxos_acceptor_state_reset acceptor.state }

/-! ## Proposer -/

def __stop_preparing (paxos : paxos_t) : paxos_t :=
  { paxos with
    proposer := { paxos.proposer with
                  state := { paxos.proposer.state with preparing := false }
                  prepare_timeout := paxos_timeout_stop paxos.proposer.prepare_timeout } }

def __start_proposing (paxos : paxos_t) (now : Nat) : paxos_t × List paxos_event :=
  let paxos1 := __stop_preparing paxos
  let paxos2 : paxos_t := { paxos1 with quorum := paxos_quorum_vote_reset paxos1.quorum }
  let paxos3 : paxos_t :=
    { paxos2 with
      proposer := { paxos2.proposer with
                    state := { paxos2.proposer.state with proposing := true } } }
  let omsg : paxos_message_t :=
    paxos_message_propose_request paxos3.learner.paxos_id paxos3.node_id
      paxos3.proposer.state.proposal_id paxos3.proposer.state.proposed_value
  let paxos4 : paxos_t :=
    { paxos3 with
      proposer := { paxos3.proposer with
                    restart_timeout := paxos_timeout_stop paxos3.proposer.restart_timeout } }
  let paxos5 : paxos_t :=
    { paxos4 with
      proposer := { paxos4.proposer with
                    propose_timeout := paxos_timeout_start paxos4.proposer.propose_timeout now } }
  (paxos5, [paxos_event.broadcast omsg])

def __stop_proposing (paxos : paxos_t) : paxos_t :=
  { paxos with
    proposer := { paxos.proposer with
                  state := { paxos.proposer.state with proposing := false }
                  propose_timeout := paxos_timeout_stop paxos.proposer.propose_timeout } }

def __next_proposal_id (_self : paxos_t) (proposer : paxos_proposer_t) : Nat :=
  u64_add 1 (__math_max proposer.state.proposal_id proposer.state.highest_promised_proposal_id)

def __start_preparing (paxos : paxos_t) (now : Nat) : paxos_t × List paxos_event :=
  let paxos1 := __stop_proposing paxos
  let paxos2 : paxos_t := { paxos1 with quorum := paxos_quorum_vote_reset paxos1.quorum }
  let paxos3 : paxos_t :=
    { paxos2 with
      proposer := { paxos2.proposer with
                    state := { paxos2.proposer.state with preparing := true } } }
  let paxos4 : paxos_t :=
    { paxos3 with
      proposer := { paxos3.proposer with
                    state := { paxos3.proposer.state with
                               proposal_id := __next_proposal_id paxos3 paxos3.proposer } } }
  let paxos5 : paxos_t :=
    { paxos4 with
      proposer := { paxos4.proposer with
                    state := { paxos4.proposer.state with highest_received_proposal_id := 0 } } }
  let omsg : paxos_message_t :=
    paxos_message_prepare_request paxos5.learner.paxos_id paxos5.node_id
      paxos5.proposer.state.proposal_id
  let paxos6 : paxos_t :=
    { paxos5 with
      proposer := { paxos5.proposer with
                    restart_timeout := paxos_timeout_stop paxos5.proposer.restart_timeout } }
  let paxos7 : paxos_t :=
    { paxos6 with
      proposer := { paxos6.proposer with
                    prepare_timeout := paxos_timeout_start paxos6.proposer.prepare_timeout now } }
  (paxos7, [paxos_event.broadcast omsg])

def __on_prepare_response (paxos : paxos_t) (message : paxos_message_t) (now : Nat) :
    paxos_t × List paxos_event :=
  if !paxos.proposer.state.preparing ||
      decide (message.proposal_id ≠ paxos.proposer.state.proposal_id) then (paxos, [])
  else
    let paxos1 : paxos_t :=
      if message.type = PAXOS_PREPARE_REJECTED then
        { paxos with quorum := paxos_quorum_vote_rejected paxos.quorum message.node_id }
      else
        { paxos with quorum := paxos_quorum_vote_accepted paxos.quorum message.node_id }
    let paxos2 : paxos_t :=
      if decide (message.type = PAXOS_PREPARE_PREVIOUSLY_ACCEPTED) &&
          decide (message.accepted_proposal_id ≥
                    paxos1.proposer.state.highest_received_proposal_id) then
        { paxos1 with
          proposer := { paxos1.proposer with
                        state := { paxos1.proposer.state with
                                   highest_received_proposal_id := message.accepted_proposal_id
                                   proposed_value := message.value } } }
      else if message.type = PAXOS_PREPARE_REJECTED then
        if message.promised_proposal_id > paxos1.proposer.state.highest_promised_proposal_id then
          { paxos1 with
            proposer := { paxos1.proposer with
                          state := { paxos1.proposer.state with
                                     highest_promised_proposal_id :=
                                       message.promised_proposal_id } } }
        else paxos1
      else paxos1
    if paxos_quorum_vote_is_accepted paxos2.quorum then
      __start_proposing paxos2 now
    else if paxos_quorum_vote_is_rejected paxos2.quorum then
      let paxos3 := __stop_preparing paxos2
      ({ paxos3 with
         proposer := { paxos3.proposer with
                       restart_timeout :=
                         paxos_timeout_start paxos3.proposer.restart_timeout now } }, [])
    else (paxos2, [])

def __on_propose_response (paxos : paxos_t) (message : paxos_message_t) (now : Nat) :
    paxos_t × List paxos_event :=
  if !paxos.proposer.state.proposing ||
      decide (message.proposal_id ≠ paxos.proposer.state.proposal_id) then (paxos, [])
  else
    let paxos1 : paxos_t :=
      if message.type = PAXOS_PROPOSE_REJECTED then
        { paxos with quorum := paxos_quorum_vote_rejected paxos.quorum message.node_id }
      else
        { paxos with quorum := paxos_quorum_vote_accepted paxos.quorum message.node_id }
    if paxos_quorum_vote_is_accepted paxos1.quorum then
      let paxos2 := __stop_proposing paxos1
      let omsg : paxos_message_t :=
        paxos_message_learn_proposal paxos2.learner.paxos_id paxos2.node_id
          paxos2.proposer.state.proposal_id
      ({ paxos2 with
         proposer := { paxos2.proposer with
                       state := { paxos2.proposer.state with learn_sent := true } } },
       [paxos_event.broadcast omsg])
    else if paxos_quorum_vote_is_rejected paxos1.quorum then
      let paxos2 := __stop_proposing paxos1
      ({ paxos2 with
         proposer := { paxos2.proposer with
                       restart_timeout :=
                         paxos_timeout_start paxos2.proposer.restart_timeout now } }, [])
    else (paxos1, [])

def __on_prepare_timeout (paxos : paxos_t) (now : Nat) : paxos_t × List paxos_event :=
  let is_blocked := paxos_is_blocked paxos now
  if is_blocked || paxos_quorum_vote_is_rejected paxos.quorum then
    __start_preparing paxos now
  else
    ({ paxos with
       proposer := { paxos.proposer with
                     prepare_timeout := paxos_timeout_start paxos.proposer.prepare_timeout now } },
     [])

def __on_propose_timeout (paxos : paxos_t) (now : Nat) : paxos_t × List paxos_event :=
  let is_blocked := paxos_is_blocked paxos now
  if is_blocked || paxos_quorum_vote_is_rejected paxos.quorum then
    __start_preparing paxos now
  else
    ({ paxos with
       proposer := { paxos.proposer with
                     propose_timeout := paxos_timeout_start paxos.proposer.propose_timeout now } },
     [])

def __on_restart_timeout (paxos : paxos_t) (now : Nat) : paxos_t × List paxos_event :=
  if paxos_is_blocked paxos now then
    __start_preparing paxos now
  else
    ({ paxos with
       proposer := { paxos.proposer with
                     restart_timeout := paxos_timeout_start paxos.proposer.restart_timeout now } },
     [])

def paxos_proposer_init (proposer : paxos_proposer_t) : paxos_proposer_t :=
  { state := paxos_proposer_state_reset proposer.state
    prepare_timeout := paxos_timeout_init proposer.prepare_timeout PAXOS_ROUND_TIMEOUT
    propose_timeout := paxos_timeout_init proposer.propose_timeout PAXOS_ROUND_TIMEOUT
    restart_timeout := paxos_timeout_init proposer.restart_timeout PAXOS_RESTART_TIMEOUT }

def paxos_proposer_stop (proposer : paxos_proposer_t) : paxos_proposer_t :=
  { state := paxos_proposer_state_reset proposer.state
    prepare_timeout := paxos_timeout_stop proposer.prepare_timeout
    propose_timeout := paxos_timeout_stop proposer.propose_timeout
    restart_timeout := paxos_timeout_stop proposer.restart_timeout }

def paxos_proposer_propose (paxos : paxos_t) (value : Nat) (now : Nat) :
    paxos_t × List paxos_event :=
  let paxos1 : paxos_t :=
    { paxos with
      proposer := { paxos.proposer with
                    state := { paxos.proposer.state with proposed_value := value } } }
  __start_preparing paxos1 now

/-! ## Bootstrap and catch-up -/

def __on_bootstrap (self : paxos_t) (message : paxos_message_t) : paxos_t × List paxos_event :=
  if !self.learner.has_learned_value then (self, [])
  else
    match paxos_get_accepted_value self self.learner.paxos_id with
    | some value =>
      let omsg := paxos_message_catchup_response self.learner.paxos_id self.node_id value
      (self, [paxos_event.send message.node_id omsg])
    | none => (self, [])

def __on_catchup_start (self : paxos_t) (message : paxos_message_t) : paxos_t × List paxos_event :=
  if self.node_id = message.node_id then (self, [])
  else
    let omsg := paxos_message_catchup_request message.paxos_id self.node_id
    (self, [paxos_event.send message.node_id omsg])

def __on_catchup_request (self : paxos_t) (message : paxos_message_t) :
    paxos_t × List paxos_event :=
  match paxos_get_accepted_value self message.paxos_id with
  | some value =>
    let omsg := paxos_message_catchup_response message.paxos_id self.node_id value
    (self, [paxos_event.send message.node_id omsg])
  | none => (self, [])

def __on_catchup_response (self : paxos_t) (message : paxos_message_t) :
    paxos_t × List paxos_event :=
  if self.learner.has_learned_value && decide (self.learner.paxos_id ≥ message.paxos_id) then
    (self, [])
  else
    let self1 : paxos_t := { self with learner := { self.learner with paxos_id := message.paxos_id } }
    let r := paxos_learner_learn_value self1 message.value
    let self2 := r.1
    ({ self2 with
       proposer := { self2.proposer with state := paxos_proposer_state_reset self2.proposer.state }
       acceptor := { self2.acceptor with state := paxos_acceptor_state_reset self2.acceptor.state } },
     r.2)

/-! ## Engine API -/

/-- The engine record is not cleared by `paxos_open`: members it does not assign
keep the prior content `self` of the memory. -/
def paxos_open (self : paxos_t) (node_id num_nodes : Nat) : paxos_t :=
  { self with
    quorum := { self.quorum with num_nodes := num_nodes % U32 }
    node_id := node_id
    proposer := paxos_proposer_init self.proposer
    acceptor := paxos_acceptor_init self.acceptor
    learner := paxos_learner_init self.learner }

def paxos_close (self : paxos_t) : paxos_t :=
  { self with proposer := paxos_proposer_stop self.proposer }

def paxos_bootstrap (self : paxos_t) : paxos_t × List paxos_event :=
  (self, [paxos_event.broadcast (paxos_message_bootstrap self.node_id)])

def paxos_propose (self : paxos_t) (value : Nat) (now : Nat) : paxos_t × List paxos_event :=
  paxos_proposer_propose self value now

/-- The timer record stored in a slot of the proposer. -/
def paxos_timer (self : paxos_t) : paxos_timer_id → paxos_timeout_t
  | paxos_timer_id.prepare_timeout => self.proposer.prepare_timeout
  | paxos_timer_id.propose_timeout => self.proposer.propose_timeout
  | paxos_timer_id.restart_timeout => self.proposer.restart_timeout

/-- One expansion of the local macro `__select_min_timeout(x)` of `paxos_timeout`. -/
def __select_min_timeout (self : paxos_t) (min_timeout : Option paxos_timer_id)
    (x : paxos_timer_id) : Option paxos_timer_id :=
  if (paxos_timer self x).active &&
      (match min_timeout with
       | none => true
       | some m => decide ((paxos_timer self x).expire_time < (paxos_timer self m).expire_time))
  then some x else min_timeout

/-- Returns the timer to wait for, `none` for the `NULL` pointer. -/
def paxos_timeout (self : paxos_t) : Option paxos_timer_id :=
  let m0 : Option paxos_timer_id := none
  let m1 := __select_min_timeout self m0 paxos_timer_id.prepare_timeout
  let m2 := __select_min_timeout self m1 paxos_timer_id.propose_timeout
  __select_min_timeout self m2 paxos_timer_id.restart_timeout

/-- Fires the callback of an active timer after clearing `active`; `none` is the
`NULL` pointer. -/
def paxos_timeout_trigger (self : paxos_t) (timer : Option paxos_timer_id) (now : Nat) :
    paxos_t × List paxos_event :=
  match timer with
  | none => (self, [])
  | some paxos_timer_id.prepare_timeout =>
    if self.proposer.prepare_timeout.active then
      __on_prepare_timeout
        { self with
          proposer := { self.proposer with
                        prepare_timeout := { self.proposer.prepare_timeout with active := false } } }
        now
    else (self, [])
  | some paxos_timer_id.propose_timeout =>
    if self.proposer.propose_timeout.active then
      __on_propose_timeout
        { self with
          proposer := { self.proposer with
                        propose_timeout := { self.proposer.propose_timeout with active := false } } }
        now
    else (self, [])
  | some paxos_timer_id.restart_timeout =>
    if self.proposer.restart_timeout.active then
      __on_restart_timeout
        { self with
          proposer := { self.proposer with
                        restart_timeout := { self.proposer.restart_timeout with active := false } } }
        now
    else (self, [])

def paxos_process_message (paxos : paxos_t) (message : paxos_message_t) (now : Nat) :
    paxos_t × List paxos_event :=
  if message.type = PAXOS_PREPARE_REQUEST then __on_prepare_request paxos message
  else if message.type = PAXOS_PREPARE_REJECTED ∨
          message.type = PAXOS_PREPARE_PREVIOUSLY_ACCEPTED ∨
          message.type = PAXOS_PREPARE_CURRENTLY_OPEN then
    __on_prepare_response paxos message now
  else if message.type = PAXOS_PROPOSE_REQUEST then __on_propose_request paxos message
  else if message.type = PAXOS_PROPOSE_REJECTED ∨ message.type = PAXOS_PROPOSE_ACCEPTED then
    __on_propose_response paxos message now
  else if message.type = PAXOS_LEARN_PROPOSAL ∨ message.type = PAXOS_LEARN_VALUE then
    __on_learn_chosen paxos message now
  else if message.type = PAXOS_REQUEST_CHOSEN then __on_request_chosen paxos message
  else if message.type = PAXOS_BOOTSTRAP then __on_bootstrap paxos message
  else if message.type = PAXOS_CATCHUP_START then __on_catchup_start paxos message
  else if message.type = PAXOS_CATCHUP_REQUEST then __on_catchup_request paxos message
  else if message.type = PAXOS_CATCHUP_RESPONSE then __on_catchup_response paxos message
  else (paxos, [])

/-! ## Runs of one engine -/

/-- One call of the host into the engine. -/
inductive paxos_call where
  | process_message (message : paxos_message_t)
  | propose (value : Nat)
  | bootstrap
  | timeout_trigger (timer : Option paxos_timer_id)
deriving DecidableEq, Repr

/-- The engine executes one host call at wall clock time `now`. -/
def paxos_step (self : paxos_t) (now : Nat) : paxos_call → paxos_t × List paxos_event
  | paxos_call.process_message message => paxos_process_message self message now
  | paxos_call.propose value => paxos_propose self value now
  | paxos_call.bootstrap => paxos_bootstrap self
  | paxos_call.timeout_trigger timer => paxos_timeout_trigger self timer now

/-- State after a sequence of host calls, each with its clock reading. -/
def paxos_run (self : paxos_t) : List (Nat × paxos_call) → paxos_t
  | [] => self
  | c :: cs => paxos_run (paxos_step self c.1 c.2).1 cs

/-- States reachable from `paxos_open` by host calls. -/
inductive Reachable : paxos_t → Prop where
  | opened (prior : paxos_t) (node_id num_nodes : Nat) :
      Reachable (paxos_open prior node_id num_nodes)
  | step (s : paxos_t) (now : Nat) (c : paxos_call) :
      Reachable s → Reachable (paxos_step s now c).1

/-! ## Wording of the specification -/

/-- The can-accept predicate in the words of the specification: same instance,
ballot not below the promise, no commit in flight. -/
def can_accept_spec (s : paxos_t) (m : paxos_message_t) : Prop :=
  m.paxos_id = s.learner.paxos_id ∧
  m.proposal_id ≥ s.acceptor.state.promised_proposal_id ∧
  s.acceptor.is_committing = false

instance (s : paxos_t) (m : paxos_message_t) : Decidable (can_accept_spec s m) := by
  unfold can_accept_spec
  infer_instance


/-- The all-zero engine record (the host clears the memory before `paxos_open`). -/
def paxos_zero : paxos_t :=
  { proposer :=
      { state := { proposal_id := 0, highest_received_proposal_id := 0,
                   highest_promised_proposal_id := 0, proposed_value := 0,
                   preparing := false, proposing := false, learn_sent := false }
        prepare_timeout := { active := false, timeout := 0, expire_time := 0 }
        propose_timeout := { active := false, timeout := 0, expire_time := 0 }
        restart_timeout := { active := false, timeout := 0, expire_time := 0 } }
    acceptor :=
      { state := { promised_proposal_id := 0, accepted_proposal_id := 0,
                   accepted_value := 0, accepted := false }
        sender_id := 0, written_paxos_id := 0, is_committing := false }
    learner := { paxos_id := 0, learned_value := 0, has_learned_value := false,
                 last_request_chosen_time := 0 }
    quorum := { num_accepted := 0, num_rejected := 0, num_nodes := 0 }
    node_id := 0 }

/-- A freshly opened engine on cleared memory. -/
def paxos_fresh (node_id num_nodes : Nat) : paxos_t := paxos_open paxos_zero node_id num_nodes

/-! ## Observing the `learned_value` callback -/

/-- The instance number and value seen by the host when a callback call is a
call of `learned_value`. -/
def learned_of : paxos_event → Option (Nat × Nat)
  | paxos_event.learned_value paxos_id value => some (paxos_id, value)
  | _ => none

/-- The calls of `learned_value` among a list of callback calls, in order. -/
def learned_events (evs : List paxos_event) : List (Nat × Nat) := evs.filterMap learned_of

/-- The host calls of a run paired with the callbacks each of them performed. -/
def paxos_trace (self : paxos_t) : List (Nat × paxos_call) → List (paxos_call × List paxos_event)
  | [] => []
  | c :: cs => (c.2, (paxos_step self c.1 c.2).2) :: paxos_trace (paxos_step self c.1 c.2).1 cs

/-- Whether a host call delivers a PAXOS_CATCHUP_RESPONSE message. -/
def is_catchup_response : paxos_call → Bool
  | paxos_call.process_message message => decide (message.type = PAXOS_CATCHUP_RESPONSE)
  | _ => false

/-- The values of `learner.paxos_id` at the calls of `learned_value` made by those
steps of a trace whose host call satisfies `p`. -/
def learn_ids (p : paxos_call → Bool) : List (paxos_call × List paxos_event) → List Nat
  | [] => []
  | t :: ts => (if p t.1 then (learned_events t.2).map Prod.fst else []) ++ learn_ids p ts

/-- No state of the run, the first included, has `learner.paxos_id = 2^64 - 1`
or beyond, so the increment of `paxos_start_new_round` never wraps. -/
def paxos_no_wrap (self : paxos_t) : List (Nat × paxos_call) → Bool
  | [] => decide (self.learner.paxos_id < U64 - 1)
  | c :: cs => decide (self.learner.paxos_id < U64 - 1) &&
      paxos_no_wrap (paxos_step self c.1 c.2).1 cs

/-- Every step of the run keeps `learner.paxos_id` and calls `learned_value` not
at all. -/
def stays_in_instance (self : paxos_t) : List (Nat × paxos_call) → Bool
  | [] => true
  | c :: cs =>
    decide ((paxos_step self c.1 c.2).1.learner.paxos_id = self.learner.paxos_id) &&
    decide (learned_events (paxos_step self c.1 c.2).2 = []) &&
    stays_in_instance (paxos_step self c.1 c.2).1 cs

/-- Every step of the run keeps `learner.paxos_id`. -/
def keeps_paxos_id (self : paxos_t) : List (Nat × paxos_call) → Bool
  | [] => true
  | c :: cs =>
    decide ((paxos_step self c.1 c.2).1.learner.paxos_id = self.learner.paxos_id) &&
    keeps_paxos_id (paxos_step self c.1 c.2).1 cs

/-- The proposer state after `paxos_proposer_state_reset`. -/
def proposer_state_zero : paxos_proposer_state_t :=
  { proposal_id := 0, highest_received_proposal_id := 0, highest_promised_proposal_id := 0,
    proposed_value := 0, preparing := false, proposing := false, learn_sent := false }

/-- The acceptor state after `paxos_acceptor_state_reset`. -/
def acceptor_state_zero : paxos_acceptor_state_t :=
  { promised_proposal_id := 0, accepted_proposal_id := 0, accepted_value := 0,
    accepted := false }

/-! ## The three kinds of engine step -/

/-- A step that makes no call of `learned_value`: the learner keeps its instance
number and its learned flag, and the promise of the acceptor does not go down. -/
def step_quiet (s : paxos_t) (r : paxos_t × List paxos_event) : Prop :=
  learned_events r.2 = [] ∧
  r.1.learner.paxos_id = s.learner.paxos_id ∧
  r.1.learner.has_learned_value = s.learner.has_learned_value ∧
  r.1.node_id = s.node_id ∧
  s.acceptor.state.promised_proposal_id ≤ r.1.acceptor.state.promised_proposal_id

/-- A step in which `__on_learn_chosen` learns: one call of `learned_value` at the
current instance, then `paxos_start_new_round`. -/
def step_learn_chosen (s : paxos_t) (c : paxos_call) (r : paxos_t × List paxos_event) : Prop :=
  ∃ m, c = paxos_call.process_message m ∧
    (m.type = PAXOS_LEARN_PROPOSAL ∨ m.type = PAXOS_LEARN_VALUE) ∧
    m.paxos_id = s.learner.paxos_id ∧
    r.2 = [paxos_event.learned_value s.learner.paxos_id
            (if m.type = PAXOS_LEARN_VALUE then m.value else s.acceptor.state.accepted_value)] ∧
    r.1.learner.paxos_id = u64_add s.learner.paxos_id 1 ∧
    r.1.learner.has_learned_value = true ∧
    r.1.node_id = s.node_id ∧
    r.1.proposer.state = proposer_state_zero ∧
    r.1.acceptor.state = acceptor_state_zero

/-- A step in which `__on_catchup_response` learns: the learner jumps to the instance
of the message, one call of `learned_value`, both sub-states reset. -/
def step_catchup (s : paxos_t) (c : paxos_call) (r : paxos_t × List paxos_event) : Prop :=
  ∃ m, c = paxos_call.process_message m ∧
    m.type = PAXOS_CATCHUP_RESPONSE ∧
    ¬ (s.learner.has_learned_value = true ∧ s.learner.paxos_id ≥ m.paxos_id) ∧
    r.2 = [paxos_event.learned_value m.paxos_id m.value] ∧
    r.1.learner.paxos_id = m.paxos_id ∧
    r.1.learner.has_learned_value = true ∧
    r.1.node_id = s.node_id ∧
    r.1.proposer.state = proposer_state_zero ∧
    r.1.acceptor.state = acceptor_state_zero

/-! ## A cluster of engines over a lossy network

The network keeps every message emitted so far.  A delivery hands one of them
to a node it was addressed to (any node for a broadcast); a message may be
delivered never, once or several times, and in any order. -/

/-- The engines of a cluster, the messages emitted so far with their addressee
(`none` for a broadcast) and the log of `learned_value` calls as
`(node_id, learner.paxos_id, learner.learned_value)`. -/
structure cluster_t where
  nodes : List paxos_t
  sent : List (Option Nat × paxos_message_t)
  learned : List (Nat × Nat × Nat)
deriving DecidableEq, Repr

/-- What the scheduler can do: have a node propose, deliver the `k`-th emitted
message to a node, or fire a timer of a node. -/
inductive cluster_action where
  | propose (node_id : Nat) (value : Nat)
  | deliver (node_id : Nat) (k : Nat)
  | timeout_trigger (node_id : Nat) (timer : Option paxos_timer_id)
deriving DecidableEq, Repr

/-- Engines opened with the same `num_nodes`, one per listed node id. -/
def cluster_open (num_nodes : Nat) (node_ids : List Nat) : cluster_t :=
  { nodes := node_ids.map (fun i => paxos_fresh i num_nodes), sent := [], learned := [] }

/-- The engine of a node. -/
def cluster_node (c : cluster_t) (node_id : Nat) : Option paxos_t :=
  c.nodes.find? (fun p => decide (p.node_id = node_id))

/-- Routes the callbacks of one engine step: messages go to the network, calls
of `learned_value` to the log. -/
def cluster_emit (node_id : Nat) (c : cluster_t) : List paxos_event → cluster_t
  | [] => c
  | paxos_event.send target message :: evs =>
    cluster_emit node_id { c with sent := c.sent ++ [(some target, message)] } evs
  | paxos_event.broadcast message :: evs =>
    cluster_emit node_id { c with sent := c.sent ++ [(none, message)] } evs
  | paxos_event.learned_value paxos_id value :: evs =>
    cluster_emit node_id { c with learned := c.learned ++ [(node_id, paxos_id, value)] } evs

/-- Runs one host call on the engine of a node and routes its callbacks. -/
def cluster_call (c : cluster_t) (node_id : Nat) (now : Nat) (call : paxos_call) :
    Option cluster_t :=
  match cluster_node c node_id with
  | none => none
  | some p =>
    let r := paxos_step p now call
    some (cluster_emit node_id
      { c with nodes := c.nodes.map (fun q => if q.node_id = node_id then r.1 else q) } r.2)

/-- One scheduler action; `none` when the node does not exist or the message
was not emitted to it. -/
def cluster_step (c : cluster_t) (now : Nat) : cluster_action → Option cluster_t
  | cluster_action.propose node_id value => cluster_call c node_id now (paxos_call.propose value)
  | cluster_action.deliver node_id k =>
    match c.sent.get? k with
    | none => none
    | some (target, message) =>
      if target = none ∨ target = some node_id then
        cluster_call c node_id now (paxos_call.process_message message)
      else none
  | cluster_action.timeout_trigger node_id timer =>
    cluster_call c node_id now (paxos_call.timeout_trigger timer)

/-- A schedule of actions, each with the clock reading of the acting node. -/
def cluster_run (c : cluster_t) : List (Nat × cluster_action) → Option cluster_t
  | [] => some c
  | a :: as =>
    match cluster_step c a.1 a.2 with
    | none => none
    | some c1 => cluster_run c1 as

/-- Two proposers, nodes 1 and 2 of a three-node cluster, both at ballot 1: each
gathers the promises of itself and of node 3, then the acceptances of itself and
of node 3, and learns its own value. -/
def split_brain_schedule : List (Nat × cluster_action) :=
  [(0, cluster_action.propose 1 10),
   (0, cluster_action.propose 2 20),
   (0, cluster_action.deliver 3 0),
   (0, cluster_action.deliver 3 1),
   (0, cluster_action.deliver 1 0),
   (0, cluster_action.deliver 2 1),
   (0, cluster_action.deliver 1 2),
   (0, cluster_action.deliver 1 4),
   (0, cluster_action.deliver 2 3),
   (0, cluster_action.deliver 2 5),
   (0, cluster_action.deliver 1 6),
   (0, cluster_action.deliver 3 6),
   (0, cluster_action.deliver 1 8),
   (0, cluster_action.deliver 1 9),
   (0, cluster_action.deliver 1 10),
   (0, cluster_action.deliver 2 7),
   (0, cluster_action.deliver 3 7),
   (0, cluster_action.deliver 2 11),
   (0, cluster_action.deliver 2 12),
   (0, cluster_action.deliver 2 13)]

/-! ## The parts of the response handlers -/

/-- The vote counted by `__on_prepare_response`: rejected for PREPARE_REJECTED,
accepted for every other response. -/
def prepare_vote (q : paxos_quorum_t) (m : paxos_message_t) : paxos_quorum_t :=
  if m.type = PAXOS_PREPARE_REJECTED then paxos_quorum_vote_rejected q m.node_id
  else paxos_quorum_vote_accepted q m.node_id

/-- The vote counted by `__on_propose_response`. -/
def propose_vote (q : paxos_quorum_t) (m : paxos_message_t) : paxos_quorum_t :=
  if m.type = PAXOS_PROPOSE_REJECTED then paxos_quorum_vote_rejected q m.node_id
  else paxos_quorum_vote_accepted q m.node_id

/-- The second block of `__on_prepare_response`: adopt the value of a
PREPARE_PREVIOUSLY_ACCEPTED response that is not below the highest one received,
or record a higher promise from a PREPARE_REJECTED response. -/
def prepare_adopt (st : paxos_proposer_state_t) (m : paxos_message_t) : paxos_proposer_state_t :=
  if m.type = PAXOS_PREPARE_PREVIOUSLY_ACCEPTED ∧
      m.accepted_proposal_id ≥ st.highest_received_proposal_id then
    { st with highest_received_proposal_id := m.accepted_proposal_id
              proposed_value := m.value }
  else if m.type = PAXOS_PREPARE_REJECTED ∧
      m.promised_proposal_id > st.highest_promised_proposal_id then
    { st with highest_promised_proposal_id := m.promised_proposal_id }
  else st

/-- The engine after the first two blocks of `__on_prepare_response`. -/
def prepare_counted (s : paxos_t) (m : paxos_message_t) : paxos_t :=
  { s with quorum := prepare_vote s.quorum m
           proposer := { s.proposer with state := prepare_adopt s.proposer.state m } }

/-- The engine after the first block of `__on_propose_response`. -/
def propose_counted (s : paxos_t) (m : paxos_message_t) : paxos_t :=
  { s with quorum := propose_vote s.quorum m }

/-! ## The five ways a step can touch the proposer -/

/-- The step leaves the proposer state and the quorum counters alone. -/
def proposer_untouched (s : paxos_t) (r : paxos_t × List paxos_event) : Prop :=
  r.1.proposer.state = s.proposer.state ∧ r.1.quorum = s.quorum

/-- The step learns: the proposer state is reset, the counters are kept. -/
def proposer_reset (s : paxos_t) (r : paxos_t × List paxos_event) : Prop :=
  r.1.proposer.state = proposer_state_zero ∧ r.1.quorum = s.quorum ∧
  learned_events r.2 ≠ []

/-- The step enters phase 1: it is `__start_preparing` on the engine, up to the
proposed value (set by `paxos_proposer_propose`) and the timers. -/
def proposer_enters (s : paxos_t) (now : Nat) (r : paxos_t × List paxos_event) : Prop :=
  ∃ s1 : paxos_t,
    s1.proposer.state.proposal_id = s.proposer.state.proposal_id ∧
    s1.proposer.state.highest_promised_proposal_id
      = s.proposer.state.highest_promised_proposal_id ∧
    s1.quorum.num_nodes = s.quorum.num_nodes ∧
    s1.learner = s.learner ∧ s1.node_id = s.node_id ∧
    r = __start_preparing s1 now

/-- The step counts a prepare response of the current ballot. -/
def proposer_counts_prepare (s : paxos_t) (now : Nat) (c : paxos_call)
    (r : paxos_t × List paxos_event) : Prop :=
  ∃ m, c = paxos_call.process_message m ∧
    s.proposer.state.preparing = true ∧
    m.proposal_id = s.proposer.state.proposal_id ∧
    r = __on_prepare_response s m now

/-- The step counts a propose response of the current ballot. -/
def proposer_counts_propose (s : paxos_t) (now : Nat) (c : paxos_call)
    (r : paxos_t × List paxos_event) : Prop :=
  ∃ m, c = paxos_call.process_message m ∧
    s.proposer.state.proposing = true ∧
    m.proposal_id = s.proposer.state.proposal_id ∧
    r = __on_propose_response s m now

/-! ## Deterministic delivery in emission order -/

/-- The deliveries caused by emitted messages: a send goes to its addressee, a
broadcast to every node of the cluster (the sender included), in the order of
the node list. -/
def cluster_deliveries (c : cluster_t) :
    List (Option Nat × paxos_message_t) → List (Nat × paxos_message_t)
  | [] => []
  | (some target, message) :: es => (target, message) :: cluster_deliveries c es
  | (none, message) :: es =>
    c.nodes.map (fun p => (p.node_id, message)) ++ cluster_deliveries c es

/-- Processes the queue of pending deliveries first in, first out; what a step
emits is queued behind.  `none` when the fuel runs out before the queue is empty
or when a delivery names a node that does not exist. -/
def cluster_fifo : Nat → cluster_t → Nat → List (Nat × paxos_message_t) → Option cluster_t
  | _, c, _, [] => some c
  | 0, _, _, _ :: _ => none
  | fuel + 1, c, now, (target, message) :: rest =>
    match cluster_call c target now (paxos_call.process_message message) with
    | none => none
    | some c1 =>
      cluster_fifo fuel c1 now (rest ++ cluster_deliveries c1 (c1.sent.drop c.sent.length))

/-- A node proposes a value and the cluster runs until no delivery is pending. -/
def cluster_propose_fifo (fuel : Nat) (c : cluster_t) (now : Nat) (node_id value : Nat) :
    Option cluster_t :=
  match cluster_call c node_id now (paxos_call.propose value) with
  | none => none
  | some c1 => cluster_fifo fuel c1 now (cluster_deliveries c1 (c1.sent.drop c.sent.length))

/-- The messages among the callbacks of a step that come back to the node
itself: every broadcast and every send addressed to `node_id`. -/
def loopback_messages (node_id : Nat) : List paxos_event → List paxos_message_t
  | [] => []
  | paxos_event.send target message :: evs =>
    if target = node_id then message :: loopback_messages node_id evs
    else loopback_messages node_id evs
  | paxos_event.broadcast message :: evs => message :: loopback_messages node_id evs
  | paxos_event.learned_value _ _ :: evs => loopback_messages node_id evs

/-- A single engine fed with its own messages in emission order; `clock` gives
the clock reading of each call.  Returns the final state and the calls of
`learned_value` made, `none` when the fuel runs out before the queue is empty. -/
def paxos_loopback : Nat → (Nat → Nat) → paxos_t → List paxos_message_t → List (Nat × Nat) →
    Option (paxos_t × List (Nat × Nat))
  | _, _, s, [], learned => some (s, learned)
  | 0, _, _, _ :: _, _ => none
  | fuel + 1, clock, s, message :: rest, learned =>
    paxos_loopback fuel clock (paxos_process_message s message (clock fuel)).1
      (rest ++ loopback_messages s.node_id (paxos_process_message s message (clock fuel)).2)
      (learned ++ learned_events (paxos_process_message s message (clock fuel)).2)

/-! ## Runs that begin with a proposal -/

/-- States reachable from `paxos_open` with `num_nodes = n` followed by a first
`paxos_propose` and then any host calls. -/
inductive ReachableProposed (n : Nat) : paxos_t → Prop where
  | first (prior : paxos_t) (node_id value now : Nat) :
      ReachableProposed n (paxos_propose (paxos_open prior node_id n) value now).1
  | step (s : paxos_t) (now : Nat) (c : paxos_call) :
      ReachableProposed n s → ReachableProposed n (paxos_step s now c).1

/-- The invariant behind the bound on the vote counters: the phases exclude each
other, the counters sum to at most `n`, and during a ballot phase neither
threshold has been reached. -/
def vote_inv (n : Nat) (s : paxos_t) : Prop :=
  s.quorum.num_nodes = n ∧
  ¬ (s.proposer.state.preparing = true ∧ s.proposer.state.proposing = true) ∧
  s.quorum.num_accepted + s.quorum.num_rejected ≤ n ∧
  (s.proposer.state.preparing = true ∨ s.proposer.state.proposing = true →
    s.quorum.num_accepted < (n + 2) / 2 ∧ s.quorum.num_rejected < (n + 1) / 2)

/-! ## States of a run, deliveries of responses -/

/-- The states an engine goes through in a run, the first and the last included. -/
def paxos_states (self : paxos_t) : List (Nat × paxos_call) → List paxos_t
  | [] => [self]
  | c :: cs => self :: paxos_states (paxos_step self c.1 c.2).1 cs

/-- State after processing a sequence of inbound messages, each with its clock
reading. -/
def deliver_all (self : paxos_t) : List (Nat × paxos_message_t) → paxos_t
  | [] => self
  | x :: xs => deliver_all (paxos_process_message self x.2 x.1).1 xs

/-- The three types of response to a PREPARE_REQUEST. -/
def is_prepare_response (m : paxos_message_t) : Prop :=
  m.type = PAXOS_PREPARE_REJECTED ∨ m.type = PAXOS_PREPARE_PREVIOUSLY_ACCEPTED ∨
  m.type = PAXOS_PREPARE_CURRENTLY_OPEN

instance (m : paxos_message_t) : Decidable (is_prepare_response m) := by
  unfold is_prepare_response
  infer_instance

/-- The proposer state after the second block of `__on_prepare_response` has run
on each message of a list in turn. -/
def adopt_all (st : paxos_proposer_state_t) : List paxos_message_t → paxos_proposer_state_t
  | [] => st
  | m :: ms => adopt_all (prepare_adopt st m) ms

/-! ## Order of the timers -/

/-- Position of a timer in the order in which `paxos_timeout` examines the three
timers: prepare, propose, restart. -/
def paxos_timer_rank : paxos_timer_id → Nat
  | paxos_timer_id.prepare_timeout => 0
  | paxos_timer_id.propose_timeout => 1
  | paxos_timer_id.restart_timeout => 2

/-! ## Time left on a timer -/

/-- Conversion of an unsigned value to `int` (32 bits, two's complement), as the
assignment `int timeout = ...` of `paxos_timeout_remaining` performs it: the value
modulo `2^32`, less `2^32` when bit 31 is set. -/
def int_of_unsigned (x : Nat) : Int :=
  if x % U32 < 2 ^ 31 then ((x % U32 : Nat) : Int) else ((x % U32 : Nat) : Int) - ((U32 : Nat) : Int)

/-- The function `paxos_timeout_remaining`; `none` is the `NULL` pointer.  The
difference is taken in `uint64_t`, stored in an `int`, and a negative `int` gives
the default of 1000. -/
def paxos_timeout_remaining (self : Option paxos_timeout_t) (now : Nat) : Nat :=
  let timeout : Int :=
    match self with
    | none => -1
    | some t => if t.active then int_of_unsigned (u64_sub now t.expire_time) else -1
  if timeout < 0 then 1000 else timeout.toNat

/-! ## A run that learns five instances and then answers a bootstrap -/

/-- Node 1 receives PAXOS_LEARN_VALUE for the instances 0 to 4 in turn, with the
values 1 to 5, and then the PAXOS_BOOTSTRAP of node 3. -/
def learn_then_bootstrap_run : List (Nat × paxos_call) :=
  [(0, paxos_call.process_message
        { type := PAXOS_LEARN_VALUE, paxos_id := 0, node_id := 2, proposal_id := 0,
          accepted_proposal_id := 0, promised_proposal_id := 0, value := 1 }),
   (0, paxos_call.process_message
        { type := PAXOS_LEARN_VALUE, paxos_id := 1, node_id := 2, proposal_id := 0,
          accepted_proposal_id := 0, promised_proposal_id := 0, value := 2 }),
   (0, paxos_call.process_message
        { type := PAXOS_LEARN_VALUE, paxos_id := 2, node_id := 2, proposal_id := 0,
          accepted_proposal_id := 0, promised_proposal_id := 0, value := 3 }),
   (0, paxos_call.process_message
        { type := PAXOS_LEARN_VALUE, paxos_id := 3, node_id := 2, proposal_id := 0,
          accepted_proposal_id := 0, promised_proposal_id := 0, value := 4 }),
   (0, paxos_call.process_message
        { type := PAXOS_LEARN_VALUE, paxos_id := 4, node_id := 2, proposal_id := 0,
          accepted_proposal_id := 0, promised_proposal_id := 0, value := 5 }),
   (0, paxos_call.process_message (paxos_message_bootstrap 3))]

/-! ## The timers of the proposer -/

/-- Number of active timers among the three timers of the proposer. -/
def active_timers (s : paxos_t) : Nat :=
  (if s.proposer.prepare_timeout.active then 1 else 0) +
  (if s.proposer.propose_timeout.active then 1 else 0) +
  (if s.proposer.restart_timeout.active then 1 else 0)

/-- The invariant behind the bound on the active timers: at most one timer is
active, `propose_timeout` is inactive during phase 1 and `prepare_timeout` is
inactive during phase 2. -/
def timers_inv (s : paxos_t) : Prop :=
  active_timers s ≤ 1 ∧
  (s.proposer.state.preparing = true → s.proposer.propose_timeout.active = false) ∧
  (s.proposer.state.proposing = true → s.proposer.prepare_timeout.active = false)

/-- The flags the invariant on the timers reads: the `active` members of the
prepare, propose and restart timers, then `preparing` and `proposing`. -/
def timer_flags (s : paxos_t) : Bool × Bool × Bool × Bool × Bool :=
  (s.proposer.prepare_timeout.active, s.proposer.propose_timeout.active,
   s.proposer.restart_timeout.active, s.proposer.state.preparing, s.proposer.state.proposing)

/-- The invariant on the timers as a function of the flags. -/
def timer_flags_ok : Bool × Bool × Bool × Bool × Bool → Bool
  | (a1, a2, a3, p1, p2) =>
    decide ((if a1 then 1 else 0) + (if a2 then 1 else 0) + (if a3 then 1 else 0) ≤ 1) &&
    (!p1 || !a2) && (!p2 || !a1)

/-- States reachable from `paxos_open` when the host processes messages, proposes,
bootstraps, and triggers no timer other than the one `paxos_timeout` returns (the
loop of `main` in `paxos-server.c`). -/
inductive ReachableHost : paxos_t → Prop where
  | opened (prior : paxos_t) (node_id num_nodes : Nat) :
      ReachableHost (paxos_open prior node_id num_nodes)
  | process_message (s : paxos_t) (now : Nat) (message : paxos_message_t) :
      ReachableHost s → ReachableHost (paxos_process_message s message now).1
  | propose (s : paxos_t) (now : Nat) (value : Nat) :
      ReachableHost s → ReachableHost (paxos_propose s value now).1
  | bootstrap (s : paxos_t) :
      ReachableHost s → ReachableHost (paxos_bootstrap s).1
  | timeout_trigger (s : paxos_t) (now : Nat) :
      ReachableHost s → ReachableHost (paxos_timeout_trigger s (paxos_timeout s) now).1

/-! ## Re-entering phase 1 from a timer callback -/

/-- The outcome "the proposer re-enters phase 1" of a timer callback run on `s`:
`preparing` set, `proposing` cleared, both vote counters zero, the ballot raised to
`1 + max(proposal_id, highest_promised_proposal_id)` (a `uint64_t` sum), and
the one callback call being the broadcast of PREPARE_REQUEST carrying the
current instance, the own node id and the new ballot. -/
def reenters_phase_one (s : paxos_t) (r : paxos_t × List paxos_event) : Prop :=
  r.1.proposer.state.preparing = true ∧
  r.1.proposer.state.proposing = false ∧
  r.1.quorum.num_accepted = 0 ∧
  r.1.quorum.num_rejected = 0 ∧
  r.1.proposer.state.proposal_id =
    (1 + max s.proposer.state.proposal_id
          s.proposer.state.highest_promised_proposal_id) % 2 ^ 64 ∧
  r.2 = [paxos_event.broadcast
          (paxos_message_prepare_request s.learner.paxos_id s.node_id
            ((1 + max s.proposer.state.proposal_id
                  s.proposer.state.highest_promised_proposal_id) % 2 ^ 64))]

/-! ## Catch-up traffic -/

/-- Whether every PAXOS_CATCHUP_RESPONSE delivered in a run names an instance of
at least 1.  No engine sends one for instance 0: `__on_bootstrap` answers only
once a value has been learned, which leaves `learner.paxos_id` at 1 or more, and
`__on_catchup_request` echoes the instance of a PAXOS_CATCHUP_START, which
`__on_request_chosen` builds with `learner.paxos_id` above the instance of the
request it answers (`cluster_catchup_ids_positive` below). -/
def catchup_ids_positive : List (Nat × paxos_call) → Bool
  | [] => true
  | c :: cs =>
    (match c.2 with
     | paxos_call.process_message message =>
       decide (message.type = PAXOS_CATCHUP_RESPONSE → 1 ≤ message.paxos_id)
     | _ => true) && catchup_ids_positive cs

/-- The catch-up messages name an instance of at least 1: the property of a
PAXOS_CATCHUP_START, PAXOS_CATCHUP_REQUEST or PAXOS_CATCHUP_RESPONSE message
that every engine keeps on what it sends when it holds on what it receives. -/
def catchup_wire_ok (m : paxos_message_t) : Prop :=
  (m.type = PAXOS_CATCHUP_START ∨ m.type = PAXOS_CATCHUP_REQUEST ∨
    m.type = PAXOS_CATCHUP_RESPONSE) → 1 ≤ m.paxos_id

/-- The message of a `send` or `broadcast` callback call. -/
def event_message : paxos_event → Option paxos_message_t
  | paxos_event.send _ message => some message
  | paxos_event.broadcast message => some message
  | paxos_event.learned_value _ _ => none

/-- An engine that has learned a value is at instance 1 or beyond. -/
def learned_positive (s : paxos_t) : Prop :=
  s.learner.has_learned_value = true → 1 ≤ s.learner.paxos_id

/-- Every message among the callback calls of a step satisfies `catchup_wire_ok`. -/
def emits_wire_ok (r : paxos_t × List paxos_event) : Prop :=
  ∀ e ∈ r.2, ∀ m, event_message e = some m → catchup_wire_ok m

/-- The property of a cluster behind `catchup_ids_positive`: every engine that
has learned is at instance 1 or beyond, and every message sent so far satisfies
`catchup_wire_ok`. -/
def cluster_ok (c : cluster_t) : Prop :=
  (∀ p ∈ c.nodes, learned_positive p) ∧ (∀ x ∈ c.sent, catchup_wire_ok x.2)

/-- No engine of the cluster is at instance `2^64 - 1` or beyond, now and after
each action of the schedule. -/
def cluster_below_wrap (c : cluster_t) : List (Nat × cluster_action) → Bool
  | [] => c.nodes.all (fun p => decide (p.learner.paxos_id < U64 - 1))
  | a :: as =>
    c.nodes.all (fun p => decide (p.learner.paxos_id < U64 - 1)) &&
    (match cluster_step c a.1 a.2 with
     | none => true
     | some c1 => cluster_below_wrap c1 as)

/-! # Properties -/

theorem can_accept_request_iff (s : paxos_t) (m : paxos_message_t) :
    __can_accept_request s m = true ↔ can_accept_spec s m := by
  unfold __can_accept_request can_accept_spec
  by_cases h1 : m.paxos_id = s.learner.paxos_id
  · by_cases h2 : m.proposal_id < s.acceptor.state.promised_proposal_id
    · simp [h1, h2]
    · cases h3 : s.acceptor.is_committing <;> simp [h1, h2, Nat.le_of_not_lt h2]
  · simp [h1]

theorem process_prepare_request_eq (s : paxos_t) (m : paxos_message_t) (now : Nat)
    (hm : m.type = PAXOS_PREPARE_REQUEST) :
    paxos_process_message s m now = __on_prepare_request s m := by
  simp [paxos_process_message, hm]

theorem process_propose_request_eq (s : paxos_t) (m : paxos_message_t) (now : Nat)
    (hm : m.type = PAXOS_PROPOSE_REQUEST) :
    paxos_process_message s m now = __on_propose_request s m := by
  simp [paxos_process_message, hm, PAXOS_PROPOSE_REQUEST, PAXOS_PREPARE_REQUEST,
    PAXOS_PREPARE_REJECTED, PAXOS_PREPARE_PREVIOUSLY_ACCEPTED, PAXOS_PREPARE_CURRENTLY_OPEN]

/-- What `__on_prepare_request` does when the request can be accepted. -/
theorem on_prepare_request_accept (s : paxos_t) (m : paxos_message_t)
    (hc : can_accept_spec s m) :
    __on_prepare_request s m =
      ({ s with
         acceptor := { state := { s.acceptor.state with promised_proposal_id := m.proposal_id }
                       sender_id := m.node_id
                       written_paxos_id := s.learner.paxos_id
                       is_committing := false } },
       [paxos_event.send m.node_id
          (if s.acceptor.state.accepted = false then
             paxos_message_prepare_currently_open m.paxos_id s.node_id m.proposal_id
           else
             paxos_message_prepare_previously_accepted m.paxos_id s.node_id m.proposal_id
               s.acceptor.state.accepted_proposal_id s.acceptor.state.accepted_value)]) := by
  have h := (can_accept_request_iff s m).mpr hc
  cases ha : s.acceptor.state.accepted <;>
    simp [__on_prepare_request, h, __accept_prepare_request, __commit, paxos_commit,
      __on_state_written, ha]

/-- What `__on_propose_request` does when the request can be accepted. -/
theorem on_propose_request_accept (s : paxos_t) (m : paxos_message_t)
    (hc : can_accept_spec s m) :
    __on_propose_request s m =
      ({ s with
         acceptor := { state := { s.acceptor.state with
                                  accepted := true
                                  accepted_proposal_id := m.proposal_id
                                  accepted_value := m.value }
                       sender_id := m.node_id
                       written_paxos_id := s.learner.paxos_id
                       is_committing := false } },
       [paxos_event.send m.node_id
          (paxos_message_propose_accepted m.paxos_id s.node_id m.proposal_id)]) := by
  have h := (can_accept_request_iff s m).mpr hc
  simp [__on_propose_request, h, __accept_propose_request, __commit, paxos_commit,
    __on_state_written]

theorem on_prepare_request_reject (s : paxos_t) (m : paxos_message_t)
    (hc : ¬ can_accept_spec s m) :
    __on_prepare_request s m =
      (s, [paxos_event.send m.node_id
             (paxos_message_prepare_rejected m.paxos_id s.node_id m.proposal_id
                s.acceptor.state.promised_proposal_id)]) := by
  have h : __can_accept_request s m = false := by
    cases h' : __can_accept_request s m
    · rfl
    · exact absurd ((can_accept_request_iff s m).mp h') hc
  simp [__on_prepare_request, h]

theorem on_propose_request_reject (s : paxos_t) (m : paxos_message_t)
    (hc : ¬ can_accept_spec s m) :
    __on_propose_request s m =
      (s, [paxos_event.send m.node_id
             (paxos_message_propose_rejected m.paxos_id s.node_id m.proposal_id)]) := by
  have h : __can_accept_request s m = false := by
    cases h' : __can_accept_request s m
    · rfl
    · exact absurd ((can_accept_request_iff s m).mp h') hc
  simp [__on_propose_request, h]

/-! ## Request handling by the acceptor -/

/-- C7. Can-accept predicate: a PREPARE_REQUEST or PROPOSE_REQUEST is answered with
exactly one non-REJECTED response to its sender if and only if it is for the
current instance, its ballot is not below the promise and no commit is in
flight; otherwise the single reply is PREPARE_REJECTED, respectively
PROPOSE_REJECTED. -/
theorem can_accept_predicate (s : paxos_t) (m : paxos_message_t) (now : Nat)
    (hm : m.type = PAXOS_PREPARE_REQUEST ∨ m.type = PAXOS_PROPOSE_REQUEST) :
    ((∃ resp, (paxos_process_message s m now).2 = [paxos_event.send m.node_id resp] ∧
          resp.type ≠ PAXOS_PREPARE_REJECTED ∧ resp.type ≠ PAXOS_PROPOSE_REJECTED) ↔
        (m.paxos_id = s.learner.paxos_id ∧
          m.proposal_id ≥ s.acceptor.state.promised_proposal_id ∧
          s.acceptor.is_committing = false)) ∧
    (¬ (m.paxos_id = s.learner.paxos_id ∧
          m.proposal_id ≥ s.acceptor.state.promised_proposal_id ∧
          s.acceptor.is_committing = false) →
      ∃ resp, (paxos_process_message s m now).2 = [paxos_event.send m.node_id resp] ∧
        resp.type = (if m.type = PAXOS_PREPARE_REQUEST then PAXOS_PREPARE_REJECTED
                     else PAXOS_PROPOSE_REJECTED)) := by
  have key : ∀ hc : ¬ can_accept_spec s m,
      ∃ resp, (paxos_process_message s m now).2 = [paxos_event.send m.node_id resp] ∧
        resp.type = (if m.type = PAXOS_PREPARE_REQUEST then PAXOS_PREPARE_REJECTED
                     else PAXOS_PROPOSE_REJECTED) := by
    intro hc
    rcases hm with hm | hm
    · rw [process_prepare_request_eq s m now hm, on_prepare_request_reject s m hc]
      exact ⟨_, rfl, by simp [hm, paxos_message_prepare_rejected]⟩
    · rw [process_propose_request_eq s m now hm, on_propose_request_reject s m hc]
      refine ⟨_, rfl, ?_⟩
      simp [hm, paxos_message_propose_rejected, __paxos_message_proposal_id,
        PAXOS_PROPOSE_REQUEST, PAXOS_PREPARE_REQUEST]
  refine ⟨⟨?_, ?_⟩, key⟩
  · rintro ⟨resp, hev, hne1, hne2⟩
    by_contra hc
    obtain ⟨resp2, hev2, hty⟩ := key hc
    rw [hev] at hev2
    have hrr : resp = resp2 := by
      simpa using hev2
    subst hrr
    by_cases hp : m.type = PAXOS_PREPARE_REQUEST
    · rw [if_pos hp] at hty
      exact hne1 hty
    · rw [if_neg hp] at hty
      exact hne2 hty
  · intro hc
    rcases hm with hm | hm
    · rw [process_prepare_request_eq s m now hm, on_prepare_request_accept s m hc]
      refine ⟨_, rfl, ?_⟩
      cases ha : s.acceptor.state.accepted <;>
        simp [paxos_message_prepare_currently_open, paxos_message_prepare_previously_accepted,
          __paxos_message_proposal_id, PAXOS_PREPARE_CURRENTLY_OPEN,
          PAXOS_PREPARE_PREVIOUSLY_ACCEPTED, PAXOS_PREPARE_REJECTED, PAXOS_PROPOSE_REJECTED]
    · rw [process_propose_request_eq s m now hm, on_propose_request_accept s m hc]
      refine ⟨_, rfl, ?_⟩
      simp [paxos_message_propose_accepted, __paxos_message_proposal_id,
        PAXOS_PROPOSE_ACCEPTED, PAXOS_PREPARE_REJECTED, PAXOS_PROPOSE_REJECTED]

/-- Witness of C7: a PREPARE_REQUEST at ballot 1 on a fresh engine. -/
theorem can_accept_predicate_witness :
    ((paxos_message_prepare_request 0 2 1).type = PAXOS_PREPARE_REQUEST ∨
      (paxos_message_prepare_request 0 2 1).type = PAXOS_PROPOSE_REQUEST) ∧
    ((∃ resp, (paxos_process_message (paxos_fresh 1 3) (paxos_message_prepare_request 0 2 1) 0).2
            = [paxos_event.send (paxos_message_prepare_request 0 2 1).node_id resp] ∧
          resp.type ≠ PAXOS_PREPARE_REJECTED ∧ resp.type ≠ PAXOS_PROPOSE_REJECTED) ↔
        ((paxos_message_prepare_request 0 2 1).paxos_id = (paxos_fresh 1 3).learner.paxos_id ∧
          (paxos_message_prepare_request 0 2 1).proposal_id ≥
            (paxos_fresh 1 3).acceptor.state.promised_proposal_id ∧
          (paxos_fresh 1 3).acceptor.is_committing = false)) :=
  ⟨Or.inl rfl,
    (can_accept_predicate (paxos_fresh 1 3) (paxos_message_prepare_request 0 2 1) 0
      (Or.inl rfl)).1⟩

/-- C8. Prepare handling: an accepted PREPARE_REQUEST sets the promise to the
ballot of the message and `sender_id` to its sender, leaves `accepted`,
`accepted_proposal_id` and `accepted_value` as they were, and sends exactly one
message, to the sender: PREPARE_CURRENTLY_OPEN when nothing was accepted yet,
otherwise PREPARE_PREVIOUSLY_ACCEPTED with the accepted ballot and value. -/
theorem prepare_handling (s : paxos_t) (m : paxos_message_t) (now : Nat)
    (hm : m.type = PAXOS_PREPARE_REQUEST) (hc : __can_accept_request s m = true) :
    (paxos_process_message s m now).1.acceptor.state.promised_proposal_id = m.proposal_id ∧
    (paxos_process_message s m now).1.acceptor.sender_id = m.node_id ∧
    (paxos_process_message s m now).1.acceptor.state.accepted = s.acceptor.state.accepted ∧
    (paxos_process_message s m now).1.acceptor.state.accepted_proposal_id
      = s.acceptor.state.accepted_proposal_id ∧
    (paxos_process_message s m now).1.acceptor.state.accepted_value
      = s.acceptor.state.accepted_value ∧
    (paxos_process_message s m now).2 =
      [paxos_event.send m.node_id
        (if s.acceptor.state.accepted = false then
           { type := PAXOS_PREPARE_CURRENTLY_OPEN, paxos_id := m.paxos_id, node_id := s.node_id,
             proposal_id := m.proposal_id, accepted_proposal_id := 0,
             promised_proposal_id := 0, value := 0 }
         else
           { type := PAXOS_PREPARE_PREVIOUSLY_ACCEPTED, paxos_id := m.paxos_id,
             node_id := s.node_id, proposal_id := m.proposal_id,
             accepted_proposal_id := s.acceptor.state.accepted_proposal_id,
             promised_proposal_id := 0, value := s.acceptor.state.accepted_value })] := by
  rw [process_prepare_request_eq s m now hm,
    on_prepare_request_accept s m ((can_accept_request_iff s m).mp hc)]
  refine ⟨rfl, rfl, rfl, rfl, rfl, ?_⟩
  cases ha : s.acceptor.state.accepted <;>
    simp [paxos_message_prepare_currently_open, paxos_message_prepare_previously_accepted,
      __paxos_message_proposal_id]

/-- Witness of C8: a PREPARE_REQUEST at ballot 1 from node 2 on a fresh engine. -/
theorem prepare_handling_witness :
    __can_accept_request (paxos_fresh 1 3) (paxos_message_prepare_request 0 2 1) = true ∧
    (paxos_process_message (paxos_fresh 1 3)
      (paxos_message_prepare_request 0 2 1) 0).1.acceptor.state.promised_proposal_id = 1 ∧
    (paxos_process_message (paxos_fresh 1 3)
      (paxos_message_prepare_request 0 2 1) 0).1.acceptor.sender_id = 2 :=
  ⟨rfl,
   (prepare_handling (paxos_fresh 1 3) (paxos_message_prepare_request 0 2 1) 0 rfl rfl).1,
   (prepare_handling (paxos_fresh 1 3) (paxos_message_prepare_request 0 2 1) 0 rfl rfl).2.1⟩

/-- C9. Propose handling: an accepted PROPOSE_REQUEST sets `accepted`, records the
ballot and the value of the message and its sender, and sends exactly one
PROPOSE_ACCEPTED carrying the instance of the message, the own node id and the
ballot, to the sender. -/
theorem propose_handling (s : paxos_t) (m : paxos_message_t) (now : Nat)
    (hm : m.type = PAXOS_PROPOSE_REQUEST) (hc : __can_accept_request s m = true) :
    (paxos_process_message s m now).1.acceptor.state.accepted = true ∧
    (paxos_process_message s m now).1.acceptor.state.accepted_proposal_id = m.proposal_id ∧
    (paxos_process_message s m now).1.acceptor.state.accepted_value = m.value ∧
    (paxos_process_message s m now).1.acceptor.sender_id = m.node_id ∧
    (paxos_process_message s m now).2 =
      [paxos_event.send m.node_id
        { type := PAXOS_PROPOSE_ACCEPTED, paxos_id := m.paxos_id, node_id := s.node_id,
          proposal_id := m.proposal_id, accepted_proposal_id := 0,
          promised_proposal_id := 0, value := 0 }] := by
  rw [process_propose_request_eq s m now hm,
    on_propose_request_accept s m ((can_accept_request_iff s m).mp hc)]
  exact ⟨rfl, rfl, rfl, rfl, rfl⟩

/-- Witness of C9: a PROPOSE_REQUEST (ballot 1, value 42) from node 2 on a fresh engine. -/
theorem propose_handling_witness :
    __can_accept_request (paxos_fresh 1 3) (paxos_message_propose_request 0 2 1 42) = true ∧
    (paxos_process_message (paxos_fresh 1 3)
      (paxos_message_propose_request 0 2 1 42) 0).1.acceptor.state.accepted = true ∧
    (paxos_process_message (paxos_fresh 1 3)
      (paxos_message_propose_request 0 2 1 42) 0).1.acceptor.state.accepted_value = 42 :=
  ⟨rfl,
   (propose_handling (paxos_fresh 1 3) (paxos_message_propose_request 0 2 1 42) 0 rfl rfl).1,
   (propose_handling (paxos_fresh 1 3) (paxos_message_propose_request 0 2 1 42) 0 rfl rfl).2.2.1⟩

/-- C10. Rejection is atomic: a PREPARE_REQUEST or PROPOSE_REQUEST that cannot be
accepted leaves the whole engine state unchanged and sends exactly one message
to the sender, echoing the ballot: PREPARE_REJECTED carrying the current promise
of the acceptor, respectively PROPOSE_REJECTED with a zero promise field. -/
theorem rejection_atomic (s : paxos_t) (m : paxos_message_t) (now : Nat)
    (hm : m.type = PAXOS_PREPARE_REQUEST ∨ m.type = PAXOS_PROPOSE_REQUEST)
    (hc : __can_accept_request s m = false) :
    (paxos_process_message s m now).1 = s ∧
    ∃ resp, (paxos_process_message s m now).2 = [paxos_event.send m.node_id resp] ∧
      resp.proposal_id = m.proposal_id ∧
      (m.type = PAXOS_PREPARE_REQUEST →
        resp.type = PAXOS_PREPARE_REJECTED ∧
        resp.promised_proposal_id = s.acceptor.state.promised_proposal_id) ∧
      (m.type = PAXOS_PROPOSE_REQUEST →
        resp.type = PAXOS_PROPOSE_REJECTED ∧ resp.promised_proposal_id = 0) := by
  have hc' : ¬ can_accept_spec s m := by
    intro h
    rw [(can_accept_request_iff s m).mpr h] at hc
    exact Bool.noConfusion hc
  rcases hm with hm | hm
  · rw [process_prepare_request_eq s m now hm, on_prepare_request_reject s m hc']
    refine ⟨rfl, _, rfl, rfl, fun _ => ⟨rfl, rfl⟩, fun h => ?_⟩
    rw [hm] at h
    exact absurd h (by decide)
  · rw [process_propose_request_eq s m now hm, on_propose_request_reject s m hc']
    refine ⟨rfl, _, rfl, rfl, fun h => ?_, fun _ => ⟨rfl, rfl⟩⟩
    rw [hm] at h
    exact absurd h (by decide)

/-- Witness of C10: a PREPARE_REQUEST for instance 7 on a fresh engine (instance 0). -/
theorem rejection_atomic_witness :
    __can_accept_request (paxos_fresh 1 3) (paxos_message_prepare_request 7 2 1) = false ∧
    (paxos_process_message (paxos_fresh 1 3) (paxos_message_prepare_request 7 2 1) 0).1
      = paxos_fresh 1 3 :=
  ⟨rfl,
   (rejection_atomic (paxos_fresh 1 3) (paxos_message_prepare_request 7 2 1) 0
    (Or.inl rfl) rfl).1⟩

/-! ## Frame lemmas: what each handler leaves alone -/

theorem step_quiet_of_frame (s : paxos_t) (r : paxos_t × List paxos_event)
    (h1 : r.1.learner = s.learner) (h2 : r.1.acceptor = s.acceptor)
    (h3 : r.1.node_id = s.node_id) (h4 : learned_events r.2 = []) : step_quiet s r := by
  refine ⟨h4, ?_, ?_, h3, ?_⟩
  · rw [h1]
  · rw [h1]
  · rw [h2]

theorem on_prepare_request_quiet (s : paxos_t) (m : paxos_message_t) :
    step_quiet s (__on_prepare_request s m) := by
  by_cases hc : can_accept_spec s m
  · rw [on_prepare_request_accept s m hc]
    exact ⟨rfl, rfl, rfl, rfl, hc.2.1⟩
  · rw [on_prepare_request_reject s m hc]
    exact ⟨rfl, rfl, rfl, rfl, Nat.le_refl _⟩

theorem on_propose_request_quiet (s : paxos_t) (m : paxos_message_t) :
    step_quiet s (__on_propose_request s m) := by
  by_cases hc : can_accept_spec s m
  · rw [on_propose_request_accept s m hc]
    exact ⟨rfl, rfl, rfl, rfl, Nat.le_refl _⟩
  · rw [on_propose_request_reject s m hc]
    exact ⟨rfl, rfl, rfl, rfl, Nat.le_refl _⟩

theorem on_prepare_response_frame (s : paxos_t) (m : paxos_message_t) (now : Nat) :
    (__on_prepare_response s m now).1.learner = s.learner ∧
    (__on_prepare_response s m now).1.acceptor = s.acceptor ∧
    (__on_prepare_response s m now).1.node_id = s.node_id ∧
    learned_events (__on_prepare_response s m now).2 = [] := by
  unfold __on_prepare_response
  dsimp only
  split_ifs <;> exact ⟨rfl, rfl, rfl, rfl⟩

theorem on_propose_response_frame (s : paxos_t) (m : paxos_message_t) (now : Nat) :
    (__on_propose_response s m now).1.learner = s.learner ∧
    (__on_propose_response s m now).1.acceptor = s.acceptor ∧
    (__on_propose_response s m now).1.node_id = s.node_id ∧
    learned_events (__on_propose_response s m now).2 = [] := by
  unfold __on_propose_response
  dsimp only
  split_ifs <;> exact ⟨rfl, rfl, rfl, rfl⟩

theorem start_preparing_frame (s : paxos_t) (now : Nat) :
    (__start_preparing s now).1.learner = s.learner ∧
    (__start_preparing s now).1.acceptor = s.acceptor ∧
    (__start_preparing s now).1.node_id = s.node_id ∧
    learned_events (__start_preparing s now).2 = [] :=
  ⟨rfl, rfl, rfl, rfl⟩

theorem timeout_trigger_frame (s : paxos_t) (t : Option paxos_timer_id) (now : Nat) :
    (paxos_timeout_trigger s t now).1.learner = s.learner ∧
    (paxos_timeout_trigger s t now).1.acceptor = s.acceptor ∧
    (paxos_timeout_trigger s t now).1.node_id = s.node_id ∧
    learned_events (paxos_timeout_trigger s t now).2 = [] := by
  rcases t with _ | t
  · exact ⟨rfl, rfl, rfl, rfl⟩
  · cases t
    · unfold paxos_timeout_trigger __on_prepare_timeout
      dsimp only
      split_ifs <;> exact ⟨rfl, rfl, rfl, rfl⟩
    · unfold paxos_timeout_trigger __on_propose_timeout
      dsimp only
      split_ifs <;> exact ⟨rfl, rfl, rfl, rfl⟩
    · unfold paxos_timeout_trigger __on_restart_timeout
      dsimp only
      split_ifs <;> exact ⟨rfl, rfl, rfl, rfl⟩

theorem on_request_chosen_frame (s : paxos_t) (m : paxos_message_t) :
    (__on_request_chosen s m).1 = s ∧ learned_events (__on_request_chosen s m).2 = [] := by
  unfold __on_request_chosen
  split_ifs
  · exact ⟨rfl, rfl⟩
  · exact ⟨rfl, rfl⟩

theorem on_bootstrap_frame (s : paxos_t) (m : paxos_message_t) :
    (__on_bootstrap s m).1 = s ∧ learned_events (__on_bootstrap s m).2 = [] := by
  unfold __on_bootstrap
  split_ifs
  · exact ⟨rfl, rfl⟩
  · split <;> exact ⟨rfl, rfl⟩

theorem on_catchup_start_frame (s : paxos_t) (m : paxos_message_t) :
    (__on_catchup_start s m).1 = s ∧ learned_events (__on_catchup_start s m).2 = [] := by
  unfold __on_catchup_start
  split_ifs <;> exact ⟨rfl, rfl⟩

theorem on_catchup_request_frame (s : paxos_t) (m : paxos_message_t) :
    (__on_catchup_request s m).1 = s ∧ learned_events (__on_catchup_request s m).2 = [] := by
  unfold __on_catchup_request
  split <;> exact ⟨rfl, rfl⟩

theorem step_quiet_of_same (s : paxos_t) (r : paxos_t × List paxos_event)
    (h : r.1 = s ∧ learned_events r.2 = []) : step_quiet s r := by
  obtain ⟨h1, h2⟩ := h
  exact step_quiet_of_frame s r (by rw [h1]) (by rw [h1]) (by rw [h1]) h2

/-! ## The two handlers that learn -/

theorem on_learn_chosen_cases (s : paxos_t) (m : paxos_message_t) (now : Nat)
    (hm : m.type = PAXOS_LEARN_PROPOSAL ∨ m.type = PAXOS_LEARN_VALUE) :
    step_quiet s (__on_learn_chosen s m now) ∨
    step_learn_chosen s (paxos_call.process_message m) (__on_learn_chosen s m now) := by
  unfold __on_learn_chosen
  by_cases h1 : s.acceptor.is_committing = true
  · rw [if_pos h1]
    exact Or.inl ⟨rfl, rfl, rfl, rfl, Nat.le_refl _⟩
  rw [if_neg h1]
  by_cases h2 : m.paxos_id > s.learner.paxos_id
  · rw [if_pos h2]
    exact Or.inl ⟨rfl, rfl, rfl, rfl, Nat.le_refl _⟩
  rw [if_neg h2]
  by_cases h3 : m.paxos_id < s.learner.paxos_id
  · rw [if_pos h3]
    exact Or.inl ⟨rfl, rfl, rfl, rfl, Nat.le_refl _⟩
  rw [if_neg h3]
  have hid : m.paxos_id = s.learner.paxos_id := by omega
  by_cases h4 : m.type = PAXOS_LEARN_VALUE
  · rw [if_pos h4]
    refine Or.inr ⟨m, rfl, hm, hid, ?_, rfl, rfl, rfl, rfl, rfl⟩
    rw [if_pos h4]
    rfl
  rw [if_neg h4]
  split_ifs with h5
  · exact Or.inl ⟨rfl, rfl, rfl, rfl, Nat.le_refl _⟩
  · refine Or.inr ⟨m, rfl, hm, hid, ?_, rfl, rfl, rfl, rfl, rfl⟩
    rw [if_neg h4]
    rfl

theorem on_catchup_response_cases (s : paxos_t) (m : paxos_message_t)
    (hm : m.type = PAXOS_CATCHUP_RESPONSE) :
    step_quiet s (__on_catchup_response s m) ∨
    step_catchup s (paxos_call.process_message m) (__on_catchup_response s m) := by
  unfold __on_catchup_response
  split_ifs with h
  · exact Or.inl ⟨rfl, rfl, rfl, rfl, Nat.le_refl _⟩
  · refine Or.inr ⟨m, rfl, hm, ?_, rfl, rfl, rfl, rfl, rfl, rfl⟩
    intro hh
    apply h
    simp [hh.1, hh.2]

/-- Every step of the engine is of one of three kinds. -/
theorem step_cases (s : paxos_t) (now : Nat) (c : paxos_call) :
    step_quiet s (paxos_step s now c) ∨
    step_learn_chosen s c (paxos_step s now c) ∨
    step_catchup s c (paxos_step s now c) := by
  cases c with
  | process_message m =>
    show step_quiet s (paxos_process_message s m now) ∨
      step_learn_chosen s _ (paxos_process_message s m now) ∨
      step_catchup s _ (paxos_process_message s m now)
    unfold paxos_process_message
    split_ifs with h1 h2 h3 h4 h5 h6 h7 h8 h9 h10
    · exact Or.inl (on_prepare_request_quiet s m)
    · obtain ⟨a, b, c, d⟩ := on_prepare_response_frame s m now
      exact Or.inl (step_quiet_of_frame s _ a b c d)
    · exact Or.inl (on_propose_request_quiet s m)
    · obtain ⟨a, b, c, d⟩ := on_propose_response_frame s m now
      exact Or.inl (step_quiet_of_frame s _ a b c d)
    · rcases on_learn_chosen_cases s m now h5 with h | h
      · exact Or.inl h
      · exact Or.inr (Or.inl h)
    · exact Or.inl (step_quiet_of_same s _ (on_request_chosen_frame s m))
    · exact Or.inl (step_quiet_of_same s _ (on_bootstrap_frame s m))
    · exact Or.inl (step_quiet_of_same s _ (on_catchup_start_frame s m))
    · exact Or.inl (step_quiet_of_same s _ (on_catchup_request_frame s m))
    · rcases on_catchup_response_cases s m h10 with h | h
      · exact Or.inl h
      · exact Or.inr (Or.inr h)
    · exact Or.inl ⟨rfl, rfl, rfl, rfl, Nat.le_refl _⟩
  | propose value =>
    obtain ⟨a, b, c, d⟩ := start_preparing_frame
      { s with proposer := { s.proposer with
                             state := { s.proposer.state with proposed_value := value } } } now
    exact Or.inl (step_quiet_of_frame s _ a b c d)
  | bootstrap => exact Or.inl ⟨rfl, rfl, rfl, rfl, Nat.le_refl _⟩
  | timeout_trigger t =>
    obtain ⟨a, b, c, d⟩ := timeout_trigger_frame s t now
    exact Or.inl (step_quiet_of_frame s _ a b c d)

/-! ## Invariants of reachable states -/

/-- An engine that has not learned anything is still at instance 0. -/
theorem reachable_unlearned_zero (s : paxos_t) (h : Reachable s) :
    s.learner.has_learned_value = false → s.learner.paxos_id = 0 := by
  induction h with
  | opened prior node_id num_nodes => intro _; rfl
  | step s now c _ ih =>
    intro hl
    rcases step_cases s now c with hq | hq | hq
    · obtain ⟨_, h2, h3, _, _⟩ := hq
      rw [h2]
      exact ih (by rw [← h3]; exact hl)
    · obtain ⟨m, _, _, _, _, _, h6, _⟩ := hq
      rw [h6] at hl
      exact Bool.noConfusion hl
    · obtain ⟨m, _, _, _, _, _, h6, _⟩ := hq
      rw [h6] at hl
      exact Bool.noConfusion hl

theorem u64_add_one_of_lt (n : Nat) (h : n < U64 - 1) : u64_add n 1 = n + 1 := by
  unfold u64_add
  apply Nat.mod_eq_of_lt
  unfold U64 at *
  omega

/-- The instance number does not go down in a step, from a state that satisfies
the invariant of reachable states and is below the wrap-around point. -/
theorem step_paxos_id_le (s : paxos_t) (now : Nat) (c : paxos_call)
    (hj : s.learner.has_learned_value = false → s.learner.paxos_id = 0)
    (hw : s.learner.paxos_id < U64 - 1) :
    s.learner.paxos_id ≤ (paxos_step s now c).1.learner.paxos_id := by
  rcases step_cases s now c with hq | hq | hq
  · obtain ⟨_, h2, _⟩ := hq
    rw [h2]
  · obtain ⟨m, _, _, _, _, h5, _⟩ := hq
    rw [h5, u64_add_one_of_lt _ hw]
    exact Nat.le_succ _
  · obtain ⟨m, _, _, h3, _, h5, _⟩ := hq
    rw [h5]
    cases hl : s.learner.has_learned_value
    · rw [hj hl]
      exact Nat.zero_le _
    · by_contra hlt
      exact h3 ⟨hl, by omega⟩

/-! ## The instance counter -/

/-- C3 (as stated) fails: a PAXOS_CATCHUP_RESPONSE for instance 4 delivered to a
fresh engine (instance 0) calls `learned_value`, and the engine returns at instance 4,
not at instance 1. -/
theorem learn_advances_by_one_counterexample :
    learned_events
      (paxos_process_message (paxos_fresh 1 3) (paxos_message_catchup_response 4 2 5) 0).2
        ≠ [] ∧
    (paxos_process_message (paxos_fresh 1 3)
      (paxos_message_catchup_response 4 2 5) 0).1.learner.paxos_id
        ≠ (paxos_fresh 1 3).learner.paxos_id + 1 := by
  decide

/-- C3 (amended). Whenever processing a message calls `learned_value`, the proposer
state and the acceptor state are all zero on return; the instance number is the
one of the message for PAXOS_CATCHUP_RESPONSE, and the previous one plus one
(modulo 2^64) for every other message. -/
theorem learn_resets_and_advances (s : paxos_t) (m : paxos_message_t) (now : Nat)
    (h : learned_events (paxos_process_message s m now).2 ≠ []) :
    (paxos_process_message s m now).1.proposer.state =
      { proposal_id := 0, highest_received_proposal_id := 0,
        highest_promised_proposal_id := 0, proposed_value := 0, preparing := false,
        proposing := false, learn_sent := false } ∧
    (paxos_process_message s m now).1.acceptor.state =
      { promised_proposal_id := 0, accepted_proposal_id := 0, accepted_value := 0,
        accepted := false } ∧
    (m.type = PAXOS_CATCHUP_RESPONSE →
      (paxos_process_message s m now).1.learner.paxos_id = m.paxos_id) ∧
    (m.type ≠ PAXOS_CATCHUP_RESPONSE →
      (paxos_process_message s m now).1.learner.paxos_id
        = (s.learner.paxos_id + 1) % 2 ^ 64) := by
  rcases step_cases s now (paxos_call.process_message m) with hq | hq | hq
  · exact absurd hq.1 h
  · obtain ⟨m', hm', hty, _, _, h5, _, _, h8, h9⟩ := hq
    have hmm : m = m' := by injection hm'
    subst hmm
    refine ⟨h8, h9, ?_, fun _ => h5⟩
    intro hc
    rcases hty with hty | hty <;> rw [hc] at hty <;> exact absurd hty (by decide)
  · obtain ⟨m', hm', hty, _, _, h5, _, _, h8, h9⟩ := hq
    have hmm : m = m' := by injection hm'
    subst hmm
    exact ⟨h8, h9, fun _ => h5, fun hn => absurd hty hn⟩

/-- Witness of C3 (amended): a PAXOS_LEARN_VALUE for instance 0 on a fresh engine. -/
theorem learn_resets_and_advances_witness :
    learned_events
      (paxos_process_message (paxos_fresh 1 3)
        { type := PAXOS_LEARN_VALUE, paxos_id := 0, node_id := 2, proposal_id := 0,
          accepted_proposal_id := 0, promised_proposal_id := 0, value := 9 } 0).2 ≠ [] ∧
    (paxos_process_message (paxos_fresh 1 3)
        { type := PAXOS_LEARN_VALUE, paxos_id := 0, node_id := 2, proposal_id := 0,
          accepted_proposal_id := 0, promised_proposal_id := 0, value := 9 } 0).1.learner.paxos_id
      = (0 + 1) % 2 ^ 64 :=
  ⟨by decide,
   (learn_resets_and_advances (paxos_fresh 1 3)
      { type := PAXOS_LEARN_VALUE, paxos_id := 0, node_id := 2, proposal_id := 0,
        accepted_proposal_id := 0, promised_proposal_id := 0, value := 9 } 0
      (by decide)).2.2.2 (by decide)⟩

/-- C4. The instance number is monotonically non-decreasing: from a reachable
state whose `learner.paxos_id` is below `2^64 - 1`, no host call (message,
propose, bootstrap, timer trigger) lowers `learner.paxos_id`. -/
theorem paxos_id_monotone (s : paxos_t) (hr : Reachable s)
    (hw : s.learner.paxos_id < 2 ^ 64 - 1) (now : Nat) (c : paxos_call) :
    s.learner.paxos_id ≤ (paxos_step s now c).1.learner.paxos_id :=
  step_paxos_id_le s now c (reachable_unlearned_zero s hr) hw

/-- Witness of C4: a catch-up response for instance 4 on a fresh engine. -/
theorem paxos_id_monotone_witness :
    Reachable (paxos_fresh 1 3) ∧ (paxos_fresh 1 3).learner.paxos_id < 2 ^ 64 - 1 ∧
    (paxos_fresh 1 3).learner.paxos_id ≤
      (paxos_step (paxos_fresh 1 3) 0
        (paxos_call.process_message (paxos_message_catchup_response 4 2 5))).1.learner.paxos_id :=
  ⟨Reachable.opened paxos_zero 1 3, by decide,
   paxos_id_monotone (paxos_fresh 1 3) (Reachable.opened paxos_zero 1 3) (by decide) 0
     (paxos_call.process_message (paxos_message_catchup_response 4 2 5))⟩

/-! ## The promise within an instance -/

/-- Along a run that stays in its instance and never calls `learned_value`, the
promise of the acceptor does not go down and the instance number is kept. -/
theorem promise_monotone_run (cs : List (Nat × paxos_call)) :
    ∀ s : paxos_t, stays_in_instance s cs = true →
      s.acceptor.state.promised_proposal_id
        ≤ (paxos_run s cs).acceptor.state.promised_proposal_id ∧
      (paxos_run s cs).learner.paxos_id = s.learner.paxos_id := by
  induction cs with
  | nil => intro s _; exact ⟨Nat.le_refl _, rfl⟩
  | cons c cs ih =>
    intro s hs
    simp only [stays_in_instance, Bool.and_eq_true, decide_eq_true_eq] at hs
    obtain ⟨⟨hpid, hev⟩, hrest⟩ := hs
    obtain ⟨h1, h2⟩ := ih _ hrest
    have hstep : s.acceptor.state.promised_proposal_id
        ≤ (paxos_step s c.1 c.2).1.acceptor.state.promised_proposal_id := by
      rcases step_cases s c.1 c.2 with hq | hq | hq
      · exact hq.2.2.2.2
      · obtain ⟨m, _, _, _, h4, _⟩ := hq
        rw [h4] at hev
        exact absurd hev (by simp [learned_events, learned_of])
      · obtain ⟨m, _, _, _, h4, _⟩ := hq
        rw [h4] at hev
        exact absurd hev (by simp [learned_events, learned_of])
    exact ⟨Nat.le_trans hstep h1, by rw [← hpid]; exact h2⟩

/-! ## Runs that keep the instance number -/

theorem u64_add_one_ne (n : Nat) : u64_add n 1 ≠ n := by
  unfold u64_add U64
  omega

/-- A step keeps the invariant of reachable states: an engine that has learned
nothing is at instance 0. -/
theorem step_keeps_unlearned_zero (s : paxos_t) (now : Nat) (c : paxos_call)
    (hj : s.learner.has_learned_value = false → s.learner.paxos_id = 0) :
    (paxos_step s now c).1.learner.has_learned_value = false →
      (paxos_step s now c).1.learner.paxos_id = 0 := by
  intro hl
  rcases step_cases s now c with hq | hq | hq
  · obtain ⟨_, h2, h3, _, _⟩ := hq
    rw [h2]
    exact hj (by rw [← h3]; exact hl)
  · obtain ⟨m, _, _, _, _, _, h6, _⟩ := hq
    rw [h6] at hl
    exact Bool.noConfusion hl
  · obtain ⟨m, _, _, _, _, _, h6, _⟩ := hq
    rw [h6] at hl
    exact Bool.noConfusion hl

/-- A step that keeps `learner.paxos_id` calls `learned_value` not at all, unless
it delivers a PAXOS_CATCHUP_RESPONSE for instance 0: learning by
`__on_learn_chosen` moves to the next instance, and an honoured catch-up response
for an instance of at least 1 moves the learner, from instance 0 when nothing was
learned and from a lower instance otherwise. -/
theorem step_keeps_id_quiet (s : paxos_t) (now : Nat) (c : paxos_call)
    (hj : s.learner.has_learned_value = false → s.learner.paxos_id = 0)
    (hpos : ∀ m, c = paxos_call.process_message m → m.type = PAXOS_CATCHUP_RESPONSE →
      1 ≤ m.paxos_id)
    (hk : (paxos_step s now c).1.learner.paxos_id = s.learner.paxos_id) :
    learned_events (paxos_step s now c).2 = [] := by
  rcases step_cases s now c with hq | hq | hq
  · exact hq.1
  · obtain ⟨m, _, _, _, _, h5, _⟩ := hq
    rw [h5] at hk
    exact absurd hk (u64_add_one_ne _)
  · obtain ⟨m, hc, hm, h3, _, h5, _⟩ := hq
    have h1 := hpos m hc hm
    rw [h5] at hk
    exfalso
    cases hl : s.learner.has_learned_value
    · have := hj hl
      omega
    · exact h3 ⟨hl, by omega⟩

/-- On traffic that engines send, a run from a reachable state that keeps
`learner.paxos_id` stays in its instance: no step calls `learned_value`. -/
theorem stays_of_keeps (cs : List (Nat × paxos_call)) :
    ∀ s : paxos_t, (s.learner.has_learned_value = false → s.learner.paxos_id = 0) →
      catchup_ids_positive cs = true → keeps_paxos_id s cs = true →
      stays_in_instance s cs = true := by
  induction cs with
  | nil => intro s _ _ _; rfl
  | cons c cs ih =>
    intro s hj hpos hk
    simp only [keeps_paxos_id, Bool.and_eq_true, decide_eq_true_eq] at hk
    simp only [catchup_ids_positive, Bool.and_eq_true] at hpos
    obtain ⟨hk1, hk2⟩ := hk
    obtain ⟨hp1, hp2⟩ := hpos
    have hq : learned_events (paxos_step s c.1 c.2).2 = [] := by
      apply step_keeps_id_quiet s c.1 c.2 hj _ hk1
      intro m hc hm
      rw [hc] at hp1
      simp only [decide_eq_true_eq] at hp1
      exact hp1 hm
    simp only [stays_in_instance, Bool.and_eq_true, decide_eq_true_eq]
    exact ⟨⟨hk1, hq⟩, ih _ (step_keeps_unlearned_zero s c.1 c.2 hj) hp2 hk2⟩

/-- C5 (as stated) fails: a fresh acceptor that receives PROPOSE_REQUEST at ballot 5
accepts it and keeps promise 0; after a further message (a PAXOS_BOOTSTRAP) in
the same instance it has `accepted` with `accepted_proposal_id = 5` above
`promised_proposal_id = 0`. -/
theorem accepted_le_promised_counterexample :
    Reachable (paxos_run (paxos_fresh 1 3)
      [(0, paxos_call.process_message (paxos_message_propose_request 0 2 5 7)),
       (0, paxos_call.process_message (paxos_message_bootstrap 3))]) ∧
    (paxos_run (paxos_fresh 1 3)
      [(0, paxos_call.process_message (paxos_message_propose_request 0 2 5 7)),
       (0, paxos_call.process_message (paxos_message_bootstrap 3))]).learner.paxos_id = 0 ∧
    (paxos_run (paxos_fresh 1 3)
      [(0, paxos_call.process_message (paxos_message_propose_request 0 2 5 7)),
       (0, paxos_call.process_message (paxos_message_bootstrap 3))]).acceptor.state.accepted
        = true ∧
    (paxos_run (paxos_fresh 1 3)
      [(0, paxos_call.process_message (paxos_message_propose_request 0 2 5 7)),
       (0, paxos_call.process_message
             (paxos_message_bootstrap 3))]).acceptor.state.accepted_proposal_id = 5 ∧
    (paxos_run (paxos_fresh 1 3)
      [(0, paxos_call.process_message (paxos_message_propose_request 0 2 5 7)),
       (0, paxos_call.process_message
             (paxos_message_bootstrap 3))]).acceptor.state.promised_proposal_id = 0 :=
  ⟨Reachable.step _ 0 _ (Reachable.step _ 0 _ (Reachable.opened paxos_zero 1 3)),
   by decide, by decide, by decide, by decide⟩

/-- C5 (amended). Once the acceptor has accepted a value under ballot p, at a
moment when its promise had already reached p, its promise stays at least p for
as long as `learner.paxos_id` stays at this instance N and no call of
`learned_value` (no honoured catch-up) intervenes. -/
theorem promise_kept_after_accept (s : paxos_t) (m : paxos_message_t) (now : Nat)
    (hm : m.type = PAXOS_PROPOSE_REQUEST) (hc : __can_accept_request s m = true)
    (hp : m.proposal_id ≤ s.acceptor.state.promised_proposal_id)
    (cs : List (Nat × paxos_call))
    (hs : stays_in_instance (paxos_process_message s m now).1 cs = true) :
    (paxos_process_message s m now).1.acceptor.state.accepted = true ∧
    (paxos_process_message s m now).1.acceptor.state.accepted_proposal_id = m.proposal_id ∧
    (paxos_run (paxos_process_message s m now).1 cs).learner.paxos_id = s.learner.paxos_id ∧
    m.proposal_id
      ≤ (paxos_run (paxos_process_message s m now).1 cs).acceptor.state.promised_proposal_id := by
  obtain ⟨h1, h2⟩ := promise_monotone_run cs _ hs
  rw [process_propose_request_eq s m now hm,
    on_propose_request_accept s m ((can_accept_request_iff s m).mp hc)] at h1 h2 ⊢
  exact ⟨rfl, rfl, h2, Nat.le_trans hp h1⟩

/-- Witness of C5 (amended): PREPARE at ballot 5, PROPOSE at ballot 5, then a PREPARE
at ballot 8 in the same instance. -/
theorem promise_kept_after_accept_witness :
    __can_accept_request
      (paxos_process_message (paxos_fresh 1 3) (paxos_message_prepare_request 0 2 5) 0).1
      (paxos_message_propose_request 0 2 5 7) = true ∧
    stays_in_instance
      (paxos_process_message
        (paxos_process_message (paxos_fresh 1 3) (paxos_message_prepare_request 0 2 5) 0).1
        (paxos_message_propose_request 0 2 5 7) 0).1
      [(0, paxos_call.process_message (paxos_message_prepare_request 0 3 8))] = true ∧
    5 ≤ (paxos_run
      (paxos_process_message
        (paxos_process_message (paxos_fresh 1 3) (paxos_message_prepare_request 0 2 5) 0).1
        (paxos_message_propose_request 0 2 5 7) 0).1
      [(0, paxos_call.process_message
             (paxos_message_prepare_request 0 3 8))]).acceptor.state.promised_proposal_id :=
  ⟨by decide, by decide,
   (promise_kept_after_accept
      (paxos_process_message (paxos_fresh 1 3) (paxos_message_prepare_request 0 2 5) 0).1
      (paxos_message_propose_request 0 2 5 7) 0 rfl (by decide) (by decide)
      [(0, paxos_call.process_message (paxos_message_prepare_request 0 3 8))]
      (by decide)).2.2.2⟩

/-- A PAXOS_CATCHUP_RESPONSE for instance 0, which no engine sends, would be
honoured by an acceptor that has learned nothing: it resets the acceptor while
`learner.paxos_id` remains 0, and a PROPOSE_REQUEST at ballot 3 that follows a
promise at ballot 5 is then answered with PROPOSE_ACCEPTED.  The hypothesis on
the catch-up traffic cannot be dropped from the promise property. -/
theorem catchup_zero_resets_promise :
    __can_accept_request (paxos_fresh 1 3) (paxos_message_prepare_request 0 2 5) = true ∧
    keeps_paxos_id
      (paxos_process_message (paxos_fresh 1 3) (paxos_message_prepare_request 0 2 5) 0).1
      [(0, paxos_call.process_message (paxos_message_catchup_response 0 3 9))] = true ∧
    catchup_ids_positive
      [(0, paxos_call.process_message (paxos_message_catchup_response 0 3 9))] = false ∧
    (paxos_process_message
      (paxos_run
        (paxos_process_message (paxos_fresh 1 3) (paxos_message_prepare_request 0 2 5) 0).1
        [(0, paxos_call.process_message (paxos_message_catchup_response 0 3 9))])
      (paxos_message_propose_request 0 2 3 7) 0).2
      = [paxos_event.send 2 (paxos_message_propose_accepted 0 1 3)] ∧
    (paxos_process_message
      (paxos_run
        (paxos_process_message (paxos_fresh 1 3) (paxos_message_prepare_request 0 2 5) 0).1
        [(0, paxos_call.process_message (paxos_message_catchup_response 0 3 9))])
      (paxos_message_propose_request 0 2 3 7) 0).1.acceptor.state.accepted_value = 7 := by
  decide

/-- After the acceptor honours a PREPARE_REQUEST at ballot p, and after any further
host calls during which `learner.paxos_id` is kept and `learned_value` is not
called, every PROPOSE_REQUEST with a ballot below p is answered with
PROPOSE_REJECTED and leaves the engine state unchanged. -/
theorem promise_rejects_when_quiet (s : paxos_t) (m : paxos_message_t) (now : Nat)
    (hm : m.type = PAXOS_PREPARE_REQUEST) (hc : __can_accept_request s m = true)
    (cs : List (Nat × paxos_call))
    (hs : stays_in_instance (paxos_process_message s m now).1 cs = true)
    (q : paxos_message_t) (hq : q.type = PAXOS_PROPOSE_REQUEST)
    (hlt : q.proposal_id < m.proposal_id) (now2 : Nat) :
    (paxos_process_message (paxos_run (paxos_process_message s m now).1 cs) q now2).2 =
      [paxos_event.send q.node_id
        { type := PAXOS_PROPOSE_REJECTED, paxos_id := q.paxos_id,
          node_id := (paxos_run (paxos_process_message s m now).1 cs).node_id,
          proposal_id := q.proposal_id, accepted_proposal_id := 0,
          promised_proposal_id := 0, value := 0 }] ∧
    (paxos_process_message (paxos_run (paxos_process_message s m now).1 cs) q now2).1 =
      paxos_run (paxos_process_message s m now).1 cs ∧
    m.proposal_id ≤
      (paxos_run (paxos_process_message s m now).1 cs).acceptor.state.promised_proposal_id := by
  obtain ⟨h1, _⟩ := promise_monotone_run cs _ hs
  have hpr : (paxos_process_message s m now).1.acceptor.state.promised_proposal_id
      = m.proposal_id := by
    rw [process_prepare_request_eq s m now hm,
      on_prepare_request_accept s m ((can_accept_request_iff s m).mp hc)]
  rw [hpr] at h1
  have hno : ¬ can_accept_spec (paxos_run (paxos_process_message s m now).1 cs) q := by
    intro h
    have := h.2.1
    omega
  rw [process_propose_request_eq _ q now2 hq, on_propose_request_reject _ q hno]
  exact ⟨rfl, rfl, h1⟩

/-- C6. Promise: in a state reachable from `paxos_open`, after the acceptor honours
a PREPARE_REQUEST at ballot p in instance N, and after any further sequence of
host calls during which `learner.paxos_id` remains N, every PROPOSE_REQUEST with
a ballot below p is answered with PROPOSE_REJECTED and leaves the engine state,
hence `accepted`, `accepted_proposal_id` and `accepted_value`, unchanged; the
promise is still at least p, and the instance is still N.  The inbound messages
are those engines send: a PAXOS_CATCHUP_RESPONSE names an instance of at least 1. -/
theorem promise_rejects_lower_ballots (s : paxos_t) (hr : Reachable s)
    (m : paxos_message_t) (now : Nat)
    (hm : m.type = PAXOS_PREPARE_REQUEST) (hc : __can_accept_request s m = true)
    (cs : List (Nat × paxos_call))
    (hk : keeps_paxos_id (paxos_process_message s m now).1 cs = true)
    (hpos : catchup_ids_positive cs = true)
    (q : paxos_message_t) (hq : q.type = PAXOS_PROPOSE_REQUEST)
    (hlt : q.proposal_id < m.proposal_id) (now2 : Nat) :
    (paxos_process_message (paxos_run (paxos_process_message s m now).1 cs) q now2).2 =
      [paxos_event.send q.node_id
        { type := PAXOS_PROPOSE_REJECTED, paxos_id := q.paxos_id,
          node_id := (paxos_run (paxos_process_message s m now).1 cs).node_id,
          proposal_id := q.proposal_id, accepted_proposal_id := 0,
          promised_proposal_id := 0, value := 0 }] ∧
    (paxos_process_message (paxos_run (paxos_process_message s m now).1 cs) q now2).1 =
      paxos_run (paxos_process_message s m now).1 cs ∧
    m.proposal_id ≤
      (paxos_run (paxos_process_message s m now).1 cs).acceptor.state.promised_proposal_id ∧
    (paxos_run (paxos_process_message s m now).1 cs).learner.paxos_id
      = s.learner.paxos_id := by
  have hr1 : Reachable (paxos_process_message s m now).1 :=
    Reachable.step s now (paxos_call.process_message m) hr
  have hs := stays_of_keeps cs _ (reachable_unlearned_zero _ hr1) hpos hk
  obtain ⟨h1, h2, h3⟩ := promise_rejects_when_quiet s m now hm hc cs hs q hq hlt now2
  refine ⟨h1, h2, h3, ?_⟩
  rw [(promise_monotone_run cs _ hs).2, process_prepare_request_eq s m now hm,
    on_prepare_request_accept s m ((can_accept_request_iff s m).mp hc)]

/-- Witness of C6: a node at instance 4 honours PREPARE at ballot 5; a
PAXOS_BOOTSTRAP and a PAXOS_CATCHUP_RESPONSE for instance 3 follow, which
keep the instance; the PROPOSE at ballot 3 is then rejected. -/
theorem promise_rejects_lower_ballots_witness :
    __can_accept_request
      (paxos_process_message (paxos_fresh 1 3) (paxos_message_catchup_response 4 2 9) 0).1
      (paxos_message_prepare_request 4 2 5) = true ∧
    keeps_paxos_id
      (paxos_process_message
        (paxos_process_message (paxos_fresh 1 3) (paxos_message_catchup_response 4 2 9) 0).1
        (paxos_message_prepare_request 4 2 5) 0).1
      [(0, paxos_call.process_message (paxos_message_bootstrap 3)),
       (0, paxos_call.process_message (paxos_message_catchup_response 3 3 8))] = true ∧
    (paxos_process_message
      (paxos_run
        (paxos_process_message
          (paxos_process_message (paxos_fresh 1 3) (paxos_message_catchup_response 4 2 9) 0).1
          (paxos_message_prepare_request 4 2 5) 0).1
        [(0, paxos_call.process_message (paxos_message_bootstrap 3)),
         (0, paxos_call.process_message (paxos_message_catchup_response 3 3 8))])
      (paxos_message_propose_request 4 2 3 7) 0).2 =
      [paxos_event.send 2 (paxos_message_propose_rejected 4 1 3)] :=
  ⟨by decide, by decide,
   (promise_rejects_lower_ballots
      (paxos_process_message (paxos_fresh 1 3) (paxos_message_catchup_response 4 2 9) 0).1
      (Reachable.step (paxos_fresh 1 3) 0
        (paxos_call.process_message (paxos_message_catchup_response 4 2 9))
        (Reachable.opened paxos_zero 1 3))
      (paxos_message_prepare_request 4 2 5) 0 rfl (by decide)
      [(0, paxos_call.process_message (paxos_message_bootstrap 3)),
       (0, paxos_call.process_message (paxos_message_catchup_response 3 3 8))]
      (by decide) (by decide) (paxos_message_propose_request 4 2 3 7) rfl (by decide) 0).1⟩

/-! ## How often `learned_value` is called per instance -/

theorem learn_ids_cons (p : paxos_call → Bool) (t : paxos_call × List paxos_event)
    (ts : List (paxos_call × List paxos_event)) :
    learn_ids p (t :: ts)
      = (if p t.1 then (learned_events t.2).map Prod.fst else []) ++ learn_ids p ts := rfl

theorem learn_ids_cons_quiet (p : paxos_call → Bool) (c : paxos_call) (evs : List paxos_event)
    (ts : List (paxos_call × List paxos_event)) (h : learned_events evs = []) :
    learn_ids p ((c, evs) :: ts) = learn_ids p ts := by
  rw [learn_ids_cons]
  dsimp only
  rw [h]
  cases p c <;> rfl

theorem learn_ids_cons_hit (p : paxos_call → Bool) (c : paxos_call) (n v : Nat)
    (ts : List (paxos_call × List paxos_event)) (h : p c = true) :
    learn_ids p ((c, [paxos_event.learned_value n v]) :: ts) = n :: learn_ids p ts := by
  rw [learn_ids_cons]
  dsimp only
  rw [h]
  rfl

theorem learn_ids_cons_miss (p : paxos_call → Bool) (c : paxos_call) (evs : List paxos_event)
    (ts : List (paxos_call × List paxos_event)) (h : p c = false) :
    learn_ids p ((c, evs) :: ts) = learn_ids p ts := by
  rw [learn_ids_cons]
  dsimp only
  rw [h]
  rfl

/-- From a state that satisfies the invariant of reachable states, along a run
without wrap-around: the instances at which the learn-chosen path calls
`learned_value` are pairwise distinct and not below the current instance, and
so are the instances at which the catch-up path does (strictly above the
current instance once a value has been learned). -/
theorem learn_ids_run (cs : List (Nat × paxos_call)) :
    ∀ s : paxos_t, (s.learner.has_learned_value = false → s.learner.paxos_id = 0) →
      paxos_no_wrap s cs = true →
      (∀ x ∈ learn_ids (fun c => !is_catchup_response c) (paxos_trace s cs),
          s.learner.paxos_id ≤ x) ∧
      (learn_ids (fun c => !is_catchup_response c) (paxos_trace s cs)).Nodup ∧
      (∀ x ∈ learn_ids is_catchup_response (paxos_trace s cs),
          s.learner.paxos_id ≤ x ∧
          (s.learner.has_learned_value = true → s.learner.paxos_id < x)) ∧
      (learn_ids is_catchup_response (paxos_trace s cs)).Nodup := by
  induction cs with
  | nil =>
    intro s _ _
    exact ⟨fun x hx => absurd hx (List.not_mem_nil x), List.nodup_nil,
      fun x hx => absurd hx (List.not_mem_nil x), List.nodup_nil⟩
  | cons c cs ih =>
    intro s hj hw
    simp only [paxos_no_wrap, Bool.and_eq_true, decide_eq_true_eq] at hw
    obtain ⟨hlt, hw'⟩ := hw
    show (∀ x ∈ learn_ids _ ((c.2, (paxos_step s c.1 c.2).2) ::
              paxos_trace (paxos_step s c.1 c.2).1 cs), _) ∧
      (learn_ids _ ((c.2, (paxos_step s c.1 c.2).2) ::
              paxos_trace (paxos_step s c.1 c.2).1 cs)).Nodup ∧
      (∀ x ∈ learn_ids _ ((c.2, (paxos_step s c.1 c.2).2) ::
              paxos_trace (paxos_step s c.1 c.2).1 cs), _) ∧
      (learn_ids _ ((c.2, (paxos_step s c.1 c.2).2) ::
              paxos_trace (paxos_step s c.1 c.2).1 cs)).Nodup
    rcases step_cases s c.1 c.2 with hq | hq | hq
    · obtain ⟨hev, hpid, hhl, _, _⟩ := hq
      have hj' : (paxos_step s c.1 c.2).1.learner.has_learned_value = false →
          (paxos_step s c.1 c.2).1.learner.paxos_id = 0 := by
        rw [hpid, hhl]
        exact hj
      obtain ⟨a1, a2, a3, a4⟩ := ih _ hj' hw'
      rw [hpid] at a1 a3
      rw [hhl] at a3
      rw [learn_ids_cons_quiet _ _ _ _ hev, learn_ids_cons_quiet _ _ _ _ hev]
      exact ⟨a1, a2, a3, a4⟩
    · obtain ⟨m, hc, hty, _, hev, hpid, hhl, _, _, _⟩ := hq
      have hnc : is_catchup_response c.2 = false := by
        rw [hc]
        rcases hty with hty | hty <;> simp [is_catchup_response, hty, PAXOS_LEARN_PROPOSAL,
          PAXOS_LEARN_VALUE, PAXOS_CATCHUP_RESPONSE]
      have hj' : (paxos_step s c.1 c.2).1.learner.has_learned_value = false →
          (paxos_step s c.1 c.2).1.learner.paxos_id = 0 := by
        rw [hhl]
        intro h
        exact Bool.noConfusion h
      obtain ⟨a1, a2, a3, a4⟩ := ih _ hj' hw'
      rw [hpid, u64_add_one_of_lt _ hlt] at a1 a3
      rw [hev, learn_ids_cons_hit _ _ _ _ _ (by simp [hnc]),
        learn_ids_cons_miss _ _ _ _ hnc]
      refine ⟨?_, ?_, ?_, a4⟩
      · intro x hx
        rcases List.mem_cons.mp hx with hx | hx
        · rw [hx]
        · exact Nat.le_of_succ_le (a1 x hx)
      · refine List.nodup_cons.mpr ⟨?_, a2⟩
        intro hmem
        have := a1 _ hmem
        omega
      · intro x hx
        have := (a3 x hx).1
        exact ⟨by omega, fun _ => by omega⟩
    · obtain ⟨m, hc, hty, hguard, hev, hpid, hhl, _, _, _⟩ := hq
      have hyc : is_catchup_response c.2 = true := by
        rw [hc]
        simp [is_catchup_response, hty]
      have hj' : (paxos_step s c.1 c.2).1.learner.has_learned_value = false →
          (paxos_step s c.1 c.2).1.learner.paxos_id = 0 := by
        rw [hhl]
        intro h
        exact Bool.noConfusion h
      have hle : s.learner.paxos_id ≤ m.paxos_id ∧
          (s.learner.has_learned_value = true → s.learner.paxos_id < m.paxos_id) := by
        constructor
        · cases hl : s.learner.has_learned_value
          · rw [hj hl]
            exact Nat.zero_le _
          · by_contra hcon
            exact hguard ⟨hl, by omega⟩
        · intro hl
          by_contra hcon
          exact hguard ⟨hl, by omega⟩
      obtain ⟨a1, a2, a3, a4⟩ := ih _ hj' hw'
      rw [hpid] at a1 a3
      rw [hev, learn_ids_cons_miss _ _ _ _ (by simp [hyc]),
        learn_ids_cons_hit _ _ _ _ _ hyc]
      refine ⟨?_, a2, ?_, ?_⟩
      · intro x hx
        exact Nat.le_trans hle.1 (a1 x hx)
      · intro x hx
        rcases List.mem_cons.mp hx with hx | hx
        · rw [hx]
          exact hle
        · have h2 := (a3 x hx).2 hhl
          have h1 := hle.1
          exact ⟨by omega, fun _ => by omega⟩
      · refine List.nodup_cons.mpr ⟨?_, a4⟩
        intro hmem
        have := (a3 _ hmem).2 hhl
        omega

/-- C2 (as stated) fails: a fresh engine catches up to instance 4 (one call of
`learned_value` with `learner.paxos_id = 4`), then accepts a proposal for the
same instance and learns it (a second call with `learner.paxos_id = 4`). -/
theorem learned_once_counterexample :
    learn_ids (fun _ => true)
      (paxos_trace (paxos_fresh 1 3)
        [(0, paxos_call.process_message (paxos_message_catchup_response 4 2 5)),
         (0, paxos_call.process_message (paxos_message_propose_request 4 2 1 6)),
         (0, paxos_call.process_message (paxos_message_learn_proposal 4 2 1))])
      = [4, 4] := by
  decide

/-- C2 (amended). In every run of an engine from `paxos_open` in which
`learner.paxos_id` stays below `2^64 - 1`, the calls of `learned_value` made
while handling PAXOS_CATCHUP_RESPONSE happen at pairwise distinct values of
`learner.paxos_id`, and so do the calls made by all other handling (the
learn-chosen path): at most one call per path and instance. -/
theorem learned_once_per_path (prior : paxos_t) (node_id num_nodes : Nat)
    (cs : List (Nat × paxos_call))
    (hw : paxos_no_wrap (paxos_open prior node_id num_nodes) cs = true) :
    (learn_ids is_catchup_response
      (paxos_trace (paxos_open prior node_id num_nodes) cs)).Nodup ∧
    (learn_ids (fun c => !is_catchup_response c)
      (paxos_trace (paxos_open prior node_id num_nodes) cs)).Nodup := by
  obtain ⟨_, a2, _, a4⟩ := learn_ids_run cs (paxos_open prior node_id num_nodes)
    (fun _ => rfl) hw
  exact ⟨a4, a2⟩

/-- Witness of C2 (amended): the run of the counterexample, one call per path. -/
theorem learned_once_per_path_witness :
    paxos_no_wrap (paxos_open paxos_zero 1 3)
      [(0, paxos_call.process_message (paxos_message_catchup_response 4 2 5)),
       (0, paxos_call.process_message (paxos_message_propose_request 4 2 1 6)),
       (0, paxos_call.process_message (paxos_message_learn_proposal 4 2 1))] = true ∧
    (learn_ids is_catchup_response
      (paxos_trace (paxos_open paxos_zero 1 3)
        [(0, paxos_call.process_message (paxos_message_catchup_response 4 2 5)),
         (0, paxos_call.process_message (paxos_message_propose_request 4 2 1 6)),
         (0, paxos_call.process_message (paxos_message_learn_proposal 4 2 1))])).Nodup :=
  ⟨by decide,
   (learned_once_per_path paxos_zero 1 3
      [(0, paxos_call.process_message (paxos_message_catchup_response 4 2 5)),
       (0, paxos_call.process_message (paxos_message_propose_request 4 2 1 6)),
       (0, paxos_call.process_message (paxos_message_learn_proposal 4 2 1))]
      (by decide)).1⟩

/-! ## Safety across a cluster -/

/-- C1 fails on the code. In a three-node cluster, nodes 1 and 2 both propose at
ballot 1 (ballots carry no node identity), node 3 promises and accepts for both
(a ballot equal to the promise is accepted), and each proposer reaches its quorum
of two: node 1 calls `learned_value` with value 10 and node 2 with value 20, both
while `learner.paxos_id = 0`. -/
theorem split_brain_learns_two_values :
    (cluster_run (cluster_open 3 [1, 2, 3]) split_brain_schedule).map (fun c => c.learned)
      = some [(1, 0, 10), (2, 0, 20)] := by
  decide

/-! ## Quorum thresholds -/

/-- The macro `__math_ceil(a, 2)` is `(a + 1) / 2` on 32 bits: the wrap of the
intermediate sum `a + 2` is undone by the subtraction. -/
theorem math_ceil_two (a : Nat) : __math_ceil a 2 = (a + 1) % 2 ^ 32 / 2 := by
  unfold __math_ceil u32_sub u32_add U32
  split_ifs with h <;> omega

theorem accepted_threshold (n : Nat) (hn : n + 2 < 2 ^ 32) :
    __math_ceil (u32_add n 1) 2 = (n + 2) / 2 := by
  rw [math_ceil_two]
  unfold u32_add U32
  omega

theorem rejected_threshold (n : Nat) (hn : n + 2 < 2 ^ 32) :
    __math_ceil n 2 = (n + 1) / 2 := by
  rw [math_ceil_two]
  omega

/-- C15. Quorum thresholds: with `num_nodes = n` and `n + 2 < 2^32`, the accepted
quorum holds iff `num_accepted >= ceil((n+1)/2)`, the rejected quorum iff
`num_rejected >= ceil(n/2)`, the vote is complete iff
`num_accepted + num_rejected >= n`; the accepted / rejected thresholds are 1 / 1
for one node, 2 / 1 for two nodes and 3 / 3 for five nodes. -/
theorem quorum_thresholds (q : paxos_quorum_t) (hn : q.num_nodes + 2 < 2 ^ 32) :
    (paxos_quorum_vote_is_accepted q = true ↔
      q.num_accepted ≥ Nat.ceil (((q.num_nodes : ℚ) + 1) / 2)) ∧
    (paxos_quorum_vote_is_rejected q = true ↔
      q.num_rejected ≥ Nat.ceil ((q.num_nodes : ℚ) / 2)) ∧
    (paxos_quorum_vote_is_complete q = true ↔
      q.num_accepted + q.num_rejected ≥ q.num_nodes) ∧
    (__math_ceil (u32_add 1 1) 2 = 1 ∧ __math_ceil 1 2 = 1) ∧
    (__math_ceil (u32_add 2 1) 2 = 2 ∧ __math_ceil 2 2 = 1) ∧
    (__math_ceil (u32_add 5 1) 2 = 3 ∧ __math_ceil 5 2 = 3) := by
  refine ⟨?_, ?_, ?_, ⟨by decide, by decide⟩, ⟨by decide, by decide⟩, ⟨by decide, by decide⟩⟩
  · unfold paxos_quorum_vote_is_accepted
    rw [decide_eq_true_eq, accepted_threshold _ hn, ge_iff_le, ge_iff_le, Nat.ceil_le,
      div_le_iff₀ (by norm_num : (0 : ℚ) < 2)]
    constructor
    · intro h
      have h2 : q.num_nodes + 1 ≤ q.num_accepted * 2 := by omega
      exact_mod_cast h2
    · intro h
      have h2 : q.num_nodes + 1 ≤ q.num_accepted * 2 := by exact_mod_cast h
      omega
  · unfold paxos_quorum_vote_is_rejected
    rw [decide_eq_true_eq, rejected_threshold _ hn, ge_iff_le, ge_iff_le, Nat.ceil_le,
      div_le_iff₀ (by norm_num : (0 : ℚ) < 2)]
    constructor
    · intro h
      have h2 : q.num_nodes ≤ q.num_rejected * 2 := by omega
      exact_mod_cast h2
    · intro h
      have h2 : q.num_nodes ≤ q.num_rejected * 2 := by exact_mod_cast h
      omega
  · unfold paxos_quorum_vote_is_complete
    rw [decide_eq_true_eq]

/-- Witness of C15: three nodes and two accepting votes. -/
theorem quorum_thresholds_witness :
    (3 : Nat) + 2 < 2 ^ 32 ∧
    (paxos_quorum_vote_is_accepted { num_accepted := 2, num_rejected := 0, num_nodes := 3 } = true
      ↔ 2 ≥ Nat.ceil ((((3 : Nat) : ℚ) + 1) / 2)) :=
  ⟨by decide,
   (quorum_thresholds { num_accepted := 2, num_rejected := 0, num_nodes := 3 } (by decide)).1⟩

/-! ## The response handlers, branch by branch -/

theorem on_prepare_response_ignored (s : paxos_t) (m : paxos_message_t) (now : Nat)
    (h : s.proposer.state.preparing = false ∨
      m.proposal_id ≠ s.proposer.state.proposal_id) :
    __on_prepare_response s m now = (s, []) := by
  unfold __on_prepare_response
  rw [if_pos]
  rcases h with h | h
  · simp [h]
  · simp [h]

theorem on_prepare_response_processed (s : paxos_t) (m : paxos_message_t) (now : Nat)
    (h1 : s.proposer.state.preparing = true)
    (h2 : m.proposal_id = s.proposer.state.proposal_id) :
    __on_prepare_response s m now =
      if paxos_quorum_vote_is_accepted (prepare_vote s.quorum m) then
        __start_proposing (prepare_counted s m) now
      else if paxos_quorum_vote_is_rejected (prepare_vote s.quorum m) then
        ({ __stop_preparing (prepare_counted s m) with
           proposer := { (__stop_preparing (prepare_counted s m)).proposer with
                         restart_timeout :=
                           paxos_timeout_start
                             (__stop_preparing (prepare_counted s m)).proposer.restart_timeout
                             now } }, [])
      else (prepare_counted s m, []) := by
  unfold __on_prepare_response
  rw [if_neg (by simp [h1, h2])]
  unfold prepare_counted prepare_vote prepare_adopt
  dsimp only
  split_ifs <;> first | rfl | (exfalso; simp_all)

theorem on_propose_response_ignored (s : paxos_t) (m : paxos_message_t) (now : Nat)
    (h : s.proposer.state.proposing = false ∨
      m.proposal_id ≠ s.proposer.state.proposal_id) :
    __on_propose_response s m now = (s, []) := by
  unfold __on_propose_response
  rw [if_pos]
  rcases h with h | h
  · simp [h]
  · simp [h]

theorem on_propose_response_processed (s : paxos_t) (m : paxos_message_t) (now : Nat)
    (h1 : s.proposer.state.proposing = true)
    (h2 : m.proposal_id = s.proposer.state.proposal_id) :
    __on_propose_response s m now =
      if paxos_quorum_vote_is_accepted (propose_vote s.quorum m) then
        ({ __stop_proposing (propose_counted s m) with
           proposer := { (__stop_proposing (propose_counted s m)).proposer with
                         state := { (__stop_proposing (propose_counted s m)).proposer.state with
                                    learn_sent := true } } },
         [paxos_event.broadcast
            (paxos_message_learn_proposal s.learner.paxos_id s.node_id
              s.proposer.state.proposal_id)])
      else if paxos_quorum_vote_is_rejected (propose_vote s.quorum m) then
        ({ __stop_proposing (propose_counted s m) with
           proposer := { (__stop_proposing (propose_counted s m)).proposer with
                         restart_timeout :=
                           paxos_timeout_start
                             (__stop_proposing (propose_counted s m)).proposer.restart_timeout
                             now } }, [])
      else (propose_counted s m, []) := by
  unfold __on_propose_response
  rw [if_neg (by simp [h1, h2])]
  unfold propose_counted propose_vote
  dsimp only
  split_ifs <;> rfl

/-! ## Every step, seen from the proposer -/

theorem timeout_trigger_proposer (s : paxos_t) (t : Option paxos_timer_id) (now : Nat) :
    proposer_untouched s (paxos_timeout_trigger s t now) ∨
    proposer_enters s now (paxos_timeout_trigger s t now) := by
  rcases t with _ | t
  · exact Or.inl ⟨rfl, rfl⟩
  · cases t
    · unfold paxos_timeout_trigger __on_prepare_timeout
      dsimp only
      split_ifs
      · exact Or.inr ⟨_, rfl, rfl, rfl, rfl, rfl, rfl⟩
      · exact Or.inl ⟨rfl, rfl⟩
      · exact Or.inl ⟨rfl, rfl⟩
    · unfold paxos_timeout_trigger __on_propose_timeout
      dsimp only
      split_ifs
      · exact Or.inr ⟨_, rfl, rfl, rfl, rfl, rfl, rfl⟩
      · exact Or.inl ⟨rfl, rfl⟩
      · exact Or.inl ⟨rfl, rfl⟩
    · unfold paxos_timeout_trigger __on_restart_timeout
      dsimp only
      split_ifs
      · exact Or.inr ⟨_, rfl, rfl, rfl, rfl, rfl, rfl⟩
      · exact Or.inl ⟨rfl, rfl⟩
      · exact Or.inl ⟨rfl, rfl⟩

theorem on_learn_chosen_proposer (s : paxos_t) (m : paxos_message_t) (now : Nat) :
    proposer_untouched s (__on_learn_chosen s m now) ∨
    proposer_reset s (__on_learn_chosen s m now) := by
  unfold __on_learn_chosen
  split_ifs
  · exact Or.inl ⟨rfl, rfl⟩
  · exact Or.inl ⟨rfl, rfl⟩
  · exact Or.inl ⟨rfl, rfl⟩
  · exact Or.inr ⟨rfl, rfl, by simp [paxos_learner_learn_value, learned_events, learned_of]⟩
  · exact Or.inl ⟨rfl, rfl⟩
  · exact Or.inr ⟨rfl, rfl, by simp [paxos_learner_learn_value, learned_events, learned_of]⟩

theorem on_catchup_response_proposer (s : paxos_t) (m : paxos_message_t) :
    proposer_untouched s (__on_catchup_response s m) ∨
    proposer_reset s (__on_catchup_response s m) := by
  unfold __on_catchup_response
  split_ifs
  · exact Or.inl ⟨rfl, rfl⟩
  · exact Or.inr ⟨rfl, rfl, by simp [paxos_learner_learn_value, learned_events, learned_of]⟩

theorem proposer_untouched_of_same (s : paxos_t) (r : paxos_t × List paxos_event)
    (h : r.1 = s) : proposer_untouched s r := by
  unfold proposer_untouched
  rw [h]
  exact ⟨rfl, rfl⟩

theorem on_prepare_request_proposer (s : paxos_t) (m : paxos_message_t) :
    proposer_untouched s (__on_prepare_request s m) := by
  by_cases hc : can_accept_spec s m
  · rw [on_prepare_request_accept s m hc]
    exact ⟨rfl, rfl⟩
  · rw [on_prepare_request_reject s m hc]
    exact ⟨rfl, rfl⟩

theorem on_propose_request_proposer (s : paxos_t) (m : paxos_message_t) :
    proposer_untouched s (__on_propose_request s m) := by
  by_cases hc : can_accept_spec s m
  · rw [on_propose_request_accept s m hc]
    exact ⟨rfl, rfl⟩
  · rw [on_propose_request_reject s m hc]
    exact ⟨rfl, rfl⟩

/-- Every step of the engine touches the proposer in one of five ways. -/
theorem step_proposer_cases (s : paxos_t) (now : Nat) (c : paxos_call) :
    proposer_untouched s (paxos_step s now c) ∨
    proposer_reset s (paxos_step s now c) ∨
    proposer_enters s now (paxos_step s now c) ∨
    proposer_counts_prepare s now c (paxos_step s now c) ∨
    proposer_counts_propose s now c (paxos_step s now c) := by
  cases c with
  | process_message m =>
    show proposer_untouched s (paxos_process_message s m now) ∨
      proposer_reset s (paxos_process_message s m now) ∨
      proposer_enters s now (paxos_process_message s m now) ∨
      proposer_counts_prepare s now _ (paxos_process_message s m now) ∨
      proposer_counts_propose s now _ (paxos_process_message s m now)
    unfold paxos_process_message
    split_ifs with h1 h2 h3 h4 h5 h6 h7 h8 h9 h10
    · exact Or.inl (on_prepare_request_proposer s m)
    · by_cases hp : s.proposer.state.preparing = true ∧
          m.proposal_id = s.proposer.state.proposal_id
      · exact Or.inr (Or.inr (Or.inr (Or.inl ⟨m, rfl, hp.1, hp.2, rfl⟩)))
      · refine Or.inl (proposer_untouched_of_same s _ ?_)
        rw [on_prepare_response_ignored s m now]
        by_cases h : s.proposer.state.preparing = true
        · exact Or.inr (fun h' => hp ⟨h, h'⟩)
        · exact Or.inl (by simpa using h)
    · exact Or.inl (on_propose_request_proposer s m)
    · by_cases hp : s.proposer.state.proposing = true ∧
          m.proposal_id = s.proposer.state.proposal_id
      · exact Or.inr (Or.inr (Or.inr (Or.inr ⟨m, rfl, hp.1, hp.2, rfl⟩)))
      · refine Or.inl (proposer_untouched_of_same s _ ?_)
        rw [on_propose_response_ignored s m now]
        by_cases h : s.proposer.state.proposing = true
        · exact Or.inr (fun h' => hp ⟨h, h'⟩)
        · exact Or.inl (by simpa using h)
    · rcases on_learn_chosen_proposer s m now with h | h
      · exact Or.inl h
      · exact Or.inr (Or.inl h)
    · exact Or.inl (proposer_untouched_of_same s _ (on_request_chosen_frame s m).1)
    · exact Or.inl (proposer_untouched_of_same s _ (on_bootstrap_frame s m).1)
    · exact Or.inl (proposer_untouched_of_same s _ (on_catchup_start_frame s m).1)
    · exact Or.inl (proposer_untouched_of_same s _ (on_catchup_request_frame s m).1)
    · rcases on_catchup_response_proposer s m with h | h
      · exact Or.inl h
      · exact Or.inr (Or.inl h)
    · exact Or.inl ⟨rfl, rfl⟩
  | propose value =>
    exact Or.inr (Or.inr (Or.inl
      ⟨{ s with proposer := { s.proposer with
                              state := { s.proposer.state with proposed_value := value } } },
       rfl, rfl, rfl, rfl, rfl, rfl⟩))
  | bootstrap => exact Or.inl ⟨rfl, rfl⟩
  | timeout_trigger t =>
    rcases timeout_trigger_proposer s t now with h | h
    · exact Or.inl h
    · exact Or.inr (Or.inr (Or.inl h))

/-! ## Ballot phases -/

theorem prepare_adopt_keeps (st : paxos_proposer_state_t) (m : paxos_message_t) :
    (prepare_adopt st m).preparing = st.preparing ∧
    (prepare_adopt st m).proposing = st.proposing ∧
    (prepare_adopt st m).proposal_id = st.proposal_id ∧
    (prepare_adopt st m).learn_sent = st.learn_sent := by
  unfold prepare_adopt
  split_ifs <;> exact ⟨rfl, rfl, rfl, rfl⟩

/-- No step makes `preparing` and `proposing` both true. -/
theorem step_keeps_exclusive (s : paxos_t) (now : Nat) (c : paxos_call)
    (h : ¬ (s.proposer.state.preparing = true ∧ s.proposer.state.proposing = true)) :
    ¬ ((paxos_step s now c).1.proposer.state.preparing = true ∧
       (paxos_step s now c).1.proposer.state.proposing = true) := by
  rcases step_proposer_cases s now c with hc | hc | hc | hc | hc
  · rw [hc.1]
    exact h
  · rw [hc.1]
    intro hh
    exact Bool.noConfusion hh.1
  · obtain ⟨s1, _, _, _, _, _, hr⟩ := hc
    rw [hr]
    intro hh
    exact Bool.noConfusion hh.2
  · obtain ⟨m, _, h1, h2, hr⟩ := hc
    rw [hr, on_prepare_response_processed s m now h1 h2]
    split_ifs
    · intro hh
      exact Bool.noConfusion hh.1
    · intro hh
      exact Bool.noConfusion hh.1
    · intro hh
      apply h
      have hk := prepare_adopt_keeps s.proposer.state m
      exact ⟨hk.1 ▸ hh.1, hk.2.1 ▸ hh.2⟩
  · obtain ⟨m, _, h1, h2, hr⟩ := hc
    rw [hr, on_propose_response_processed s m now h1 h2]
    split_ifs
    · intro hh
      exact Bool.noConfusion hh.2
    · intro hh
      exact Bool.noConfusion hh.2
    · exact h

/-- C17. Mutual exclusion of ballot phases: in every state reachable from
`paxos_open`, `preparing` and `proposing` are not both true. -/
theorem phases_exclusive (s : paxos_t) (h : Reachable s) :
    ¬ (s.proposer.state.preparing = true ∧ s.proposer.state.proposing = true) := by
  induction h with
  | opened prior node_id num_nodes =>
    intro hh
    exact Bool.noConfusion hh.1
  | step s now c _ ih => exact step_keeps_exclusive s now c ih

/-- Witness of C17: the state after a first `paxos_propose`. -/
theorem phases_exclusive_witness :
    Reachable (paxos_step (paxos_fresh 1 3) 0 (paxos_call.propose 7)).1 ∧
    ¬ ((paxos_step (paxos_fresh 1 3) 0 (paxos_call.propose 7)).1.proposer.state.preparing = true ∧
       (paxos_step (paxos_fresh 1 3) 0 (paxos_call.propose 7)).1.proposer.state.proposing
         = true) :=
  ⟨Reachable.step _ 0 _ (Reachable.opened paxos_zero 1 3),
   phases_exclusive _ (Reachable.step _ 0 _ (Reachable.opened paxos_zero 1 3))⟩

/-! ## The timer periods -/

theorem on_prepare_response_periods (s : paxos_t) (m : paxos_message_t) (now : Nat) :
    (__on_prepare_response s m now).1.proposer.prepare_timeout.timeout
      = s.proposer.prepare_timeout.timeout ∧
    (__on_prepare_response s m now).1.proposer.propose_timeout.timeout
      = s.proposer.propose_timeout.timeout ∧
    (__on_prepare_response s m now).1.proposer.restart_timeout.timeout
      = s.proposer.restart_timeout.timeout := by
  unfold __on_prepare_response
  dsimp only
  split_ifs <;> exact ⟨rfl, rfl, rfl⟩

theorem on_propose_response_periods (s : paxos_t) (m : paxos_message_t) (now : Nat) :
    (__on_propose_response s m now).1.proposer.prepare_timeout.timeout
      = s.proposer.prepare_timeout.timeout ∧
    (__on_propose_response s m now).1.proposer.propose_timeout.timeout
      = s.proposer.propose_timeout.timeout ∧
    (__on_propose_response s m now).1.proposer.restart_timeout.timeout
      = s.proposer.restart_timeout.timeout := by
  unfold __on_propose_response
  dsimp only
  split_ifs <;> exact ⟨rfl, rfl, rfl⟩

theorem on_learn_chosen_periods (s : paxos_t) (m : paxos_message_t) (now : Nat) :
    (__on_learn_chosen s m now).1.proposer.prepare_timeout.timeout
      = s.proposer.prepare_timeout.timeout ∧
    (__on_learn_chosen s m now).1.proposer.propose_timeout.timeout
      = s.proposer.propose_timeout.timeout ∧
    (__on_learn_chosen s m now).1.proposer.restart_timeout.timeout
      = s.proposer.restart_timeout.timeout := by
  unfold __on_learn_chosen
  split_ifs <;> exact ⟨rfl, rfl, rfl⟩

theorem timeout_trigger_periods (s : paxos_t) (t : Option paxos_timer_id) (now : Nat) :
    (paxos_timeout_trigger s t now).1.proposer.prepare_timeout.timeout
      = s.proposer.prepare_timeout.timeout ∧
    (paxos_timeout_trigger s t now).1.proposer.propose_timeout.timeout
      = s.proposer.propose_timeout.timeout ∧
    (paxos_timeout_trigger s t now).1.proposer.restart_timeout.timeout
      = s.proposer.restart_timeout.timeout := by
  rcases t with _ | t
  · exact ⟨rfl, rfl, rfl⟩
  · cases t
    · unfold paxos_timeout_trigger __on_prepare_timeout
      dsimp only
      split_ifs <;> exact ⟨rfl, rfl, rfl⟩
    · unfold paxos_timeout_trigger __on_propose_timeout
      dsimp only
      split_ifs <;> exact ⟨rfl, rfl, rfl⟩
    · unfold paxos_timeout_trigger __on_restart_timeout
      dsimp only
      split_ifs <;> exact ⟨rfl, rfl, rfl⟩

/-- The periods of the three timers, as wired by `paxos_proposer_init`. -/
theorem step_keeps_periods (s : paxos_t) (now : Nat) (c : paxos_call) :
    (paxos_step s now c).1.proposer.prepare_timeout.timeout
      = s.proposer.prepare_timeout.timeout ∧
    (paxos_step s now c).1.proposer.propose_timeout.timeout
      = s.proposer.propose_timeout.timeout ∧
    (paxos_step s now c).1.proposer.restart_timeout.timeout
      = s.proposer.restart_timeout.timeout := by
  cases c with
  | process_message m =>
    show (paxos_process_message s m now).1.proposer.prepare_timeout.timeout = _ ∧
      (paxos_process_message s m now).1.proposer.propose_timeout.timeout = _ ∧
      (paxos_process_message s m now).1.proposer.restart_timeout.timeout = _
    unfold paxos_process_message
    split_ifs
    · by_cases hc : can_accept_spec s m
      · rw [on_prepare_request_accept s m hc]
        exact ⟨rfl, rfl, rfl⟩
      · rw [on_prepare_request_reject s m hc]
        exact ⟨rfl, rfl, rfl⟩
    · exact on_prepare_response_periods s m now
    · by_cases hc : can_accept_spec s m
      · rw [on_propose_request_accept s m hc]
        exact ⟨rfl, rfl, rfl⟩
      · rw [on_propose_request_reject s m hc]
        exact ⟨rfl, rfl, rfl⟩
    · exact on_propose_response_periods s m now
    · exact on_learn_chosen_periods s m now
    · rw [(on_request_chosen_frame s m).1]
      exact ⟨rfl, rfl, rfl⟩
    · rw [(on_bootstrap_frame s m).1]
      exact ⟨rfl, rfl, rfl⟩
    · rw [(on_catchup_start_frame s m).1]
      exact ⟨rfl, rfl, rfl⟩
    · rw [(on_catchup_request_frame s m).1]
      exact ⟨rfl, rfl, rfl⟩
    · unfold __on_catchup_response
      split_ifs <;> exact ⟨rfl, rfl, rfl⟩
    · exact ⟨rfl, rfl, rfl⟩
  | propose value => exact ⟨rfl, rfl, rfl⟩
  | bootstrap => exact ⟨rfl, rfl, rfl⟩
  | timeout_trigger t => exact timeout_trigger_periods s t now

theorem reachable_periods (s : paxos_t) (h : Reachable s) :
    s.proposer.prepare_timeout.timeout = 5000 ∧
    s.proposer.propose_timeout.timeout = 5000 ∧
    s.proposer.restart_timeout.timeout = 1000 := by
  induction h with
  | opened prior node_id num_nodes => exact ⟨rfl, rfl, rfl⟩
  | step s now c _ ih =>
    obtain ⟨h1, h2, h3⟩ := step_keeps_periods s now c
    rw [h1, h2, h3]
    exact ih

theorem math_max_eq (a b : Nat) : __math_max a b = max a b := by
  unfold __math_max
  split_ifs with h
  · exact (max_eq_left (Nat.le_of_lt h)).symm
  · exact (max_eq_right (Nat.le_of_not_lt h)).symm

/-! ## Entering phase 1 -/

/-- The ballot is computed on 64 bits: after `paxos_propose` and a PREPARE_REJECTED
response that reports the promise `2^64 - 1`, a second `paxos_propose` wraps
`proposal_id` to 0. -/
theorem ballot_wraps_at_limit :
    Reachable
      (paxos_step (paxos_step (paxos_fresh 1 3) 0 (paxos_call.propose 7)).1 0
        (paxos_call.process_message
          (paxos_message_prepare_rejected 0 2 1 18446744073709551615))).1 ∧
    (paxos_step (paxos_step (paxos_fresh 1 3) 0 (paxos_call.propose 7)).1 0
        (paxos_call.process_message
          (paxos_message_prepare_rejected 0 2 1 18446744073709551615))).1.proposer.state.proposal_id
      = 1 ∧
    (paxos_step (paxos_step (paxos_fresh 1 3) 0 (paxos_call.propose 7)).1 0
        (paxos_call.process_message
          (paxos_message_prepare_rejected 0 2 1
            18446744073709551615))).1.proposer.state.highest_promised_proposal_id
      = 18446744073709551615 ∧
    (paxos_propose
      (paxos_step (paxos_step (paxos_fresh 1 3) 0 (paxos_call.propose 7)).1 0
        (paxos_call.process_message
          (paxos_message_prepare_rejected 0 2 1 18446744073709551615))).1
      7 0).1.proposer.state.proposal_id = 0 :=
  ⟨Reachable.step _ 0 _ (Reachable.step _ 0 _ (Reachable.opened paxos_zero 1 3)),
   by decide, by decide, by decide⟩

/-- C12. Entry into phase 1: from every state of an engine opened by `paxos_open`,
`paxos_propose(v)` stores v, sets `preparing`, clears `proposing`, zeroes both
vote counters and `highest_received_proposal_id`, sets `proposal_id` to
`1 + max(proposal_id, highest_promised_proposal_id)`, arms `prepare_timeout` at
`now + 5000`, leaves the two other timers inactive and broadcasts exactly one
PREPARE_REQUEST with the instance, the own node id and the new ballot.  The two
sums are `uint64_t` sums, written modulo 2^64; below the wrap they are the plain
sums. -/
theorem propose_enters_phase_one (s : paxos_t) (hr : Reachable s) (v now : Nat) :
    (paxos_propose s v now).1.proposer.state.proposed_value = v ∧
    (paxos_propose s v now).1.proposer.state.preparing = true ∧
    (paxos_propose s v now).1.proposer.state.proposing = false ∧
    (paxos_propose s v now).1.quorum.num_accepted = 0 ∧
    (paxos_propose s v now).1.quorum.num_rejected = 0 ∧
    (paxos_propose s v now).1.proposer.state.highest_received_proposal_id = 0 ∧
    (paxos_propose s v now).1.proposer.state.proposal_id =
      (1 + max s.proposer.state.proposal_id
            s.proposer.state.highest_promised_proposal_id) % 2 ^ 64 ∧
    (paxos_propose s v now).1.proposer.prepare_timeout.active = true ∧
    (paxos_propose s v now).1.proposer.prepare_timeout.expire_time = (now + 5000) % 2 ^ 64 ∧
    (paxos_propose s v now).1.proposer.propose_timeout.active = false ∧
    (paxos_propose s v now).1.proposer.restart_timeout.active = false ∧
    (paxos_propose s v now).2 =
      [paxos_event.broadcast
        { type := PAXOS_PREPARE_REQUEST, paxos_id := s.learner.paxos_id, node_id := s.node_id,
          proposal_id := (1 + max s.proposer.state.proposal_id
                            s.proposer.state.highest_promised_proposal_id) % 2 ^ 64,
          accepted_proposal_id := 0, promised_proposal_id := 0, value := 0 }] ∧
    (1 + max s.proposer.state.proposal_id
          s.proposer.state.highest_promised_proposal_id < 2 ^ 64 →
      (paxos_propose s v now).1.proposer.state.proposal_id =
        1 + max s.proposer.state.proposal_id
              s.proposer.state.highest_promised_proposal_id) ∧
    (now + 5000 < 2 ^ 64 →
      (paxos_propose s v now).1.proposer.prepare_timeout.expire_time = now + 5000) := by
  have hp := (reachable_periods s hr).1
  have hb : (paxos_propose s v now).1.proposer.state.proposal_id =
      (1 + max s.proposer.state.proposal_id
            s.proposer.state.highest_promised_proposal_id) % 2 ^ 64 := by
    show u64_add 1 (__math_max _ _) = _
    rw [math_max_eq]
    rfl
  have he : (paxos_propose s v now).1.proposer.prepare_timeout.expire_time
      = (now + 5000) % 2 ^ 64 := by
    show u64_add now s.proposer.prepare_timeout.timeout = _
    rw [hp]
    rfl
  refine ⟨rfl, rfl, rfl, rfl, rfl, rfl, hb, rfl, he, rfl, rfl, ?_, ?_, ?_⟩
  · rw [← hb]
    rfl
  · intro hlt
    rw [hb, Nat.mod_eq_of_lt hlt]
  · intro hlt
    rw [he, Nat.mod_eq_of_lt hlt]

/-- Witness of C12: the first `paxos_propose` on a fresh engine uses ballot 1. -/
theorem propose_enters_phase_one_witness :
    Reachable (paxos_fresh 1 3) ∧
    (paxos_propose (paxos_fresh 1 3) 7 0).1.proposer.state.proposal_id
      = (1 + max (paxos_fresh 1 3).proposer.state.proposal_id
          (paxos_fresh 1 3).proposer.state.highest_promised_proposal_id) % 2 ^ 64 :=
  ⟨Reachable.opened paxos_zero 1 3,
   (propose_enters_phase_one (paxos_fresh 1 3) (Reachable.opened paxos_zero 1 3) 7 0).2.2.2.2.2.2.1⟩

/-! ## Commit gating -/

theorem committing_cannot_accept (s : paxos_t) (m : paxos_message_t)
    (hc : s.acceptor.is_committing = true) : ¬ can_accept_spec s m := by
  intro h
  rw [h.2.2] at hc
  exact Bool.noConfusion hc

theorem on_catchup_response_acceptor (s : paxos_t) (m : paxos_message_t) :
    (learned_events (__on_catchup_response s m).2 = [] ∧
      (__on_catchup_response s m).1.acceptor = s.acceptor) ∨
    (learned_events (__on_catchup_response s m).2 ≠ [] ∧
      (__on_catchup_response s m).1.acceptor.state = acceptor_state_zero ∧
      (__on_catchup_response s m).1.acceptor.is_committing = s.acceptor.is_committing) := by
  unfold __on_catchup_response
  split_ifs
  · exact Or.inl ⟨rfl, rfl⟩
  · exact Or.inr ⟨by simp [paxos_learner_learn_value, learned_events, learned_of], rfl, rfl⟩

/-- Case analysis on the dispatch of `paxos_process_message`: a property of the
result holds once it holds for the result of each handler and for a dropped
message. -/
theorem process_message_dispatch (P : paxos_t × List paxos_event → Prop)
    (s : paxos_t) (m : paxos_message_t) (now : Nat)
    (h1 : m.type = PAXOS_PREPARE_REQUEST → P (__on_prepare_request s m))
    (h2 : P (__on_prepare_response s m now))
    (h3 : m.type = PAXOS_PROPOSE_REQUEST → P (__on_propose_request s m))
    (h4 : P (__on_propose_response s m now))
    (h5 : m.type = PAXOS_LEARN_PROPOSAL ∨ m.type = PAXOS_LEARN_VALUE →
      P (__on_learn_chosen s m now))
    (h6 : P (__on_request_chosen s m))
    (h7 : P (__on_bootstrap s m))
    (h8 : P (__on_catchup_start s m))
    (h9 : P (__on_catchup_request s m))
    (h10 : m.type = PAXOS_CATCHUP_RESPONSE → P (__on_catchup_response s m))
    (h11 : P (s, [])) :
    P (paxos_process_message s m now) := by
  unfold paxos_process_message
  by_cases c1 : m.type = PAXOS_PREPARE_REQUEST
  · rw [if_pos c1]
    exact h1 c1
  rw [if_neg c1]
  by_cases c2 : m.type = PAXOS_PREPARE_REJECTED ∨
      m.type = PAXOS_PREPARE_PREVIOUSLY_ACCEPTED ∨ m.type = PAXOS_PREPARE_CURRENTLY_OPEN
  · rw [if_pos c2]
    exact h2
  rw [if_neg c2]
  by_cases c3 : m.type = PAXOS_PROPOSE_REQUEST
  · rw [if_pos c3]
    exact h3 c3
  rw [if_neg c3]
  by_cases c4 : m.type = PAXOS_PROPOSE_REJECTED ∨ m.type = PAXOS_PROPOSE_ACCEPTED
  · rw [if_pos c4]
    exact h4
  rw [if_neg c4]
  by_cases c5 : m.type = PAXOS_LEARN_PROPOSAL ∨ m.type = PAXOS_LEARN_VALUE
  · rw [if_pos c5]
    exact h5 c5
  rw [if_neg c5]
  by_cases c6 : m.type = PAXOS_REQUEST_CHOSEN
  · rw [if_pos c6]
    exact h6
  rw [if_neg c6]
  by_cases c7 : m.type = PAXOS_BOOTSTRAP
  · rw [if_pos c7]
    exact h7
  rw [if_neg c7]
  by_cases c8 : m.type = PAXOS_CATCHUP_START
  · rw [if_pos c8]
    exact h8
  rw [if_neg c8]
  by_cases c9 : m.type = PAXOS_CATCHUP_REQUEST
  · rw [if_pos c9]
    exact h9
  rw [if_neg c9]
  by_cases c10 : m.type = PAXOS_CATCHUP_RESPONSE
  · rw [if_pos c10]
    exact h10 c10
  rw [if_neg c10]
  exact h11

/-- While a commit is in flight, a message either leaves the acceptor alone or
is an honoured catch-up response. -/
theorem committing_process_cases (s : paxos_t) (m : paxos_message_t) (now : Nat)
    (hc : s.acceptor.is_committing = true) :
    (learned_events (paxos_process_message s m now).2 = [] ∧
      (paxos_process_message s m now).1.acceptor = s.acceptor) ∨
    (learned_events (paxos_process_message s m now).2 ≠ [] ∧
      m.type = PAXOS_CATCHUP_RESPONSE ∧
      (paxos_process_message s m now).1.acceptor.state = acceptor_state_zero ∧
      (paxos_process_message s m now).1.acceptor.is_committing = true) := by
  have hno := committing_cannot_accept s m hc
  refine process_message_dispatch
    (fun r => (learned_events r.2 = [] ∧ r.1.acceptor = s.acceptor) ∨
      (learned_events r.2 ≠ [] ∧ m.type = PAXOS_CATCHUP_RESPONSE ∧
        r.1.acceptor.state = acceptor_state_zero ∧ r.1.acceptor.is_committing = true))
    s m now ?_ ?_ ?_ ?_ ?_ ?_ ?_ ?_ ?_ ?_ ?_
  · intro _
    rw [on_prepare_request_reject s m hno]
    exact Or.inl ⟨rfl, rfl⟩
  · obtain ⟨_, b, _, d⟩ := on_prepare_response_frame s m now
    exact Or.inl ⟨d, b⟩
  · intro _
    rw [on_propose_request_reject s m hno]
    exact Or.inl ⟨rfl, rfl⟩
  · obtain ⟨_, b, _, d⟩ := on_propose_response_frame s m now
    exact Or.inl ⟨d, b⟩
  · intro _
    have : __on_learn_chosen s m now = (s, []) := by
      unfold __on_learn_chosen
      rw [if_pos hc]
    rw [this]
    exact Or.inl ⟨rfl, rfl⟩
  · obtain ⟨a, b⟩ := on_request_chosen_frame s m
    exact Or.inl ⟨b, by rw [a]⟩
  · obtain ⟨a, b⟩ := on_bootstrap_frame s m
    exact Or.inl ⟨b, by rw [a]⟩
  · obtain ⟨a, b⟩ := on_catchup_start_frame s m
    exact Or.inl ⟨b, by rw [a]⟩
  · obtain ⟨a, b⟩ := on_catchup_request_frame s m
    exact Or.inl ⟨b, by rw [a]⟩
  · intro h10
    rcases on_catchup_response_acceptor s m with ⟨a, b⟩ | ⟨a, b, c⟩
    · exact Or.inl ⟨a, b⟩
    · exact Or.inr ⟨a, h10, b, by rw [c]; exact hc⟩
  · exact Or.inl ⟨rfl, rfl⟩

/-- C11 (as stated) fails: an acceptor with a commit in flight and promise 5
that receives a PAXOS_CATCHUP_RESPONSE for instance 4 has its state reset
(promise 0) although `is_committing` is true. -/
theorem commit_gating_counterexample :
    ({ paxos_fresh 1 3 with
       acceptor := { state := { promised_proposal_id := 5, accepted_proposal_id := 0,
                                accepted_value := 0, accepted := false }
                     sender_id := 2, written_paxos_id := 0,
                     is_committing := true } } : paxos_t).acceptor.is_committing = true ∧
    (paxos_process_message
      { paxos_fresh 1 3 with
        acceptor := { state := { promised_proposal_id := 5, accepted_proposal_id := 0,
                                 accepted_value := 0, accepted := false }
                      sender_id := 2, written_paxos_id := 0, is_committing := true } }
      (paxos_message_catchup_response 4 2 9) 0).1.acceptor.state.promised_proposal_id = 0 := by
  decide

/-- C11 (amended). Commit gating: while `is_committing` is true, processing an
inbound message leaves the acceptor unchanged unless it calls `learned_value`;
the only such message is an honoured PAXOS_CATCHUP_RESPONSE, which resets the
acceptor state to zero and keeps `is_committing`. -/
theorem commit_gating (s : paxos_t) (m : paxos_message_t) (now : Nat)
    (hc : s.acceptor.is_committing = true) :
    (learned_events (paxos_process_message s m now).2 = [] →
      (paxos_process_message s m now).1.acceptor = s.acceptor) ∧
    (learned_events (paxos_process_message s m now).2 ≠ [] →
      m.type = PAXOS_CATCHUP_RESPONSE ∧
      (paxos_process_message s m now).1.acceptor.state =
        { promised_proposal_id := 0, accepted_proposal_id := 0, accepted_value := 0,
          accepted := false } ∧
      (paxos_process_message s m now).1.acceptor.is_committing = true) := by
  rcases committing_process_cases s m now hc with ⟨a, b⟩ | ⟨a, b, c, d⟩
  · exact ⟨fun _ => b, fun h => absurd a h⟩
  · exact ⟨fun h => absurd h a, fun _ => ⟨b, c, d⟩⟩

/-- Witness of C11 (amended): a PREPARE_REQUEST while a commit is in flight. -/
theorem commit_gating_witness :
    ({ paxos_fresh 1 3 with
       acceptor := { state := { promised_proposal_id := 5, accepted_proposal_id := 0,
                                accepted_value := 0, accepted := false }
                     sender_id := 2, written_paxos_id := 0,
                     is_committing := true } } : paxos_t).acceptor.is_committing = true ∧
    (paxos_process_message
      { paxos_fresh 1 3 with
        acceptor := { state := { promised_proposal_id := 5, accepted_proposal_id := 0,
                                 accepted_value := 0, accepted := false }
                      sender_id := 2, written_paxos_id := 0, is_committing := true } }
      (paxos_message_prepare_request 0 3 9) 0).1.acceptor =
    { state := { promised_proposal_id := 5, accepted_proposal_id := 0,
                 accepted_value := 0, accepted := false }
      sender_id := 2, written_paxos_id := 0, is_committing := true } :=
  ⟨rfl,
   (commit_gating
      { paxos_fresh 1 3 with
        acceptor := { state := { promised_proposal_id := 5, accepted_proposal_id := 0,
                                 accepted_value := 0, accepted := false }
                      sender_id := 2, written_paxos_id := 0, is_committing := true } }
      (paxos_message_prepare_request 0 3 9) 0 rfl).1 (by decide)⟩

/-! ## Duplicate delivery -/

/-- C18 fails on the code. A proposer of a three-node cluster in phase 1 at
ballot 1 receives the same PREPARE_CURRENTLY_OPEN of node 2 twice: after one
delivery it has one accepting vote and is still preparing, after the second it
has counted the vote again, reached the quorum of two and broadcast its
PROPOSE_REQUEST. -/
theorem duplicate_response_counts_twice :
    (paxos_process_message (paxos_propose (paxos_fresh 1 3) 7 0).1
      (paxos_message_prepare_currently_open 0 2 1) 0).1.quorum.num_accepted = 1 ∧
    (paxos_process_message (paxos_propose (paxos_fresh 1 3) 7 0).1
      (paxos_message_prepare_currently_open 0 2 1) 0).1.proposer.state.preparing = true ∧
    (paxos_process_message
      (paxos_process_message (paxos_propose (paxos_fresh 1 3) 7 0).1
        (paxos_message_prepare_currently_open 0 2 1) 0).1
      (paxos_message_prepare_currently_open 0 2 1) 0).1.proposer.state.proposing = true ∧
    (paxos_process_message
      (paxos_process_message (paxos_propose (paxos_fresh 1 3) 7 0).1
        (paxos_message_prepare_currently_open 0 2 1) 0).1
      (paxos_message_prepare_currently_open 0 2 1) 0).2
      = [paxos_event.broadcast (paxos_message_propose_request 0 1 1 7)] ∧
    (paxos_process_message
      (paxos_process_message (paxos_propose (paxos_fresh 1 3) 7 0).1
        (paxos_message_prepare_currently_open 0 2 1) 0).1
      (paxos_message_prepare_currently_open 0 2 1) 0).1
      ≠ (paxos_process_message (paxos_propose (paxos_fresh 1 3) 7 0).1
          (paxos_message_prepare_currently_open 0 2 1) 0).1 := by
  decide

/-! ## End-to-end runs -/

/-- C20. Happy path with three nodes: with every broadcast delivered to all three
nodes, every send to its addressee and deliveries processed in emission order,
`paxos_propose(42)` at node 1 makes the cluster emit PREPARE_REQUEST (instance 0,
node 1, ballot 1), three PREPARE_CURRENTLY_OPEN at ballot 1, PROPOSE_REQUEST
(ballot 1, value 42), three PROPOSE_ACCEPTED at ballot 1 and LEARN_PROPOSAL
(ballot 1); every node calls `learned_value` once with value 42 at instance 0
and ends with `learner.paxos_id = 1`. -/
theorem happy_path_three_nodes :
    (cluster_propose_fifo 15 (cluster_open 3 [1, 2, 3]) 0 1 42).map (fun c => c.sent)
      = some
        [(none, paxos_message_prepare_request 0 1 1),
         (some 1, paxos_message_prepare_currently_open 0 1 1),
         (some 1, paxos_message_prepare_currently_open 0 2 1),
         (some 1, paxos_message_prepare_currently_open 0 3 1),
         (none, paxos_message_propose_request 0 1 1 42),
         (some 1, paxos_message_propose_accepted 0 1 1),
         (some 1, paxos_message_propose_accepted 0 2 1),
         (some 1, paxos_message_propose_accepted 0 3 1),
         (none, paxos_message_learn_proposal 0 1 1)] ∧
    (cluster_propose_fifo 15 (cluster_open 3 [1, 2, 3]) 0 1 42).map (fun c => c.learned)
      = some [(1, 0, 42), (2, 0, 42), (3, 0, 42)] ∧
    (cluster_propose_fifo 15 (cluster_open 3 [1, 2, 3]) 0 1 42).map
        (fun c => c.nodes.map (fun p => p.learner))
      = some
        [{ paxos_id := 1, learned_value := 42, has_learned_value := true,
           last_request_chosen_time := 0 },
         { paxos_id := 1, learned_value := 42, has_learned_value := true,
           last_request_chosen_time := 0 },
         { paxos_id := 1, learned_value := 42, has_learned_value := true,
           last_request_chosen_time := 0 }] := by
  refine ⟨?_, ?_, ?_⟩ <;> decide

/-- C19. Single-node cluster: an engine opened with `num_nodes = 1` that proposes v
and is then fed its own messages (broadcasts and sends to its own node id) in
emission order comes to rest after five deliveries, with `learned_value` called
exactly once (at instance 0, with value v), `learner.learned_value = v`,
`has_learned_value` set and `learner.paxos_id = 1`. -/
theorem single_node_learns (prior : paxos_t) (node_id v : Nat) (clock : Nat → Nat) :
    (paxos_loopback 5 clock (paxos_propose (paxos_open prior node_id 1) v (clock 5)).1
      (loopback_messages node_id (paxos_propose (paxos_open prior node_id 1) v (clock 5)).2)
      (learned_events (paxos_propose (paxos_open prior node_id 1) v (clock 5)).2)).map
      (fun r => (r.2, r.1.learner.learned_value, r.1.learner.has_learned_value,
        r.1.learner.paxos_id))
    = some ([(0, v)], v, true, 1) := by
  simp [paxos_loopback, loopback_messages, learned_events, learned_of, paxos_propose,
    paxos_proposer_propose, __start_preparing, __stop_proposing, paxos_open,
    paxos_proposer_init, paxos_acceptor_init, paxos_learner_init, paxos_timeout_init,
    paxos_timeout_stop, paxos_timeout_start, paxos_proposer_state_reset,
    paxos_acceptor_state_reset, paxos_quorum_vote_reset, __next_proposal_id, __math_max,
    u64_add, U64, U32, U16, paxos_message_prepare_request, __paxos_message_proposal_id,
    paxos_process_message, __on_prepare_request, __can_accept_request,
    __accept_prepare_request, __commit, paxos_commit, __on_state_written,
    paxos_message_prepare_currently_open, PAXOS_PREPARE_REQUEST, PAXOS_PREPARE_REJECTED,
    PAXOS_PREPARE_PREVIOUSLY_ACCEPTED, PAXOS_PREPARE_CURRENTLY_OPEN, PAXOS_PROPOSE_REQUEST,
    PAXOS_PROPOSE_REJECTED, PAXOS_PROPOSE_ACCEPTED, PAXOS_LEARN_PROPOSAL, PAXOS_LEARN_VALUE,
    __on_prepare_response, paxos_quorum_vote_accepted, paxos_quorum_vote_rejected,
    paxos_quorum_vote_is_accepted, paxos_quorum_vote_is_rejected, __math_ceil, u32_add,
    u32_sub, __start_proposing, __stop_preparing, paxos_message_propose_request,
    __on_propose_request, __accept_propose_request, paxos_message_propose_accepted,
    __on_propose_response, paxos_message_learn_proposal, __on_learn_chosen,
    paxos_learner_learn_value, paxos_start_new_round]

/-! ## The bound on the vote counters -/

theorem is_accepted_iff (q : paxos_quorum_t) (hn : q.num_nodes + 2 < 2 ^ 32) :
    paxos_quorum_vote_is_accepted q = true ↔ (q.num_nodes + 2) / 2 ≤ q.num_accepted := by
  unfold paxos_quorum_vote_is_accepted
  rw [decide_eq_true_eq, accepted_threshold _ hn]

theorem is_rejected_iff (q : paxos_quorum_t) (hn : q.num_nodes + 2 < 2 ^ 32) :
    paxos_quorum_vote_is_rejected q = true ↔ (q.num_nodes + 1) / 2 ≤ q.num_rejected := by
  unfold paxos_quorum_vote_is_rejected
  rw [decide_eq_true_eq, rejected_threshold _ hn]

theorem prepare_vote_counts (q : paxos_quorum_t) (m : paxos_message_t)
    (ha : q.num_accepted < 65535) (hr : q.num_rejected < 65535) :
    (prepare_vote q m).num_nodes = q.num_nodes ∧
    (((prepare_vote q m).num_accepted = q.num_accepted + 1 ∧
        (prepare_vote q m).num_rejected = q.num_rejected) ∨
     ((prepare_vote q m).num_accepted = q.num_accepted ∧
        (prepare_vote q m).num_rejected = q.num_rejected + 1)) := by
  unfold prepare_vote
  split_ifs
  · refine ⟨rfl, Or.inr ⟨rfl, ?_⟩⟩
    show (q.num_rejected + 1) % U16 = _
    unfold U16
    omega
  · refine ⟨rfl, Or.inl ⟨?_, rfl⟩⟩
    show (q.num_accepted + 1) % U16 = _
    unfold U16
    omega

theorem propose_vote_counts (q : paxos_quorum_t) (m : paxos_message_t)
    (ha : q.num_accepted < 65535) (hr : q.num_rejected < 65535) :
    (propose_vote q m).num_nodes = q.num_nodes ∧
    (((propose_vote q m).num_accepted = q.num_accepted + 1 ∧
        (propose_vote q m).num_rejected = q.num_rejected) ∨
     ((propose_vote q m).num_accepted = q.num_accepted ∧
        (propose_vote q m).num_rejected = q.num_rejected + 1)) := by
  unfold propose_vote
  split_ifs
  · refine ⟨rfl, Or.inr ⟨rfl, ?_⟩⟩
    show (q.num_rejected + 1) % U16 = _
    unfold U16
    omega
  · refine ⟨rfl, Or.inl ⟨?_, rfl⟩⟩
    show (q.num_accepted + 1) % U16 = _
    unfold U16
    omega

/-- The state after a counted vote, whatever the handler does next, satisfies
the invariant: `q1` is the quorum after the vote, `pre` and `pro` the flags on
return. -/
theorem vote_inv_after_count (n : Nat) (h1 : 1 ≤ n) (h2 : n ≤ 65535)
    (q q1 : paxos_quorum_t) (hq : q.num_nodes = n)
    (hlt : q.num_accepted < (n + 2) / 2 ∧ q.num_rejected < (n + 1) / 2)
    (hv : q1.num_nodes = q.num_nodes ∧
      ((q1.num_accepted = q.num_accepted + 1 ∧ q1.num_rejected = q.num_rejected) ∨
       (q1.num_accepted = q.num_accepted ∧ q1.num_rejected = q.num_rejected + 1))) :
    q1.num_nodes = n ∧
    q1.num_accepted + q1.num_rejected ≤ n ∧
    (¬ paxos_quorum_vote_is_accepted q1 = true → ¬ paxos_quorum_vote_is_rejected q1 = true →
      q1.num_accepted < (n + 2) / 2 ∧ q1.num_rejected < (n + 1) / 2) := by
  have hn1 : q1.num_nodes = n := by rw [hv.1, hq]
  have hb : q1.num_nodes + 2 < 2 ^ 32 := by rw [hn1]; omega
  refine ⟨hn1, ?_⟩
  rw [is_accepted_iff q1 hb, is_rejected_iff q1 hb, hn1]
  obtain ⟨_, hv | hv⟩ := hv <;> constructor <;> omega

theorem step_keeps_vote_inv (n : Nat) (h1 : 1 ≤ n) (h2 : n ≤ 65535)
    (s : paxos_t) (now : Nat) (c : paxos_call) (hi : vote_inv n s) :
    vote_inv n (paxos_step s now c).1 := by
  obtain ⟨hn, hex, hsum, hlt⟩ := hi
  rcases step_proposer_cases s now c with hc | hc | hc | hc | hc
  · unfold vote_inv
    rw [hc.1, hc.2]
    exact ⟨hn, hex, hsum, hlt⟩
  · unfold vote_inv
    rw [hc.1, hc.2.1]
    exact ⟨hn, fun hh => Bool.noConfusion hh.1, hsum,
      fun hh => hh.elim (fun h => Bool.noConfusion h) (fun h => Bool.noConfusion h)⟩
  · obtain ⟨s1, _, _, hnn, _, _, hr⟩ := hc
    rw [hr]
    refine ⟨?_, fun hh => Bool.noConfusion hh.2, ?_, fun _ => ⟨?_, ?_⟩⟩
    · show s1.quorum.num_nodes = n
      rw [hnn, hn]
    · show 0 + 0 ≤ n
      omega
    · show 0 < (n + 2) / 2
      omega
    · show 0 < (n + 1) / 2
      omega
  · obtain ⟨m, _, hp, hm, hr⟩ := hc
    have hpro : s.proposer.state.proposing = false := by
      cases hx : s.proposer.state.proposing
      · rfl
      · exact absurd ⟨hp, hx⟩ hex
    have hl := hlt (Or.inl hp)
    have hv := prepare_vote_counts s.quorum m (by omega) (by omega)
    obtain ⟨k1, k2, k3⟩ := vote_inv_after_count n h1 h2 s.quorum _ hn hl hv
    have hk := prepare_adopt_keeps s.proposer.state m
    rw [hr, on_prepare_response_processed s m now hp hm]
    split_ifs with ha hrj
    · refine ⟨k1, fun hh => Bool.noConfusion hh.1, ?_, fun _ => ⟨?_, ?_⟩⟩
      · show 0 + 0 ≤ n
        omega
      · show 0 < (n + 2) / 2
        omega
      · show 0 < (n + 1) / 2
        omega
    · refine ⟨k1, fun hh => Bool.noConfusion hh.1, k2, fun hh => ?_⟩
      rcases hh with hh | hh
      · exact Bool.noConfusion hh
      · have : (prepare_adopt s.proposer.state m).proposing = true := hh
        rw [hk.2.1, hpro] at this
        exact Bool.noConfusion this
    · refine ⟨k1, ?_, k2, fun _ => k3 ha hrj⟩
      intro hh
      have : (prepare_adopt s.proposer.state m).proposing = true := hh.2
      rw [hk.2.1, hpro] at this
      exact Bool.noConfusion this
  · obtain ⟨m, _, hp, hm, hr⟩ := hc
    have hpre : s.proposer.state.preparing = false := by
      cases hx : s.proposer.state.preparing
      · rfl
      · exact absurd ⟨hx, hp⟩ hex
    have hl := hlt (Or.inr hp)
    have hv := propose_vote_counts s.quorum m (by omega) (by omega)
    obtain ⟨k1, k2, k3⟩ := vote_inv_after_count n h1 h2 s.quorum _ hn hl hv
    rw [hr, on_propose_response_processed s m now hp hm]
    split_ifs with ha hrj
    · refine ⟨k1, fun hh => Bool.noConfusion hh.2, k2, fun hh => ?_⟩
      rcases hh with hh | hh
      · have : s.proposer.state.preparing = true := hh
        rw [hpre] at this
        exact Bool.noConfusion this
      · exact Bool.noConfusion hh
    · refine ⟨k1, fun hh => Bool.noConfusion hh.2, k2, fun hh => ?_⟩
      rcases hh with hh | hh
      · have : s.proposer.state.preparing = true := hh
        rw [hpre] at this
        exact Bool.noConfusion this
      · exact Bool.noConfusion hh
    · refine ⟨k1, ?_, k2, fun _ => k3 ha hrj⟩
      intro hh
      have : s.proposer.state.preparing = true := hh.1
      rw [hpre] at this
      exact Bool.noConfusion this

theorem reachable_proposed_vote_inv (n : Nat) (h1 : 1 ≤ n) (h2 : n ≤ 65535)
    (s : paxos_t) (h : ReachableProposed n s) : vote_inv n s := by
  induction h with
  | first prior node_id value now =>
    refine ⟨?_, fun hh => Bool.noConfusion hh.2, ?_, fun _ => ⟨?_, ?_⟩⟩
    · show n % U32 = n
      unfold U32
      omega
    · show 0 + 0 ≤ n
      omega
    · show 0 < (n + 2) / 2
      omega
    · show 0 < (n + 1) / 2
      omega
  | step s now c _ ih => exact step_keeps_vote_inv n h1 h2 s now c ih

/-- C16. Vote-count bound: with `1 <= n <= 65535` nodes, in every state reached
from `paxos_open` followed by a first `paxos_propose` and then any messages
(duplicates included), proposals and timer triggers,
`num_accepted + num_rejected <= n`. -/
theorem vote_count_bound (n : Nat) (h1 : 1 ≤ n) (h2 : n ≤ 65535) (s : paxos_t)
    (h : ReachableProposed n s) :
    s.quorum.num_accepted + s.quorum.num_rejected ≤ n :=
  (reachable_proposed_vote_inv n h1 h2 s h).2.2.1

/-- Witness of C16: three nodes, a proposal and twice the same accepting response. -/
theorem vote_count_bound_witness :
    (1 ≤ 3 ∧ 3 ≤ 65535) ∧
    ReachableProposed 3
      (paxos_step
        (paxos_step (paxos_propose (paxos_open paxos_zero 1 3) 7 0).1 0
          (paxos_call.process_message (paxos_message_prepare_currently_open 0 2 1))).1 0
        (paxos_call.process_message (paxos_message_prepare_currently_open 0 2 1))).1 ∧
    (paxos_step
        (paxos_step (paxos_propose (paxos_open paxos_zero 1 3) 7 0).1 0
          (paxos_call.process_message (paxos_message_prepare_currently_open 0 2 1))).1 0
        (paxos_call.process_message
          (paxos_message_prepare_currently_open 0 2 1))).1.quorum.num_accepted +
      (paxos_step
        (paxos_step (paxos_propose (paxos_open paxos_zero 1 3) 7 0).1 0
          (paxos_call.process_message (paxos_message_prepare_currently_open 0 2 1))).1 0
        (paxos_call.process_message
          (paxos_message_prepare_currently_open 0 2 1))).1.quorum.num_rejected ≤ 3 :=
  ⟨⟨by decide, by decide⟩,
   ReachableProposed.step _ 0 _
     (ReachableProposed.step _ 0 _ (ReachableProposed.first paxos_zero 1 7 0)),
   vote_count_bound 3 (by decide) (by decide) _
     (ReachableProposed.step _ 0 _
       (ReachableProposed.step _ 0 _ (ReachableProposed.first paxos_zero 1 7 0)))⟩

/-! ## Ballot numbers within an instance -/

theorem prepare_adopt_promised_le (st : paxos_proposer_state_t) (m : paxos_message_t) :
    st.highest_promised_proposal_id ≤ (prepare_adopt st m).highest_promised_proposal_id := by
  unfold prepare_adopt
  split_ifs with h1 h2
  · exact Nat.le_refl _
  · exact Nat.le_of_lt h2.2
  · exact Nat.le_refl _

theorem start_preparing_ballot (s1 : paxos_t) (now : Nat)
    (hw : s1.proposer.state.proposal_id < 2 ^ 64 - 1 ∧
      s1.proposer.state.highest_promised_proposal_id < 2 ^ 64 - 1) :
    (__start_preparing s1 now).1.proposer.state.proposal_id
      = 1 + max s1.proposer.state.proposal_id
          s1.proposer.state.highest_promised_proposal_id ∧
    (__start_preparing s1 now).1.proposer.state.highest_promised_proposal_id
      = s1.proposer.state.highest_promised_proposal_id := by
  refine ⟨?_, rfl⟩
  show u64_add 1 (__math_max s1.proposer.state.proposal_id
    s1.proposer.state.highest_promised_proposal_id) = _
  rw [math_max_eq]
  have hlt := max_lt hw.1 hw.2
  unfold u64_add U64
  exact Nat.mod_eq_of_lt (by omega)

/-- A step that does not learn, from a state below the wrap-around point, lowers
neither the ballot of the proposer nor the highest promise it has recorded. -/
theorem step_ballot_le (s : paxos_t) (now : Nat) (c : paxos_call)
    (hq : learned_events (paxos_step s now c).2 = [])
    (hw : s.proposer.state.proposal_id < 2 ^ 64 - 1 ∧
      s.proposer.state.highest_promised_proposal_id < 2 ^ 64 - 1) :
    s.proposer.state.proposal_id ≤ (paxos_step s now c).1.proposer.state.proposal_id ∧
    s.proposer.state.highest_promised_proposal_id
      ≤ (paxos_step s now c).1.proposer.state.highest_promised_proposal_id := by
  rcases step_proposer_cases s now c with hc | hc | hc | hc | hc
  · rw [hc.1]
    exact ⟨Nat.le_refl _, Nat.le_refl _⟩
  · exact absurd hq hc.2.2
  · obtain ⟨s1, e1, e2, _, _, _, hr⟩ := hc
    obtain ⟨b1, b2⟩ := start_preparing_ballot s1 now (by rw [e1, e2]; exact hw)
    rw [hr, b1, b2, e1, e2]
    have := le_max_left s.proposer.state.proposal_id
      s.proposer.state.highest_promised_proposal_id
    exact ⟨by omega, Nat.le_refl _⟩
  · obtain ⟨m, _, hp, hm, hr⟩ := hc
    have hk := prepare_adopt_keeps s.proposer.state m
    have hl := prepare_adopt_promised_le s.proposer.state m
    rw [hr, on_prepare_response_processed s m now hp hm]
    split_ifs
    · exact ⟨Nat.le_of_eq hk.2.2.1.symm, hl⟩
    · exact ⟨Nat.le_of_eq hk.2.2.1.symm, hl⟩
    · exact ⟨Nat.le_of_eq hk.2.2.1.symm, hl⟩
  · obtain ⟨m, _, hp, hm, hr⟩ := hc
    rw [hr, on_propose_response_processed s m now hp hm]
    split_ifs <;> exact ⟨Nat.le_refl _, Nat.le_refl _⟩

/-- Along a run that stays in its instance, never learns and never reaches the
wrap-around point, the ballot and the highest recorded promise of every state
are at most those of the last state. -/
theorem run_ballot_le (cs : List (Nat × paxos_call)) :
    ∀ s : paxos_t, stays_in_instance s cs = true →
      (∀ u ∈ paxos_states s cs, u.proposer.state.proposal_id < 2 ^ 64 - 1 ∧
        u.proposer.state.highest_promised_proposal_id < 2 ^ 64 - 1) →
      ∀ u ∈ paxos_states s cs,
        u.proposer.state.proposal_id ≤ (paxos_run s cs).proposer.state.proposal_id ∧
        u.proposer.state.highest_promised_proposal_id
          ≤ (paxos_run s cs).proposer.state.highest_promised_proposal_id := by
  induction cs with
  | nil =>
    intro s _ _ u hu
    have : u = s := by simpa [paxos_states] using hu
    subst this
    exact ⟨Nat.le_refl _, Nat.le_refl _⟩
  | cons c cs ih =>
    intro s hs hw u hu
    simp only [stays_in_instance, Bool.and_eq_true, decide_eq_true_eq] at hs
    obtain ⟨⟨_, hev⟩, hrest⟩ := hs
    have hw' : ∀ u ∈ paxos_states (paxos_step s c.1 c.2).1 cs,
        u.proposer.state.proposal_id < 2 ^ 64 - 1 ∧
        u.proposer.state.highest_promised_proposal_id < 2 ^ 64 - 1 :=
      fun u hu => hw u (List.mem_cons_of_mem _ hu)
    have hstep := step_ballot_le s c.1 c.2 hev (hw s (List.mem_cons_self _ _))
    have hfirst : (paxos_step s c.1 c.2).1 ∈ paxos_states (paxos_step s c.1 c.2).1 cs := by
      cases cs <;> simp [paxos_states]
    rcases List.mem_cons.mp hu with hu | hu
    · subst hu
      have := ih _ hrest hw' _ hfirst
      exact ⟨Nat.le_trans hstep.1 this.1, Nat.le_trans hstep.2 this.2⟩
    · exact ih _ hrest hw' u hu

theorem timeout_trigger_entry (s : paxos_t) (t : Option paxos_timer_id) (now : Nat) :
    (paxos_timeout_trigger s t now).2 = [] ∨
    proposer_enters s now (paxos_timeout_trigger s t now) := by
  rcases t with _ | t
  · exact Or.inl rfl
  · cases t
    · unfold paxos_timeout_trigger __on_prepare_timeout
      dsimp only
      split_ifs
      · exact Or.inr ⟨_, rfl, rfl, rfl, rfl, rfl, rfl⟩
      · exact Or.inl rfl
      · exact Or.inl rfl
    · unfold paxos_timeout_trigger __on_propose_timeout
      dsimp only
      split_ifs
      · exact Or.inr ⟨_, rfl, rfl, rfl, rfl, rfl, rfl⟩
      · exact Or.inl rfl
      · exact Or.inl rfl
    · unfold paxos_timeout_trigger __on_restart_timeout
      dsimp only
      split_ifs
      · exact Or.inr ⟨_, rfl, rfl, rfl, rfl, rfl, rfl⟩
      · exact Or.inl rfl
      · exact Or.inl rfl

theorem run_mem_states (cs : List (Nat × paxos_call)) :
    ∀ s : paxos_t, paxos_run s cs ∈ paxos_states s cs := by
  induction cs with
  | nil => intro s; simp [paxos_run, paxos_states]
  | cons c cs ih =>
    intro s
    exact List.mem_cons_of_mem _ (ih _)

/-- A PAXOS_CATCHUP_RESPONSE for instance 0, which no engine sends, would be
honoured by a proposer that has learned nothing: after two proposals (ballots 1
and 2) it resets the proposer while `learner.paxos_id` stays 0, and the next
proposal uses ballot 1 again.  The hypothesis on the catch-up traffic cannot be
dropped from the ballot property. -/
theorem catchup_zero_restarts_ballots :
    (paxos_states (paxos_fresh 1 3)
      [(0, paxos_call.propose 7), (0, paxos_call.propose 7),
       (0, paxos_call.process_message (paxos_message_catchup_response 0 3 9)),
       (0, paxos_call.propose 7)]).map
      (fun u => (u.learner.paxos_id, u.proposer.state.proposal_id))
      = [(0, 0), (0, 1), (0, 2), (0, 0), (0, 1)] ∧
    catchup_ids_positive
      [(0, paxos_call.propose 7), (0, paxos_call.propose 7),
       (0, paxos_call.process_message (paxos_message_catchup_response 0 3 9)),
       (0, paxos_call.propose 7)] = false := by
  decide

/-- Along a run that keeps `learner.paxos_id`, never calls `learned_value` and
stays below the wrap at 2^64, an entry into phase 1 by `paxos_propose` or by a
timer callback broadcasts a PREPARE_REQUEST whose ballot is strictly greater than
the `proposal_id` of every earlier state of the run and than every
`highest_promised_proposal_id` recorded from PREPARE_REJECTED responses. -/
theorem ballots_increase_when_quiet (s : paxos_t) (cs : List (Nat × paxos_call))
    (hs : stays_in_instance s cs = true)
    (hw : ∀ u ∈ paxos_states s cs, u.proposer.state.proposal_id < 2 ^ 64 - 1 ∧
      u.proposer.state.highest_promised_proposal_id < 2 ^ 64 - 1)
    (now : Nat) (c : paxos_call)
    (hcall : (∃ v, c = paxos_call.propose v) ∨ (∃ timer, c = paxos_call.timeout_trigger timer))
    (hb : (paxos_step (paxos_run s cs) now c).2 ≠ []) :
    (paxos_step (paxos_run s cs) now c).2 =
      [paxos_event.broadcast
        { type := PAXOS_PREPARE_REQUEST, paxos_id := (paxos_run s cs).learner.paxos_id,
          node_id := (paxos_run s cs).node_id,
          proposal_id := (paxos_step (paxos_run s cs) now c).1.proposer.state.proposal_id,
          accepted_proposal_id := 0, promised_proposal_id := 0, value := 0 }] ∧
    ∀ u ∈ paxos_states s cs,
      u.proposer.state.proposal_id
        < (paxos_step (paxos_run s cs) now c).1.proposer.state.proposal_id ∧
      u.proposer.state.highest_promised_proposal_id
        < (paxos_step (paxos_run s cs) now c).1.proposer.state.proposal_id := by
  have hent : proposer_enters (paxos_run s cs) now (paxos_step (paxos_run s cs) now c) := by
    rcases hcall with ⟨v, hv⟩ | ⟨timer, ht⟩
    · subst hv
      exact ⟨{ paxos_run s cs with
               proposer := { (paxos_run s cs).proposer with
                             state := { (paxos_run s cs).proposer.state with
                                        proposed_value := v } } },
        rfl, rfl, rfl, rfl, rfl, rfl⟩
    · subst ht
      rcases timeout_trigger_entry (paxos_run s cs) timer now with h | h
      · exact absurd h hb
      · exact h
  obtain ⟨s1, e1, e2, _, e4, e5, hr⟩ := hent
  have hlast := hw _ (run_mem_states cs s)
  obtain ⟨b1, _⟩ := start_preparing_ballot s1 now (by rw [e1, e2]; exact hlast)
  rw [hr]
  constructor
  · show [paxos_event.broadcast
        (paxos_message_prepare_request s1.learner.paxos_id s1.node_id
          (__start_preparing s1 now).1.proposer.state.proposal_id)] = _
    rw [e4, e5]
    rfl
  · intro u hu
    obtain ⟨m1, m2⟩ := run_ballot_le cs s hs hw u hu
    rw [b1, e1, e2]
    have k1 := le_max_left (paxos_run s cs).proposer.state.proposal_id
      (paxos_run s cs).proposer.state.highest_promised_proposal_id
    have k2 := le_max_right (paxos_run s cs).proposer.state.proposal_id
      (paxos_run s cs).proposer.state.highest_promised_proposal_id
    exact ⟨by omega, by omega⟩

/-- Every state of a run that keeps `learner.paxos_id` is at the instance of
the first one. -/
theorem states_keep_paxos_id (cs : List (Nat × paxos_call)) :
    ∀ s : paxos_t, keeps_paxos_id s cs = true →
      ∀ u ∈ paxos_states s cs, u.learner.paxos_id = s.learner.paxos_id := by
  induction cs with
  | nil =>
    intro s _ u hu
    have : u = s := by simpa [paxos_states] using hu
    rw [this]
  | cons c cs ih =>
    intro s hk u hu
    simp only [keeps_paxos_id, Bool.and_eq_true, decide_eq_true_eq] at hk
    rcases List.mem_cons.mp hu with hu | hu
    · rw [hu]
    · rw [ih _ hk.2 u hu, hk.1]

/-- C13. Ballot numbers strictly increase within an instance: along a run from a
state reachable from `paxos_open` that keeps `learner.paxos_id` and stays below the
wrap at 2^64, an entry into phase 1 by `paxos_propose` or by a timer callback
broadcasts a PREPARE_REQUEST whose ballot is strictly greater than the
`proposal_id` of every earlier state of the run (the ballots of the previous
attempts in the instance) and than every `highest_promised_proposal_id`
recorded from PREPARE_REJECTED responses.  The inbound messages are those engines
send: a PAXOS_CATCHUP_RESPONSE names an instance of at least 1. -/
theorem ballots_increase (s : paxos_t) (hr : Reachable s) (cs : List (Nat × paxos_call))
    (hk : keeps_paxos_id s cs = true)
    (hpos : catchup_ids_positive cs = true)
    (hw : ∀ u ∈ paxos_states s cs, u.proposer.state.proposal_id < 2 ^ 64 - 1 ∧
      u.proposer.state.highest_promised_proposal_id < 2 ^ 64 - 1)
    (now : Nat) (c : paxos_call)
    (hcall : (∃ v, c = paxos_call.propose v) ∨ (∃ timer, c = paxos_call.timeout_trigger timer))
    (hb : (paxos_step (paxos_run s cs) now c).2 ≠ []) :
    (paxos_step (paxos_run s cs) now c).2 =
      [paxos_event.broadcast
        { type := PAXOS_PREPARE_REQUEST, paxos_id := s.learner.paxos_id,
          node_id := (paxos_run s cs).node_id,
          proposal_id := (paxos_step (paxos_run s cs) now c).1.proposer.state.proposal_id,
          accepted_proposal_id := 0, promised_proposal_id := 0, value := 0 }] ∧
    ∀ u ∈ paxos_states s cs,
      u.learner.paxos_id = s.learner.paxos_id ∧
      u.proposer.state.proposal_id
        < (paxos_step (paxos_run s cs) now c).1.proposer.state.proposal_id ∧
      u.proposer.state.highest_promised_proposal_id
        < (paxos_step (paxos_run s cs) now c).1.proposer.state.proposal_id := by
  have hs := stays_of_keeps cs s (reachable_unlearned_zero s hr) hpos hk
  obtain ⟨h1, h2⟩ := ballots_increase_when_quiet s cs hs hw now c hcall hb
  refine ⟨?_, fun u hu => ⟨states_keep_paxos_id cs s hk u hu, h2 u hu⟩⟩
  rw [h1, states_keep_paxos_id cs s hk _ (run_mem_states cs s)]

/-- Witness of C13: a node at instance 4 proposes at ballot 1, drops a
PAXOS_CATCHUP_RESPONSE for instance 3, receives a PREPARE_REJECTED reporting
promise 6, and proposes again, with ballot 7. -/
theorem ballots_increase_witness :
    keeps_paxos_id
      (paxos_process_message (paxos_fresh 1 3) (paxos_message_catchup_response 4 2 9) 0).1
      [(0, paxos_call.propose 7),
       (0, paxos_call.process_message (paxos_message_catchup_response 3 3 8)),
       (0, paxos_call.process_message (paxos_message_prepare_rejected 4 2 1 6))] = true ∧
    (paxos_step
      (paxos_run
        (paxos_process_message (paxos_fresh 1 3) (paxos_message_catchup_response 4 2 9) 0).1
        [(0, paxos_call.propose 7),
         (0, paxos_call.process_message (paxos_message_catchup_response 3 3 8)),
         (0, paxos_call.process_message (paxos_message_prepare_rejected 4 2 1 6))])
      0 (paxos_call.propose 7)).2 =
      [paxos_event.broadcast (paxos_message_prepare_request 4 1 7)] ∧
    ∀ u ∈ paxos_states
        (paxos_process_message (paxos_fresh 1 3) (paxos_message_catchup_response 4 2 9) 0).1
        [(0, paxos_call.propose 7),
         (0, paxos_call.process_message (paxos_message_catchup_response 3 3 8)),
         (0, paxos_call.process_message (paxos_message_prepare_rejected 4 2 1 6))],
      u.learner.paxos_id = 4 ∧
      u.proposer.state.proposal_id < 7 ∧
      u.proposer.state.highest_promised_proposal_id < 7 :=
  ⟨by decide, by decide,
   (ballots_increase
      (paxos_process_message (paxos_fresh 1 3) (paxos_message_catchup_response 4 2 9) 0).1
      (Reachable.step (paxos_fresh 1 3) 0
        (paxos_call.process_message (paxos_message_catchup_response 4 2 9))
        (Reachable.opened paxos_zero 1 3))
      [(0, paxos_call.propose 7),
       (0, paxos_call.process_message (paxos_message_catchup_response 3 3 8)),
       (0, paxos_call.process_message (paxos_message_prepare_rejected 4 2 1 6))]
      (by decide) (by decide) (by decide) 0 (paxos_call.propose 7) (Or.inl ⟨7, rfl⟩)
      (by decide)).2⟩

/-! ## Value adoption in phase 1 -/

theorem process_prepare_response_eq (s : paxos_t) (m : paxos_message_t) (now : Nat)
    (hm : is_prepare_response m) :
    paxos_process_message s m now = __on_prepare_response s m now := by
  have h1 : ¬ m.type = PAXOS_PREPARE_REQUEST := by
    intro h
    rcases hm with hm | hm | hm <;> rw [h] at hm <;> exact absurd hm (by decide)
  unfold is_prepare_response at hm
  unfold paxos_process_message
  rw [if_neg h1, if_pos hm]

theorem prepare_adopt_value (st : paxos_proposer_state_t) (m : paxos_message_t) :
    (m.type = PAXOS_PREPARE_PREVIOUSLY_ACCEPTED ∧
        st.highest_received_proposal_id ≤ m.accepted_proposal_id →
      (prepare_adopt st m).highest_received_proposal_id = m.accepted_proposal_id ∧
      (prepare_adopt st m).proposed_value = m.value) ∧
    (¬ (m.type = PAXOS_PREPARE_PREVIOUSLY_ACCEPTED ∧
        st.highest_received_proposal_id ≤ m.accepted_proposal_id) →
      (prepare_adopt st m).highest_received_proposal_id = st.highest_received_proposal_id ∧
      (prepare_adopt st m).proposed_value = st.proposed_value) := by
  unfold prepare_adopt
  constructor
  · intro h
    rw [if_pos h]
    exact ⟨rfl, rfl⟩
  · intro h
    rw [if_neg h]
    split_ifs <;> exact ⟨rfl, rfl⟩

/-- What the repeated adoption block computes: nothing when every
PREPARE_PREVIOUSLY_ACCEPTED of the list is below the starting mark, otherwise the
value of the one with the greatest `accepted_proposal_id`, the latest on ties. -/
theorem adopt_all_spec (ms : List paxos_message_t) :
    ∀ st : paxos_proposer_state_t,
      ((adopt_all st ms).highest_received_proposal_id = st.highest_received_proposal_id ∧
        (adopt_all st ms).proposed_value = st.proposed_value ∧
        ∀ x ∈ ms, x.type = PAXOS_PREPARE_PREVIOUSLY_ACCEPTED →
          x.accepted_proposal_id < st.highest_received_proposal_id) ∨
      (∃ l1 m l2, ms = l1 ++ m :: l2 ∧ m.type = PAXOS_PREPARE_PREVIOUSLY_ACCEPTED ∧
        (adopt_all st ms).proposed_value = m.value ∧
        (adopt_all st ms).highest_received_proposal_id = m.accepted_proposal_id ∧
        st.highest_received_proposal_id ≤ m.accepted_proposal_id ∧
        (∀ x ∈ l1, x.type = PAXOS_PREPARE_PREVIOUSLY_ACCEPTED →
          x.accepted_proposal_id ≤ m.accepted_proposal_id) ∧
        (∀ x ∈ l2, x.type = PAXOS_PREPARE_PREVIOUSLY_ACCEPTED →
          x.accepted_proposal_id < m.accepted_proposal_id)) := by
  induction ms with
  | nil =>
    intro st
    exact Or.inl ⟨rfl, rfl, fun x hx => absurd hx (List.not_mem_nil x)⟩
  | cons a ms ih =>
    intro st
    have hcons : adopt_all st (a :: ms) = adopt_all (prepare_adopt st a) ms := rfl
    rw [hcons]
    obtain ⟨hyes, hno⟩ := prepare_adopt_value st a
    by_cases hc : a.type = PAXOS_PREPARE_PREVIOUSLY_ACCEPTED ∧
        st.highest_received_proposal_id ≤ a.accepted_proposal_id
    · obtain ⟨e1, e2⟩ := hyes hc
      rcases ih (prepare_adopt st a) with ⟨i1, i2, i3⟩ | ⟨l1, m, l2, j1, j2, j3, j4, j5, j6, j7⟩
      · refine Or.inr ⟨[], a, ms, rfl, hc.1, ?_, ?_, hc.2,
          fun x hx => absurd hx (List.not_mem_nil x), ?_⟩
        · rw [i2, e2]
        · rw [i1, e1]
        · intro x hx hp
          have := i3 x hx hp
          rw [e1] at this
          exact this
      · rw [e1] at j5
        refine Or.inr ⟨a :: l1, m, l2, by rw [j1]; rfl, j2, j3, j4,
          Nat.le_trans hc.2 j5, ?_, j7⟩
        intro x hx hp
        rcases List.mem_cons.mp hx with hx | hx
        · rw [hx]
          exact j5
        · exact j6 x hx hp
    · obtain ⟨e1, e2⟩ := hno hc
      have ha : a.type = PAXOS_PREPARE_PREVIOUSLY_ACCEPTED →
          a.accepted_proposal_id < st.highest_received_proposal_id := by
        intro hp
        by_contra hlt
        exact hc ⟨hp, by omega⟩
      rcases ih (prepare_adopt st a) with ⟨i1, i2, i3⟩ | ⟨l1, m, l2, j1, j2, j3, j4, j5, j6, j7⟩
      · refine Or.inl ⟨by rw [i1, e1], by rw [i2, e2], ?_⟩
        intro x hx hp
        rcases List.mem_cons.mp hx with hx | hx
        · subst hx
          exact ha hp
        · have := i3 x hx hp
          rw [e1] at this
          exact this
      · rw [e1] at j5
        refine Or.inr ⟨a :: l1, m, l2, by rw [j1]; rfl, j2, j3, j4, j5, ?_, j7⟩
        intro x hx hp
        rcases List.mem_cons.mp hx with hx | hx
        · subst hx
          exact Nat.le_trans (Nat.le_of_lt (ha hp)) j5
        · exact j6 x hx hp

theorem adopt_all_append (ms : List paxos_message_t) (m : paxos_message_t) :
    ∀ st : paxos_proposer_state_t,
      adopt_all st (ms ++ [m]) = prepare_adopt (adopt_all st ms) m := by
  induction ms with
  | nil => intro st; rfl
  | cons a ms ih => intro st; exact ih (prepare_adopt st a)

/-- A counted prepare response after which the proposer is still preparing has
only run the vote and the adoption block. -/
theorem prepare_step_still_preparing (s : paxos_t) (m : paxos_message_t) (now : Nat)
    (hp : s.proposer.state.preparing = true)
    (hm : m.proposal_id = s.proposer.state.proposal_id)
    (hstill : (__on_prepare_response s m now).1.proposer.state.preparing = true) :
    (__on_prepare_response s m now).1.proposer.state = prepare_adopt s.proposer.state m := by
  rw [on_prepare_response_processed s m now hp hm] at hstill ⊢
  split_ifs at hstill ⊢
  · exact Bool.noConfusion hstill
  · exact Bool.noConfusion hstill
  · rfl

/-- The broadcast of a counted prepare response is the PROPOSE_REQUEST with the
value left by the adoption block. -/
theorem prepare_step_broadcast (s : paxos_t) (m : paxos_message_t) (now : Nat)
    (hp : s.proposer.state.preparing = true)
    (hm : m.proposal_id = s.proposer.state.proposal_id) :
    (__on_prepare_response s m now).2 = [] ∨
    (__on_prepare_response s m now).2 =
      [paxos_event.broadcast
        (paxos_message_propose_request s.learner.paxos_id s.node_id
          s.proposer.state.proposal_id (prepare_adopt s.proposer.state m).proposed_value)] := by
  have hk := prepare_adopt_keeps s.proposer.state m
  rw [on_prepare_response_processed s m now hp hm]
  split_ifs
  · refine Or.inr ?_
    show [paxos_event.broadcast
        (paxos_message_propose_request s.learner.paxos_id s.node_id
          (prepare_adopt s.proposer.state m).proposal_id
          (prepare_adopt s.proposer.state m).proposed_value)] = _
    rw [hk.2.2.1]
  · exact Or.inl rfl
  · exact Or.inl rfl

theorem deliver_not_preparing (xs : List (Nat × paxos_message_t)) :
    ∀ s : paxos_t, s.proposer.state.preparing = false →
      (∀ x ∈ xs, is_prepare_response x.2) → deliver_all s xs = s := by
  induction xs with
  | nil => intro s _ _; rfl
  | cons x xs ih =>
    intro s hp hx
    have h1 : paxos_process_message s x.2 x.1 = (s, []) := by
      rw [process_prepare_response_eq s x.2 x.1 (hx x (List.mem_cons_self _ _)),
        on_prepare_response_ignored s x.2 x.1 (Or.inl hp)]
    show deliver_all (paxos_process_message s x.2 x.1).1 xs = s
    rw [h1]
    exact ih s hp (fun y hy => hx y (List.mem_cons_of_mem _ hy))

/-- While the proposer is still preparing after a sequence of matching prepare
responses, its state is the initial one run through the adoption block once per
response. -/
theorem deliver_adopts (xs : List (Nat × paxos_message_t)) :
    ∀ s : paxos_t, s.proposer.state.preparing = true →
      (∀ x ∈ xs, is_prepare_response x.2 ∧ x.2.proposal_id = s.proposer.state.proposal_id) →
      (deliver_all s xs).proposer.state.preparing = true →
      (deliver_all s xs).proposer.state = adopt_all s.proposer.state (xs.map Prod.snd) ∧
      (deliver_all s xs).learner = s.learner ∧ (deliver_all s xs).node_id = s.node_id := by
  induction xs with
  | nil => intro s _ _ _; exact ⟨rfl, rfl, rfl⟩
  | cons x xs ih =>
    intro s hp hx hfin
    obtain ⟨hty, hid⟩ := hx x (List.mem_cons_self _ _)
    have heq := process_prepare_response_eq s x.2 x.1 hty
    have hfin' : (deliver_all (paxos_process_message s x.2 x.1).1 xs).proposer.state.preparing
        = true := hfin
    have hstill : (paxos_process_message s x.2 x.1).1.proposer.state.preparing = true := by
      cases hb : (paxos_process_message s x.2 x.1).1.proposer.state.preparing
      · rw [deliver_not_preparing xs _ hb
          (fun y hy => (hx y (List.mem_cons_of_mem _ hy)).1), hb] at hfin'
        exact Bool.noConfusion hfin'
      · rfl
    have hst : (paxos_process_message s x.2 x.1).1.proposer.state
        = prepare_adopt s.proposer.state x.2 := by
      rw [heq] at hstill ⊢
      exact prepare_step_still_preparing s x.2 x.1 hp hid hstill
    have hfr := on_prepare_response_frame s x.2 x.1
    rw [← heq] at hfr
    have hk := prepare_adopt_keeps s.proposer.state x.2
    obtain ⟨i1, i2, i3⟩ := ih (paxos_process_message s x.2 x.1).1 hstill
      (fun y hy => by
        obtain ⟨a, b⟩ := hx y (List.mem_cons_of_mem _ hy)
        exact ⟨a, by rw [hst, hk.2.2.1]; exact b⟩)
      hfin'
    refine ⟨?_, ?_, ?_⟩
    · show (deliver_all (paxos_process_message s x.2 x.1).1 xs).proposer.state
        = adopt_all (prepare_adopt s.proposer.state x.2) (xs.map Prod.snd)
      rw [i1, hst]
    · show (deliver_all (paxos_process_message s x.2 x.1).1 xs).learner = s.learner
      rw [i2, hfr.1]
    · show (deliver_all (paxos_process_message s x.2 x.1).1 xs).node_id = s.node_id
      rw [i3, hfr.2.2.1]

/-- C14. Value adoption: in a phase-1 ballot (proposer preparing, nothing received
yet), after prepare responses with the ballot of the proposer the last of which
reaches the accepted quorum, the message then broadcast is a PROPOSE_REQUEST that
carries the value of the PREPARE_PREVIOUSLY_ACCEPTED response with the greatest
`accepted_proposal_id` among the responses (the latest one on ties), or the
`proposed_value` held when the ballot began if there was no such response. -/
theorem value_adoption (s : paxos_t) (pre : List (Nat × paxos_message_t))
    (last : Nat × paxos_message_t) (req : paxos_message_t)
    (hp : s.proposer.state.preparing = true)
    (hz : s.proposer.state.highest_received_proposal_id = 0)
    (hx : ∀ x ∈ pre ++ [last],
      is_prepare_response x.2 ∧ x.2.proposal_id = s.proposer.state.proposal_id)
    (hq : (paxos_process_message (deliver_all s pre) last.2 last.1).2
      = [paxos_event.broadcast req]) :
    req.type = PAXOS_PROPOSE_REQUEST ∧
    req.paxos_id = s.learner.paxos_id ∧ req.node_id = s.node_id ∧
    req.proposal_id = s.proposer.state.proposal_id ∧
    ((∀ x ∈ pre ++ [last], x.2.type ≠ PAXOS_PREPARE_PREVIOUSLY_ACCEPTED) →
      req.value = s.proposer.state.proposed_value) ∧
    ((∃ x ∈ pre ++ [last], x.2.type = PAXOS_PREPARE_PREVIOUSLY_ACCEPTED) →
      ∃ l1 m l2, (pre ++ [last]).map Prod.snd = l1 ++ m :: l2 ∧
        m.type = PAXOS_PREPARE_PREVIOUSLY_ACCEPTED ∧ req.value = m.value ∧
        (∀ y ∈ l1, y.type = PAXOS_PREPARE_PREVIOUSLY_ACCEPTED →
          y.accepted_proposal_id ≤ m.accepted_proposal_id) ∧
        (∀ y ∈ l2, y.type = PAXOS_PREPARE_PREVIOUSLY_ACCEPTED →
          y.accepted_proposal_id < m.accepted_proposal_id)) := by
  have hpre : ∀ x ∈ pre,
      is_prepare_response x.2 ∧ x.2.proposal_id = s.proposer.state.proposal_id :=
    fun x h => hx x (List.mem_append_left _ h)
  obtain ⟨hlt, hlid⟩ := hx last (List.mem_append_right _ (List.mem_singleton_self _))
  have heq := process_prepare_response_eq (deliver_all s pre) last.2 last.1 hlt
  rw [heq] at hq
  have hprep : (deliver_all s pre).proposer.state.preparing = true := by
    cases hb : (deliver_all s pre).proposer.state.preparing
    · rw [on_prepare_response_ignored _ last.2 last.1 (Or.inl hb)] at hq
      exact absurd hq (by simp)
    · rfl
  obtain ⟨d1, d2, d3⟩ := deliver_adopts pre s hp hpre hprep
  have hpid : (deliver_all s pre).proposer.state.proposal_id = s.proposer.state.proposal_id := by
    have : ∀ (ms : List paxos_message_t) (st : paxos_proposer_state_t),
        (adopt_all st ms).proposal_id = st.proposal_id := by
      intro ms
      induction ms with
      | nil => intro st; rfl
      | cons a ms ih =>
        intro st
        exact (ih (prepare_adopt st a)).trans (prepare_adopt_keeps st a).2.2.1
    rw [d1]
    exact this _ _
  have hreq : req = paxos_message_propose_request s.learner.paxos_id s.node_id
      s.proposer.state.proposal_id
      (adopt_all s.proposer.state ((pre ++ [last]).map Prod.snd)).proposed_value := by
    rcases prepare_step_broadcast (deliver_all s pre) last.2 last.1 hprep
      (by rw [hpid]; exact hlid) with h | h
    · rw [h] at hq
      exact absurd hq (by simp)
    · rw [h] at hq
      have := (List.cons.inj hq).1
      injection this with this
      rw [← this, d2, d3, hpid, List.map_append, List.map_singleton, adopt_all_append, d1]
  have hval : req.value
      = (adopt_all s.proposer.state ((pre ++ [last]).map Prod.snd)).proposed_value := by
    rw [hreq]
    rfl
  refine ⟨by rw [hreq]; rfl, by rw [hreq]; rfl, by rw [hreq]; rfl, by rw [hreq]; rfl, ?_, ?_⟩
  · intro hnone
    rcases adopt_all_spec ((pre ++ [last]).map Prod.snd) s.proposer.state with
      ⟨_, i2, _⟩ | ⟨l1, m, l2, j1, j2, _⟩
    · rw [hval, i2]
    · exfalso
      have hmem : m ∈ (pre ++ [last]).map Prod.snd := by
        rw [j1]
        exact List.mem_append_right _ (List.mem_cons_self _ _)
      obtain ⟨x, hxm, hxe⟩ := List.mem_map.mp hmem
      exact hnone x hxm (by rw [hxe]; exact j2)
  · rintro ⟨x, hxm, hxt⟩
    rcases adopt_all_spec ((pre ++ [last]).map Prod.snd) s.proposer.state with
      ⟨_, _, i3⟩ | ⟨l1, m, l2, j1, j2, j3, _, _, j6, j7⟩
    · exfalso
      have := i3 x.2 (List.mem_map.mpr ⟨x, hxm, rfl⟩) hxt
      rw [hz] at this
      exact Nat.not_lt_zero _ this
    · exact ⟨l1, m, l2, j1, j2, by rw [hval, j3], j6, j7⟩

/-- Witness of C14: three nodes, proposed value 7, PREPARE_CURRENTLY_OPEN from node 2
and PREPARE_PREVIOUSLY_ACCEPTED (accepted ballot 2, value 99) from node 3: the
proposer proposes 99. -/
theorem value_adoption_witness :
    (paxos_process_message
      (deliver_all (paxos_propose (paxos_fresh 1 3) 7 0).1
        [(0, paxos_message_prepare_currently_open 0 2 1)])
      (paxos_message_prepare_previously_accepted 0 3 1 2 99) 0).2
      = [paxos_event.broadcast (paxos_message_propose_request 0 1 1 99)] ∧
    ∃ l1 m l2,
      ([(0, paxos_message_prepare_currently_open 0 2 1)] ++
        [(0, paxos_message_prepare_previously_accepted 0 3 1 2 99)]).map Prod.snd
        = l1 ++ m :: l2 ∧
      m.type = PAXOS_PREPARE_PREVIOUSLY_ACCEPTED ∧
      (paxos_message_propose_request 0 1 1 99).value = m.value ∧
      (∀ y ∈ l1, y.type = PAXOS_PREPARE_PREVIOUSLY_ACCEPTED →
        y.accepted_proposal_id ≤ m.accepted_proposal_id) ∧
      (∀ y ∈ l2, y.type = PAXOS_PREPARE_PREVIOUSLY_ACCEPTED →
        y.accepted_proposal_id < m.accepted_proposal_id) :=
  ⟨by decide,
   (value_adoption (paxos_propose (paxos_fresh 1 3) 7 0).1
      [(0, paxos_message_prepare_currently_open 0 2 1)]
      (0, paxos_message_prepare_previously_accepted 0 3 1 2 99)
      (paxos_message_propose_request 0 1 1 99)
      (by decide) (by decide) (by decide) (by decide)).2.2.2.2.2
      ⟨(0, paxos_message_prepare_previously_accepted 0 3 1 2 99), by decide, by decide⟩⟩

/-! ## Dispatch of the remaining message types -/

theorem process_propose_response_eq (s : paxos_t) (m : paxos_message_t) (now : Nat)
    (hm : m.type = PAXOS_PROPOSE_REJECTED ∨ m.type = PAXOS_PROPOSE_ACCEPTED) :
    paxos_process_message s m now = __on_propose_response s m now := by
  rcases hm with hm | hm <;>
    simp [paxos_process_message, hm, PAXOS_PROPOSE_REQUEST, PAXOS_PREPARE_REQUEST,
      PAXOS_PREPARE_REJECTED, PAXOS_PREPARE_PREVIOUSLY_ACCEPTED, PAXOS_PREPARE_CURRENTLY_OPEN,
      PAXOS_PROPOSE_REJECTED, PAXOS_PROPOSE_ACCEPTED]

theorem process_learn_eq (s : paxos_t) (m : paxos_message_t) (now : Nat)
    (hm : m.type = PAXOS_LEARN_PROPOSAL ∨ m.type = PAXOS_LEARN_VALUE) :
    paxos_process_message s m now = __on_learn_chosen s m now := by
  rcases hm with hm | hm <;>
    simp [paxos_process_message, hm, PAXOS_PROPOSE_REQUEST, PAXOS_PREPARE_REQUEST,
      PAXOS_PREPARE_REJECTED, PAXOS_PREPARE_PREVIOUSLY_ACCEPTED, PAXOS_PREPARE_CURRENTLY_OPEN,
      PAXOS_PROPOSE_REJECTED, PAXOS_PROPOSE_ACCEPTED, PAXOS_LEARN_PROPOSAL, PAXOS_LEARN_VALUE]

theorem process_bootstrap_eq (s : paxos_t) (m : paxos_message_t) (now : Nat)
    (hm : m.type = PAXOS_BOOTSTRAP) :
    paxos_process_message s m now = __on_bootstrap s m := by
  simp [paxos_process_message, hm, PAXOS_PROPOSE_REQUEST, PAXOS_PREPARE_REQUEST,
    PAXOS_PREPARE_REJECTED, PAXOS_PREPARE_PREVIOUSLY_ACCEPTED, PAXOS_PREPARE_CURRENTLY_OPEN,
    PAXOS_PROPOSE_REJECTED, PAXOS_PROPOSE_ACCEPTED, PAXOS_LEARN_PROPOSAL, PAXOS_LEARN_VALUE,
    PAXOS_REQUEST_CHOSEN, PAXOS_BOOTSTRAP]

theorem process_catchup_request_eq (s : paxos_t) (m : paxos_message_t) (now : Nat)
    (hm : m.type = PAXOS_CATCHUP_REQUEST) :
    paxos_process_message s m now = __on_catchup_request s m := by
  simp [paxos_process_message, hm, PAXOS_PROPOSE_REQUEST, PAXOS_PREPARE_REQUEST,
    PAXOS_PREPARE_REJECTED, PAXOS_PREPARE_PREVIOUSLY_ACCEPTED, PAXOS_PREPARE_CURRENTLY_OPEN,
    PAXOS_PROPOSE_REJECTED, PAXOS_PROPOSE_ACCEPTED, PAXOS_LEARN_PROPOSAL, PAXOS_LEARN_VALUE,
    PAXOS_REQUEST_CHOSEN, PAXOS_BOOTSTRAP, PAXOS_CATCHUP_START, PAXOS_CATCHUP_REQUEST]

theorem process_catchup_response_eq (s : paxos_t) (m : paxos_message_t) (now : Nat)
    (hm : m.type = PAXOS_CATCHUP_RESPONSE) :
    paxos_process_message s m now = __on_catchup_response s m := by
  simp [paxos_process_message, hm, PAXOS_PROPOSE_REQUEST, PAXOS_PREPARE_REQUEST,
    PAXOS_PREPARE_REJECTED, PAXOS_PREPARE_PREVIOUSLY_ACCEPTED, PAXOS_PREPARE_CURRENTLY_OPEN,
    PAXOS_PROPOSE_REJECTED, PAXOS_PROPOSE_ACCEPTED, PAXOS_LEARN_PROPOSAL, PAXOS_LEARN_VALUE,
    PAXOS_REQUEST_CHOSEN, PAXOS_BOOTSTRAP, PAXOS_CATCHUP_START, PAXOS_CATCHUP_REQUEST,
    PAXOS_CATCHUP_RESPONSE]

/-! ## Catch-up response -/

/-- C22. Handling of PAXOS_CATCHUP_RESPONSE: when a value has been learned and
`learner.paxos_id >= m.paxos_id` the engine is unchanged and no callback is
called; otherwise the learner jumps to `m.paxos_id`, records `m.value`, the one
callback called is `learned_value`, and the proposer state and the acceptor state
are reset to zero while every other member keeps its content.  No message is
emitted in either case. -/
theorem catchup_response_handling (s : paxos_t) (m : paxos_message_t) (now : Nat)
    (hm : m.type = PAXOS_CATCHUP_RESPONSE) :
    (s.learner.has_learned_value = true ∧ s.learner.paxos_id ≥ m.paxos_id →
      paxos_process_message s m now = (s, [])) ∧
    (¬ (s.learner.has_learned_value = true ∧ s.learner.paxos_id ≥ m.paxos_id) →
      (paxos_process_message s m now).2 = [paxos_event.learned_value m.paxos_id m.value] ∧
      (paxos_process_message s m now).1 =
        { s with
          learner := { s.learner with paxos_id := m.paxos_id, learned_value := m.value,
                                      has_learned_value := true }
          proposer := { s.proposer with state := proposer_state_zero }
          acceptor := { s.acceptor with state := acceptor_state_zero } }) := by
  rw [process_catchup_response_eq s m now hm]
  unfold __on_catchup_response
  constructor
  · intro h
    rw [if_pos (by simp [h.1, h.2])]
  · intro h
    rw [if_neg (by simpa using h)]
    exact ⟨rfl, rfl⟩

/-- Witness of C22: a node that learned nothing honours a catch-up response
carrying value 5 for instance 4. -/
theorem catchup_response_handling_witness :
    (paxos_process_message (paxos_fresh 3 3) (paxos_message_catchup_response 4 1 5) 0).2
      = [paxos_event.learned_value 4 5] ∧
    (paxos_process_message (paxos_fresh 3 3) (paxos_message_catchup_response 4 1 5) 0).1
      = { paxos_fresh 3 3 with
          learner := { (paxos_fresh 3 3).learner with paxos_id := 4, learned_value := 5,
                                                      has_learned_value := true }
          proposer := { (paxos_fresh 3 3).proposer with state := proposer_state_zero }
          acceptor := { (paxos_fresh 3 3).acceptor with state := acceptor_state_zero } } :=
  (catchup_response_handling (paxos_fresh 3 3) (paxos_message_catchup_response 4 1 5) 0 rfl).2
    (by decide)

/-! ## Stale responses -/

/-- C27. Stale responses are ignored: a prepare response that arrives while
`preparing` is false or whose `proposal_id` is not the current ballot, and a
propose response that arrives while `proposing` is false or whose `proposal_id`
is not the current ballot, leaves the whole engine unchanged and makes no
callback call. -/
theorem stale_responses_ignored (s : paxos_t) (m : paxos_message_t) (now : Nat) :
    ((m.type = PAXOS_PREPARE_REJECTED ∨ m.type = PAXOS_PREPARE_PREVIOUSLY_ACCEPTED ∨
        m.type = PAXOS_PREPARE_CURRENTLY_OPEN) →
      (s.proposer.state.preparing = false ∨ m.proposal_id ≠ s.proposer.state.proposal_id) →
      paxos_process_message s m now = (s, [])) ∧
    ((m.type = PAXOS_PROPOSE_REJECTED ∨ m.type = PAXOS_PROPOSE_ACCEPTED) →
      (s.proposer.state.proposing = false ∨ m.proposal_id ≠ s.proposer.state.proposal_id) →
      paxos_process_message s m now = (s, [])) := by
  constructor
  · intro hm h
    rw [process_prepare_response_eq s m now hm]
    exact on_prepare_response_ignored s m now h
  · intro hm h
    rw [process_propose_response_eq s m now hm]
    exact on_propose_response_ignored s m now h

/-- Witness of C27: a proposer in phase 1 at ballot 1 drops a prepare response
for ballot 7 and, not being in phase 2, a PROPOSE_ACCEPTED for ballot 1. -/
theorem stale_responses_ignored_witness :
    paxos_process_message (paxos_propose (paxos_fresh 1 3) 7 0).1
        (paxos_message_prepare_currently_open 0 2 7) 0
      = ((paxos_propose (paxos_fresh 1 3) 7 0).1, []) ∧
    paxos_process_message (paxos_propose (paxos_fresh 1 3) 7 0).1
        (paxos_message_propose_accepted 0 2 1) 0
      = ((paxos_propose (paxos_fresh 1 3) 7 0).1, []) :=
  ⟨(stale_responses_ignored (paxos_propose (paxos_fresh 1 3) 7 0).1
      (paxos_message_prepare_currently_open 0 2 7) 0).1
      (Or.inr (Or.inr rfl)) (Or.inr (by decide)),
   (stale_responses_ignored (paxos_propose (paxos_fresh 1 3) 7 0).1
      (paxos_message_propose_accepted 0 2 1) 0).2
      (Or.inr rfl) (Or.inl (by decide))⟩

/-! ## Bootstrap -/

/-- C30. Bootstrap reply: a PAXOS_BOOTSTRAP message leaves the engine unchanged;
when a value has been learned the one callback call is the send to `m.node_id` of
PAXOS_CATCHUP_RESPONSE carrying `learner.paxos_id`, the own node id and
`learner.learned_value`, and when none has been learned there is no callback
call.  `paxos_bootstrap` leaves the engine unchanged and its one callback call is
the broadcast of PAXOS_BOOTSTRAP with the own node id. -/
theorem bootstrap_reply (s : paxos_t) (m : paxos_message_t) (now : Nat)
    (hm : m.type = PAXOS_BOOTSTRAP) :
    (paxos_process_message s m now).1 = s ∧
    (s.learner.has_learned_value = true →
      (paxos_process_message s m now).2 =
        [paxos_event.send m.node_id
          (paxos_message_catchup_response s.learner.paxos_id s.node_id
            s.learner.learned_value)]) ∧
    (s.learner.has_learned_value = false → (paxos_process_message s m now).2 = []) ∧
    paxos_bootstrap s = (s, [paxos_event.broadcast (paxos_message_bootstrap s.node_id)]) ∧
    (paxos_message_bootstrap s.node_id).type = PAXOS_BOOTSTRAP ∧
    (paxos_message_bootstrap s.node_id).node_id = s.node_id := by
  rw [process_bootstrap_eq s m now hm]
  unfold __on_bootstrap paxos_get_accepted_value
  refine ⟨?_, ?_, ?_, rfl, rfl, rfl⟩
  · split_ifs <;> simp
  · intro h
    simp [h]
  · intro h
    simp [h]

/-- Witness of C30: a node that learned value 5 by catch-up for instance 4
answers the bootstrap of node 3. -/
theorem bootstrap_reply_witness :
    (paxos_process_message
        (paxos_process_message (paxos_fresh 1 3) (paxos_message_catchup_response 4 2 5) 0).1
        (paxos_message_bootstrap 3) 0).2
      = [paxos_event.send 3 (paxos_message_catchup_response 4 1 5)] :=
  (bootstrap_reply
    (paxos_process_message (paxos_fresh 1 3) (paxos_message_catchup_response 4 2 5) 0).1
    (paxos_message_bootstrap 3) 0 rfl).2.1 (by decide)

/-! ## Learn messages -/

/-- C26. Learn-chosen gating: for a PAXOS_LEARN_VALUE or PAXOS_LEARN_PROPOSAL
message, `learned_value` is called if and only if no commit is in flight, the
message is for the current instance, and it is a LEARN_VALUE or the acceptor has
accepted the ballot the message names.  When it is called it is the only callback
call, and the value recorded is `m.value` for LEARN_VALUE and the accepted value
of the acceptor for LEARN_PROPOSAL.  When it is not called the learned value, the
learned flag and the instance number are kept, and the callback calls are exactly
one send of REQUEST_CHOSEN (current instance, own node id) to `m.node_id` when no
commit is in flight and `m.paxos_id >= learner.paxos_id`, and none otherwise. -/
theorem learn_chosen_gating (s : paxos_t) (m : paxos_message_t) (now : Nat)
    (hm : m.type = PAXOS_LEARN_VALUE ∨ m.type = PAXOS_LEARN_PROPOSAL) :
    (learned_events (paxos_process_message s m now).2 ≠ [] ↔
      (s.acceptor.is_committing = false ∧ m.paxos_id = s.learner.paxos_id ∧
        (m.type = PAXOS_LEARN_VALUE ∨
          (s.acceptor.state.accepted = true ∧
            s.acceptor.state.accepted_proposal_id = m.proposal_id)))) ∧
    (learned_events (paxos_process_message s m now).2 ≠ [] →
      (paxos_process_message s m now).2 =
        [paxos_event.learned_value s.learner.paxos_id
          (paxos_process_message s m now).1.learner.learned_value] ∧
      (paxos_process_message s m now).1.learner.has_learned_value = true ∧
      (m.type = PAXOS_LEARN_VALUE →
        (paxos_process_message s m now).1.learner.learned_value = m.value) ∧
      (m.type = PAXOS_LEARN_PROPOSAL →
        (paxos_process_message s m now).1.learner.learned_value
          = s.acceptor.state.accepted_value)) ∧
    (learned_events (paxos_process_message s m now).2 = [] →
      (paxos_process_message s m now).1.learner.learned_value = s.learner.learned_value ∧
      (paxos_process_message s m now).1.learner.has_learned_value
        = s.learner.has_learned_value ∧
      (paxos_process_message s m now).1.learner.paxos_id = s.learner.paxos_id ∧
      (paxos_process_message s m now).2 =
        if s.acceptor.is_committing = false ∧ m.paxos_id ≥ s.learner.paxos_id then
          [paxos_event.send m.node_id
            (paxos_message_request_chosen s.learner.paxos_id s.node_id)]
        else []) := by
  have hne : m.type = PAXOS_LEARN_PROPOSAL → ¬ m.type = PAXOS_LEARN_VALUE := by
    intro h1 h2
    rw [h1] at h2
    exact absurd h2 (by decide)
  have hc1 : ¬ PAXOS_LEARN_VALUE = PAXOS_LEARN_PROPOSAL := by decide
  have hc2 : ¬ PAXOS_LEARN_PROPOSAL = PAXOS_LEARN_VALUE := by decide
  rw [process_learn_eq s m now hm.symm]
  unfold __on_learn_chosen
  by_cases h1 : s.acceptor.is_committing = true
  · rw [if_pos h1]
    simp [learned_events, h1]
  rw [if_neg h1]
  have h1f : s.acceptor.is_committing = false := by simpa using h1
  by_cases h2 : m.paxos_id > s.learner.paxos_id
  · rw [if_pos h2]
    have h2ne : ¬ m.paxos_id = s.learner.paxos_id := by omega
    have h2ge : m.paxos_id ≥ s.learner.paxos_id := by omega
    simp [learned_events, learned_of, __request_chosen, h1f, h2ne, h2ge]
  rw [if_neg h2]
  by_cases h3 : m.paxos_id < s.learner.paxos_id
  · rw [if_pos h3]
    have h3ne : ¬ m.paxos_id = s.learner.paxos_id := by omega
    have h3ge : ¬ m.paxos_id ≥ s.learner.paxos_id := by omega
    simp [learned_events, h1f, h3ne, h3ge]
  rw [if_neg h3]
  have hid : m.paxos_id = s.learner.paxos_id := by omega
  by_cases h4 : m.type = PAXOS_LEARN_VALUE
  · rw [if_pos h4]
    have h4p : ¬ m.type = PAXOS_LEARN_PROPOSAL := fun h => hne h h4
    simp [learned_events, learned_of, paxos_learner_learn_value, paxos_start_new_round,
      h1f, hid, h4, h4p, hc1]
  rw [if_neg h4]
  have h5 : m.type = PAXOS_LEARN_PROPOSAL := hm.resolve_left h4
  by_cases h6 : s.acceptor.state.accepted = true ∧
      s.acceptor.state.accepted_proposal_id = m.proposal_id
  · rw [if_neg (by simp [h5, h6.1, h6.2])]
    simp [learned_events, learned_of, paxos_learner_learn_value, paxos_start_new_round,
      h1f, hid, h4, h5, h6.1, h6.2, hc2]
  · have h7 : (!(decide (m.type = PAXOS_LEARN_PROPOSAL) && s.acceptor.state.accepted &&
        decide (s.acceptor.state.accepted_proposal_id = m.proposal_id))) = true := by
      cases ha : s.acceptor.state.accepted
      · simp
      · have : ¬ s.acceptor.state.accepted_proposal_id = m.proposal_id := fun h => h6 ⟨ha, h⟩
        simp [this]
    rw [if_pos h7]
    simp [learned_events, learned_of, __request_chosen, h1f, hid, h4, h6]

/-- Witness of C26: a fresh acceptor learns the value of a LEARN_VALUE sent
for instance 0. -/
theorem learn_chosen_gating_witness :
    learned_events (paxos_process_message (paxos_fresh 1 3)
      { type := PAXOS_LEARN_VALUE, paxos_id := 0, node_id := 2, proposal_id := 0,
        accepted_proposal_id := 0, promised_proposal_id := 0, value := 5 } 0).2 ≠ [] :=
  (learn_chosen_gating (paxos_fresh 1 3)
    { type := PAXOS_LEARN_VALUE, paxos_id := 0, node_id := 2, proposal_id := 0,
      accepted_proposal_id := 0, promised_proposal_id := 0, value := 5 } 0
    (Or.inl rfl)).1.mpr ⟨rfl, rfl, Or.inl rfl⟩

/-! ## Phase 2 -/

/-- C28. Outcome of phase 2: in a state with `proposing` true, a propose response
for the current ballot raises `num_accepted` by one (PROPOSE_ACCEPTED) or
`num_rejected` by one (PROPOSE_REJECTED), as `uint16_t` counters.  If the
accepted quorum is then reached, `proposing` is cleared, `propose_timeout` is
stopped, `learn_sent` is set and the one callback call is the broadcast of
LEARN_PROPOSAL (current instance, own node id, current ballot).  Else if the
rejected quorum is reached, `proposing` is cleared, `propose_timeout` is stopped,
`restart_timeout` is started and there is no callback call.  Otherwise only the
counter has changed.  In each case every member not named keeps its content. -/
theorem phase_two_outcome (s : paxos_t) (m : paxos_message_t) (now : Nat)
    (hm : m.type = PAXOS_PROPOSE_REJECTED ∨ m.type = PAXOS_PROPOSE_ACCEPTED)
    (hp : s.proposer.state.proposing = true)
    (hb : m.proposal_id = s.proposer.state.proposal_id) :
    (m.type = PAXOS_PROPOSE_ACCEPTED →
      propose_vote s.quorum m =
        { s.quorum with num_accepted := (s.quorum.num_accepted + 1) % 2 ^ 16 }) ∧
    (m.type = PAXOS_PROPOSE_REJECTED →
      propose_vote s.quorum m =
        { s.quorum with num_rejected := (s.quorum.num_rejected + 1) % 2 ^ 16 }) ∧
    (paxos_quorum_vote_is_accepted (propose_vote s.quorum m) = true →
      paxos_process_message s m now =
        ({ s with
           quorum := propose_vote s.quorum m
           proposer := { s.proposer with
                         state := { s.proposer.state with proposing := false,
                                                          learn_sent := true }
                         propose_timeout := { s.proposer.propose_timeout with
                                              active := false } } },
         [paxos_event.broadcast
            (paxos_message_learn_proposal s.learner.paxos_id s.node_id
              s.proposer.state.proposal_id)])) ∧
    (paxos_quorum_vote_is_accepted (propose_vote s.quorum m) = false →
      paxos_quorum_vote_is_rejected (propose_vote s.quorum m) = true →
      paxos_process_message s m now =
        ({ s with
           quorum := propose_vote s.quorum m
           proposer := { s.proposer with
                         state := { s.proposer.state with proposing := false }
                         propose_timeout := { s.proposer.propose_timeout with
                                              active := false }
                         restart_timeout :=
                           { s.proposer.restart_timeout with
                             active := true
                             expire_time :=
                               (now + s.proposer.restart_timeout.timeout) % 2 ^ 64 } } },
         [])) ∧
    (paxos_quorum_vote_is_accepted (propose_vote s.quorum m) = false →
      paxos_quorum_vote_is_rejected (propose_vote s.quorum m) = false →
      paxos_process_message s m now = ({ s with quorum := propose_vote s.quorum m }, [])) := by
  have hacc : m.type = PAXOS_PROPOSE_ACCEPTED → ¬ m.type = PAXOS_PROPOSE_REJECTED := by
    intro h1 h2
    rw [h1] at h2
    exact absurd h2 (by decide)
  rw [process_propose_response_eq s m now hm, on_propose_response_processed s m now hp hb]
  refine ⟨?_, ?_, ?_, ?_, ?_⟩
  · intro h
    unfold propose_vote
    rw [if_neg (hacc h)]
    rfl
  · intro h
    unfold propose_vote
    rw [if_pos h]
    rfl
  · intro h
    rw [if_pos h]
    rfl
  · intro h1 h2
    rw [if_neg (by simp [h1]), if_pos h2]
    rfl
  · intro h1 h2
    rw [if_neg (by simp [h1]), if_neg (by simp [h2])]
    rfl

/-- Witness of C28: node 1 of a three-node cluster, in phase 2 at ballot 1 after
two prepare responses, receives a PROPOSE_ACCEPTED for ballot 1, which is not
yet a quorum. -/
theorem phase_two_outcome_witness :
    paxos_process_message
        (deliver_all (paxos_propose (paxos_fresh 1 3) 7 0).1
          [(0, paxos_message_prepare_currently_open 0 1 1),
           (0, paxos_message_prepare_currently_open 0 2 1)])
        (paxos_message_propose_accepted 0 2 1) 0
      = ({ deliver_all (paxos_propose (paxos_fresh 1 3) 7 0).1
             [(0, paxos_message_prepare_currently_open 0 1 1),
              (0, paxos_message_prepare_currently_open 0 2 1)] with
           quorum := { num_accepted := 1, num_rejected := 0, num_nodes := 3 } }, []) :=
  (phase_two_outcome
    (deliver_all (paxos_propose (paxos_fresh 1 3) 7 0).1
      [(0, paxos_message_prepare_currently_open 0 1 1),
       (0, paxos_message_prepare_currently_open 0 2 1)])
    (paxos_message_propose_accepted 0 2 1) 0 (Or.inr rfl) (by decide) (by decide)).2.2.2.2
    (by decide) (by decide)

/-! ## The timer to wait for -/

/-- C23. The timer returned by `paxos_timeout`: it is NULL (`none`) if and only
if none of the three timers is active; otherwise it is an active timer whose
`expire_time` is at most that of every active timer, and among the active timers
with that same `expire_time` it is the first in the order prepare, propose,
restart.  The function only reads the engine record. -/
theorem next_timeout (s : paxos_t) :
    (paxos_timeout s = none ↔
      (s.proposer.prepare_timeout.active = false ∧
       s.proposer.propose_timeout.active = false ∧
       s.proposer.restart_timeout.active = false)) ∧
    (∀ t, paxos_timeout s = some t →
      (paxos_timer s t).active = true ∧
      ∀ u, (paxos_timer s u).active = true →
        (paxos_timer s t).expire_time ≤ (paxos_timer s u).expire_time ∧
        ((paxos_timer s u).expire_time = (paxos_timer s t).expire_time →
          paxos_timer_rank t ≤ paxos_timer_rank u)) := by
  rcases s with ⟨⟨st, ⟨a1, t1, e1⟩, ⟨a2, t2, e2⟩, ⟨a3, t3, e3⟩⟩, acc, lr, q, nid⟩
  unfold paxos_timeout __select_min_timeout
  cases a1 <;> cases a2 <;> cases a3 <;>
    simp only [paxos_timer, Bool.false_and, Bool.true_and, Bool.false_eq_true, if_false,
      if_true, decide_eq_true_eq] <;>
    (try split_ifs) <;>
    (refine ⟨by simp, ?_⟩
     intro t ht
     cases ht <;>
       (refine ⟨rfl, ?_⟩
        intro u hu
        cases u <;> simp_all [paxos_timer_rank] <;> omega))

/-- Witness of C23: with the three timers active, expiring at 70, 50 and 50, the
timer returned is `propose_timeout`. -/
theorem next_timeout_witness :
    paxos_timeout
      { paxos_zero with
        proposer := { paxos_zero.proposer with
                      prepare_timeout := { active := true, timeout := 5000, expire_time := 70 }
                      propose_timeout := { active := true, timeout := 5000, expire_time := 50 }
                      restart_timeout := { active := true, timeout := 1000, expire_time := 50 } } }
      = some paxos_timer_id.propose_timeout ∧
    (50 ≤ 70 ∧ (70 = 50 → paxos_timer_rank paxos_timer_id.propose_timeout
                  ≤ paxos_timer_rank paxos_timer_id.prepare_timeout)) ∧
    paxos_timer_rank paxos_timer_id.propose_timeout
      ≤ paxos_timer_rank paxos_timer_id.restart_timeout :=
  ⟨by decide,
   ((next_timeout
      { paxos_zero with
        proposer := { paxos_zero.proposer with
                      prepare_timeout := { active := true, timeout := 5000, expire_time := 70 }
                      propose_timeout := { active := true, timeout := 5000, expire_time := 50 }
                      restart_timeout := { active := true, timeout := 1000, expire_time := 50 } } }).2
      paxos_timer_id.propose_timeout (by decide)).2 paxos_timer_id.prepare_timeout rfl,
   (((next_timeout
      { paxos_zero with
        proposer := { paxos_zero.proposer with
                      prepare_timeout := { active := true, timeout := 5000, expire_time := 70 }
                      propose_timeout := { active := true, timeout := 5000, expire_time := 50 }
                      restart_timeout := { active := true, timeout := 1000, expire_time := 50 } } }).2
      paxos_timer_id.propose_timeout (by decide)).2 paxos_timer_id.restart_timeout rfl).2 rfl⟩

/-! ## Time left on a timer: what the code computes -/

/-- C24 fails on the code.  At clock reading 10000 an active timer that expires
at 13000 gives 1000, not the 3000 milliseconds left; an active timer that
expired at 9500 gives the 500 milliseconds elapsed since, not 0; an active timer
that expires at this very reading gives 0.  An inactive timer and the NULL
pointer give 1000. -/
theorem timeout_remaining_is_elapsed :
    paxos_timeout_remaining (some { active := true, timeout := 5000, expire_time := 13000 }) 10000
      = 1000 ∧
    paxos_timeout_remaining (some { active := true, timeout := 5000, expire_time := 9500 }) 10000
      = 500 ∧
    paxos_timeout_remaining (some { active := true, timeout := 5000, expire_time := 10000 }) 10000
      = 0 ∧
    paxos_timeout_remaining (some { active := false, timeout := 5000, expire_time := 13000 }) 10000
      = 1000 ∧
    paxos_timeout_remaining none 10000 = 1000 := by
  refine ⟨?_, ?_, ?_, ?_, ?_⟩ <;> decide

/-- What `paxos_timeout_remaining` computes for an active timer: the time elapsed
since the expiry once it has passed (below `2^31` milliseconds), and the default
1000 while the expiry is still ahead (by at most `2^31` milliseconds). -/
theorem timeout_remaining_active (t : paxos_timeout_t) (now : Nat)
    (ha : t.active = true) (hn : now < 2 ^ 64) (he : t.expire_time < 2 ^ 64) :
    (t.expire_time ≤ now → now - t.expire_time < 2 ^ 31 →
      paxos_timeout_remaining (some t) now = now - t.expire_time) ∧
    (now < t.expire_time → t.expire_time - now ≤ 2 ^ 31 →
      paxos_timeout_remaining (some t) now = 1000) := by
  constructor
  · intro h1 h2
    have hs : u64_sub now t.expire_time = now - t.expire_time := by
      unfold u64_sub U64
      rw [Nat.mod_eq_of_lt hn, Nat.mod_eq_of_lt he, if_pos h1]
    have hi : int_of_unsigned (now - t.expire_time) = ((now - t.expire_time : Nat) : Int) := by
      unfold int_of_unsigned U32
      have h3 : (now - t.expire_time) % 2 ^ 32 = now - t.expire_time :=
        Nat.mod_eq_of_lt (by omega)
      rw [h3, if_pos h2]
    unfold paxos_timeout_remaining
    simp only [ha, if_true, hs, hi]
    rw [if_neg (by omega)]
    simp
  · intro h1 h2
    have hs : u64_sub now t.expire_time = now + 2 ^ 64 - t.expire_time := by
      unfold u64_sub U64
      rw [Nat.mod_eq_of_lt hn, Nat.mod_eq_of_lt he, if_neg (by omega)]
    have hi : int_of_unsigned (now + 2 ^ 64 - t.expire_time) < 0 := by
      unfold int_of_unsigned U32
      have h3 : (now + 2 ^ 64 - t.expire_time) % 2 ^ 32 = 2 ^ 32 - (t.expire_time - now) := by
        omega
      rw [h3, if_neg (by omega)]
      omega
    unfold paxos_timeout_remaining
    simp only [ha, if_true, hs]
    rw [if_pos hi]

/-! ## Opening an engine -/

/-- C25 (as stated) fails: on a record whose prior content has learned value 7
and vote counters 3 and 2, `paxos_open` leaves these three members as they were;
and a `num_nodes` of `2^32 + 3` is stored as 3 in the `uint32_t` member. -/
theorem open_zero_counterexample :
    (paxos_open
      { paxos_zero with
        learner := { paxos_zero.learner with learned_value := 7 }
        quorum := { num_accepted := 3, num_rejected := 2, num_nodes := 0 } } 1 3).learner.learned_value
      = 7 ∧
    (paxos_open
      { paxos_zero with
        learner := { paxos_zero.learner with learned_value := 7 }
        quorum := { num_accepted := 3, num_rejected := 2, num_nodes := 0 } } 1 3).quorum
      = { num_accepted := 3, num_rejected := 2, num_nodes := 3 } ∧
    (paxos_open paxos_zero 1 (2 ^ 32 + 3)).quorum.num_nodes = 3 := by
  decide

/-- C25 (amended). For every prior content of the record, `paxos_open` zeroes the
proposer state, the acceptor (state, `sender_id`, `written_paxos_id`,
`is_committing`) and the learner members `paxos_id`, `has_learned_value` and
`last_request_chosen_time`; it makes the three timers inactive (with their
periods 5000, 5000 and 1000 and `expire_time` 0), stores the given node id and
the given `num_nodes` modulo `2^32`.  The members `learner.learned_value`,
`quorum.num_accepted` and `quorum.num_rejected` keep their prior content, so on a
record that was cleared beforehand every member named in the claim is zero. -/
theorem open_initialises (prior : paxos_t) (node_id num_nodes : Nat) :
    paxos_open prior node_id num_nodes =
      { proposer :=
          { state := { proposal_id := 0, highest_received_proposal_id := 0,
                       highest_promised_proposal_id := 0, proposed_value := 0,
                       preparing := false, proposing := false, learn_sent := false }
            prepare_timeout := { active := false, timeout := 5000, expire_time := 0 }
            propose_timeout := { active := false, timeout := 5000, expire_time := 0 }
            restart_timeout := { active := false, timeout := 1000, expire_time := 0 } }
        acceptor :=
          { state := { promised_proposal_id := 0, accepted_proposal_id := 0,
                       accepted_value := 0, accepted := false }
            sender_id := 0, written_paxos_id := 0, is_committing := false }
        learner := { paxos_id := 0, learned_value := prior.learner.learned_value,
                     has_learned_value := false, last_request_chosen_time := 0 }
        quorum := { num_accepted := prior.quorum.num_accepted,
                    num_rejected := prior.quorum.num_rejected,
                    num_nodes := num_nodes % 2 ^ 32 }
        node_id := node_id } ∧
    (paxos_open paxos_zero node_id num_nodes).learner.learned_value = 0 ∧
    (paxos_open paxos_zero node_id num_nodes).quorum.num_accepted = 0 ∧
    (paxos_open paxos_zero node_id num_nodes).quorum.num_rejected = 0 :=
  ⟨rfl, rfl, rfl, rfl⟩

/-! ## Catch-up answers -/

/-- C21 fails on the code.  Node 1 learns the values 1 to 5 for the instances 0 to
4 (the callback `learned_value` is called with instance 4 and value 5 last) and
then answers the bootstrap of node 3 with PAXOS_CATCHUP_RESPONSE for instance 5
and value 5: an instance for which it never called `learned_value`.  And a
freshly opened node, which has learned nothing, answers a PAXOS_CATCHUP_REQUEST
for instance 0 with a PAXOS_CATCHUP_RESPONSE. -/
theorem catchup_reply_names_next_instance :
    (paxos_trace (paxos_fresh 1 3) learn_then_bootstrap_run).map (fun t => t.2) =
      [[paxos_event.learned_value 0 1], [paxos_event.learned_value 1 2],
       [paxos_event.learned_value 2 3], [paxos_event.learned_value 3 4],
       [paxos_event.learned_value 4 5],
       [paxos_event.send 3 (paxos_message_catchup_response 5 1 5)]] ∧
    (paxos_fresh 1 3).learner.has_learned_value = false ∧
    (paxos_process_message (paxos_fresh 1 3) (paxos_message_catchup_request 0 3) 0).2 =
      [paxos_event.send 3 (paxos_message_catchup_response 0 1 0)] := by
  refine ⟨?_, ?_, ?_⟩ <;> decide

/-! ## At most one timer -/

theorem timers_inv_iff (s : paxos_t) : timers_inv s ↔ timer_flags_ok (timer_flags s) = true := by
  unfold timers_inv active_timers timer_flags timer_flags_ok
  cases s.proposer.prepare_timeout.active <;> cases s.proposer.propose_timeout.active <;>
    cases s.proposer.restart_timeout.active <;> cases s.proposer.state.preparing <;>
    cases s.proposer.state.proposing <;> simp

theorem timer_flags_of_proposer (s r : paxos_t) (h : r.proposer = s.proposer) :
    timer_flags r = timer_flags s := by
  unfold timer_flags
  rw [h]

/-- Resetting the proposer state keeps the invariant on the timers. -/
theorem timer_flags_ok_reset (a1 a2 a3 p1 p2 : Bool)
    (h : timer_flags_ok (a1, a2, a3, p1, p2) = true) :
    timer_flags_ok (a1, a2, a3, false, false) = true := by
  revert h
  cases a1 <;> cases a2 <;> cases a3 <;> cases p1 <;> cases p2 <;> decide

theorem start_preparing_timers (s : paxos_t) (now : Nat) :
    timer_flags_ok (timer_flags (__start_preparing s now).1) = true := rfl

theorem start_proposing_timers (s : paxos_t) (now : Nat) :
    timer_flags_ok (timer_flags (__start_proposing s now).1) = true := rfl

theorem on_prepare_request_timers (s : paxos_t) (m : paxos_message_t) :
    (__on_prepare_request s m).1.proposer = s.proposer := by
  by_cases hc : can_accept_spec s m
  · rw [on_prepare_request_accept s m hc]
  · rw [on_prepare_request_reject s m hc]

theorem on_propose_request_timers (s : paxos_t) (m : paxos_message_t) :
    (__on_propose_request s m).1.proposer = s.proposer := by
  by_cases hc : can_accept_spec s m
  · rw [on_propose_request_accept s m hc]
  · rw [on_propose_request_reject s m hc]

theorem on_prepare_response_timers (s : paxos_t) (m : paxos_message_t) (now : Nat)
    (h : timer_flags_ok (timer_flags s) = true) :
    timer_flags_ok (timer_flags (__on_prepare_response s m now).1) = true := by
  by_cases hp : s.proposer.state.preparing = true ∧ m.proposal_id = s.proposer.state.proposal_id
  · rw [on_prepare_response_processed s m now hp.1 hp.2]
    split_ifs
    · exact start_proposing_timers _ now
    · have hk := prepare_adopt_keeps s.proposer.state m
      revert h
      unfold timer_flags __stop_preparing prepare_counted paxos_timeout_start paxos_timeout_stop
      dsimp only
      rw [hk.2.1, hp.1]
      cases s.proposer.prepare_timeout.active <;> cases s.proposer.propose_timeout.active <;>
        cases s.proposer.restart_timeout.active <;> cases s.proposer.state.proposing <;> decide
    · have hk := prepare_adopt_keeps s.proposer.state m
      revert h
      unfold timer_flags prepare_counted
      dsimp only
      rw [hk.1, hk.2.1]
      exact id
  · rw [on_prepare_response_ignored s m now (by
      by_cases h1 : s.proposer.state.preparing = true
      · exact Or.inr (fun h2 => hp ⟨h1, h2⟩)
      · exact Or.inl (by simpa using h1))]
    exact h

theorem on_propose_response_timers (s : paxos_t) (m : paxos_message_t) (now : Nat)
    (h : timer_flags_ok (timer_flags s) = true) :
    timer_flags_ok (timer_flags (__on_propose_response s m now).1) = true := by
  by_cases hp : s.proposer.state.proposing = true ∧ m.proposal_id = s.proposer.state.proposal_id
  · rw [on_propose_response_processed s m now hp.1 hp.2]
    split_ifs
    · revert h
      unfold timer_flags __stop_proposing propose_counted paxos_timeout_stop
      dsimp only
      rw [hp.1]
      cases s.proposer.prepare_timeout.active <;> cases s.proposer.propose_timeout.active <;>
        cases s.proposer.restart_timeout.active <;> cases s.proposer.state.preparing <;> decide
    · revert h
      unfold timer_flags __stop_proposing propose_counted paxos_timeout_start paxos_timeout_stop
      dsimp only
      rw [hp.1]
      cases s.proposer.prepare_timeout.active <;> cases s.proposer.propose_timeout.active <;>
        cases s.proposer.restart_timeout.active <;> cases s.proposer.state.preparing <;> decide
    · exact h
  · rw [on_propose_response_ignored s m now (by
      by_cases h1 : s.proposer.state.proposing = true
      · exact Or.inr (fun h2 => hp ⟨h1, h2⟩)
      · exact Or.inl (by simpa using h1))]
    exact h

theorem on_learn_chosen_timers (s : paxos_t) (m : paxos_message_t) (now : Nat)
    (h : timer_flags_ok (timer_flags s) = true) :
    timer_flags_ok (timer_flags (__on_learn_chosen s m now).1) = true := by
  unfold __on_learn_chosen
  dsimp only
  split_ifs
  · exact h
  · exact h
  · exact h
  · exact timer_flags_ok_reset _ _ _ _ _ h
  · exact h
  · exact timer_flags_ok_reset _ _ _ _ _ h

theorem on_catchup_response_timers (s : paxos_t) (m : paxos_message_t)
    (h : timer_flags_ok (timer_flags s) = true) :
    timer_flags_ok (timer_flags (__on_catchup_response s m).1) = true := by
  unfold __on_catchup_response
  dsimp only
  split_ifs
  · exact h
  · exact timer_flags_ok_reset _ _ _ _ _ h

theorem timeout_trigger_timers (s : paxos_t) (t : Option paxos_timer_id) (now : Nat)
    (h : timer_flags_ok (timer_flags s) = true) :
    timer_flags_ok (timer_flags (paxos_timeout_trigger s t now).1) = true := by
  rcases t with _ | t
  · exact h
  · cases t
    · unfold paxos_timeout_trigger __on_prepare_timeout
      dsimp only
      split_ifs with h1 h2
      · exact start_preparing_timers _ now
      · revert h
        unfold timer_flags paxos_timeout_start
        dsimp only
        rw [h1]
        exact id
      · exact h
    · unfold paxos_timeout_trigger __on_propose_timeout
      dsimp only
      split_ifs with h1 h2
      · exact start_preparing_timers _ now
      · revert h
        unfold timer_flags paxos_timeout_start
        dsimp only
        rw [h1]
        exact id
      · exact h
    · unfold paxos_timeout_trigger __on_restart_timeout
      dsimp only
      split_ifs with h1 h2
      · exact start_preparing_timers _ now
      · revert h
        unfold timer_flags paxos_timeout_start
        dsimp only
        rw [h1]
        exact id
      · exact h

/-- No step breaks the invariant on the timers. -/
theorem step_keeps_timers (s : paxos_t) (now : Nat) (c : paxos_call)
    (h : timer_flags_ok (timer_flags s) = true) :
    timer_flags_ok (timer_flags (paxos_step s now c).1) = true := by
  cases c with
  | process_message m =>
    show timer_flags_ok (timer_flags (paxos_process_message s m now).1) = true
    apply process_message_dispatch (fun r => timer_flags_ok (timer_flags r.1) = true)
    · intro _
      show timer_flags_ok (timer_flags (__on_prepare_request s m).1) = true
      rw [timer_flags_of_proposer s _ (on_prepare_request_timers s m)]
      exact h
    · exact on_prepare_response_timers s m now h
    · intro _
      show timer_flags_ok (timer_flags (__on_propose_request s m).1) = true
      rw [timer_flags_of_proposer s _ (on_propose_request_timers s m)]
      exact h
    · exact on_propose_response_timers s m now h
    · intro _
      exact on_learn_chosen_timers s m now h
    · show timer_flags_ok (timer_flags (__on_request_chosen s m).1) = true
      rw [(on_request_chosen_frame s m).1]
      exact h
    · show timer_flags_ok (timer_flags (__on_bootstrap s m).1) = true
      rw [(on_bootstrap_frame s m).1]
      exact h
    · show timer_flags_ok (timer_flags (__on_catchup_start s m).1) = true
      rw [(on_catchup_start_frame s m).1]
      exact h
    · show timer_flags_ok (timer_flags (__on_catchup_request s m).1) = true
      rw [(on_catchup_request_frame s m).1]
      exact h
    · intro _
      exact on_catchup_response_timers s m h
    · exact h
  | propose value => exact start_preparing_timers _ now
  | bootstrap => exact h
  | timeout_trigger t => exact timeout_trigger_timers s t now h

theorem reachable_timers (s : paxos_t) (h : Reachable s) :
    timer_flags_ok (timer_flags s) = true := by
  induction h with
  | opened prior node_id num_nodes => rfl
  | step s now c _ ih => exact step_keeps_timers s now c ih

theorem reachable_host_reachable (s : paxos_t) (h : ReachableHost s) : Reachable s := by
  induction h with
  | opened prior node_id num_nodes => exact Reachable.opened prior node_id num_nodes
  | process_message s now m _ ih => exact Reachable.step s now (paxos_call.process_message m) ih
  | propose s now v _ ih => exact Reachable.step s now (paxos_call.propose v) ih
  | bootstrap s _ ih => exact Reachable.step s 0 paxos_call.bootstrap ih
  | timeout_trigger s now _ ih =>
    exact Reachable.step s now (paxos_call.timeout_trigger (paxos_timeout s)) ih

/-- C29. At most one timer: in every state reached from `paxos_open` by messages,
proposals, bootstraps and triggers of the timer that `paxos_timeout` returns, in
any order, at most one of `prepare_timeout`, `propose_timeout` and
`restart_timeout` is active. -/
theorem at_most_one_timer (s : paxos_t) (h : ReachableHost s) : active_timers s ≤ 1 :=
  ((timers_inv_iff s).mpr (reachable_timers s (reachable_host_reachable s h))).1

/-- Witness of C29: node 1 proposes at clock reading 0 and the host triggers the
timer returned by `paxos_timeout` at clock reading 9000. -/
theorem at_most_one_timer_witness :
    active_timers
      (paxos_timeout_trigger (paxos_propose (paxos_fresh 1 3) 7 0).1
        (paxos_timeout (paxos_propose (paxos_fresh 1 3) 7 0).1) 9000).1 ≤ 1 :=
  at_most_one_timer _
    (ReachableHost.timeout_trigger _ 9000
      (ReachableHost.propose _ 0 7 (ReachableHost.opened paxos_zero 1 3)))

/-! ## Majority intersection -/

/-- C33. Majority intersection: with `num_nodes = n` and `n + 2 < 2^32` (the bound
`1 <= n` of the claim is not needed), the accepted quorum holds exactly from the
threshold `t = __math_ceil(n + 1, 2)` on and the rejected quorum exactly from
`__math_ceil(n, 2)` on; twice `t` exceeds `n`, and the two thresholds add up
to `n + 1`. -/
theorem majority_intersection (q : paxos_quorum_t) (hn : q.num_nodes + 2 < 2 ^ 32) :
    (paxos_quorum_vote_is_accepted q = true ↔
      __math_ceil (u32_add q.num_nodes 1) 2 ≤ q.num_accepted) ∧
    (paxos_quorum_vote_is_rejected q = true ↔ __math_ceil q.num_nodes 2 ≤ q.num_rejected) ∧
    2 * __math_ceil (u32_add q.num_nodes 1) 2 > q.num_nodes ∧
    __math_ceil (u32_add q.num_nodes 1) 2 + __math_ceil q.num_nodes 2 = q.num_nodes + 1 := by
  refine ⟨?_, ?_, ?_, ?_⟩
  · unfold paxos_quorum_vote_is_accepted
    rw [decide_eq_true_eq]
  · unfold paxos_quorum_vote_is_rejected
    rw [decide_eq_true_eq]
  · rw [accepted_threshold _ hn]
    omega
  · rw [accepted_threshold _ hn, rejected_threshold _ hn]
    omega

/-- Witness of C33: five nodes, thresholds 3 and 3. -/
theorem majority_intersection_witness :
    2 * __math_ceil (u32_add 5 1) 2 > 5 ∧ __math_ceil (u32_add 5 1) 2 + __math_ceil 5 2 = 5 + 1 :=
  (majority_intersection { num_accepted := 0, num_rejected := 0, num_nodes := 5 }
    (by decide)).2.2

/-! ## Request for a chosen value -/

theorem process_request_chosen_eq (s : paxos_t) (m : paxos_message_t) (now : Nat)
    (hm : m.type = PAXOS_REQUEST_CHOSEN) :
    paxos_process_message s m now = __on_request_chosen s m := by
  simp [paxos_process_message, hm, PAXOS_PROPOSE_REQUEST, PAXOS_PREPARE_REQUEST,
    PAXOS_PREPARE_REJECTED, PAXOS_PREPARE_PREVIOUSLY_ACCEPTED, PAXOS_PREPARE_CURRENTLY_OPEN,
    PAXOS_PROPOSE_REJECTED, PAXOS_PROPOSE_ACCEPTED, PAXOS_LEARN_PROPOSAL, PAXOS_LEARN_VALUE,
    PAXOS_REQUEST_CHOSEN]

/-- C34. PAXOS_REQUEST_CHOSEN never returns a value: the engine is unchanged; when
`m.paxos_id >= learner.paxos_id` there is no callback call; otherwise the look-up
of `paxos_get_accepted_value` for `m.paxos_id` fails and the one callback call is
the send to `m.node_id` of PAXOS_CATCHUP_START carrying `learner.paxos_id`, the
own node id and value 0. -/
theorem request_chosen_reply (s : paxos_t) (m : paxos_message_t) (now : Nat)
    (hm : m.type = PAXOS_REQUEST_CHOSEN) :
    (paxos_process_message s m now).1 = s ∧
    (m.paxos_id ≥ s.learner.paxos_id → (paxos_process_message s m now).2 = []) ∧
    (m.paxos_id < s.learner.paxos_id →
      paxos_get_accepted_value s m.paxos_id = none ∧
      (paxos_process_message s m now).2 =
        [paxos_event.send m.node_id
          { type := PAXOS_CATCHUP_START, paxos_id := s.learner.paxos_id, node_id := s.node_id,
            proposal_id := 0, accepted_proposal_id := 0, promised_proposal_id := 0,
            value := 0 }]) := by
  rw [process_request_chosen_eq s m now hm]
  refine ⟨(on_request_chosen_frame s m).1, ?_, ?_⟩
  · intro h
    unfold __on_request_chosen
    rw [if_pos h]
  · intro h
    have hg : paxos_get_accepted_value s m.paxos_id = none := by
      unfold paxos_get_accepted_value
      rw [if_neg (by omega)]
    refine ⟨hg, ?_⟩
    unfold __on_request_chosen
    rw [if_neg (by omega)]
    dsimp only
    rw [hg]
    rfl

/-- Witness of C34: a node at instance 5 (by catch-up) is asked for the value
chosen in instance 2. -/
theorem request_chosen_reply_witness :
    (paxos_process_message
        (paxos_process_message (paxos_fresh 1 3) (paxos_message_catchup_response 5 2 9) 0).1
        (paxos_message_request_chosen 2 3) 0).2
      = [paxos_event.send 3
          { type := PAXOS_CATCHUP_START, paxos_id := 5, node_id := 1,
            proposal_id := 0, accepted_proposal_id := 0, promised_proposal_id := 0,
            value := 0 }] :=
  ((request_chosen_reply
      (paxos_process_message (paxos_fresh 1 3) (paxos_message_catchup_response 5 2 9) 0).1
      (paxos_message_request_chosen 2 3) 0 rfl).2.2 (by decide)).2

/-! ## The synchronous commit -/

theorem on_learn_chosen_committing (s : paxos_t) (m : paxos_message_t) (now : Nat) :
    (__on_learn_chosen s m now).1.acceptor.is_committing = s.acceptor.is_committing := by
  unfold __on_learn_chosen
  dsimp only
  split_ifs <;> rfl

/-- No step leaves a commit in flight. -/
theorem step_keeps_not_committing (s : paxos_t) (now : Nat) (c : paxos_call)
    (h : s.acceptor.is_committing = false) :
    (paxos_step s now c).1.acceptor.is_committing = false := by
  cases c with
  | process_message m =>
    show (paxos_process_message s m now).1.acceptor.is_committing = false
    apply process_message_dispatch (fun r => r.1.acceptor.is_committing = false)
    · intro _
      show (__on_prepare_request s m).1.acceptor.is_committing = false
      by_cases hc : can_accept_spec s m
      · rw [on_prepare_request_accept s m hc]
      · rw [on_prepare_request_reject s m hc]
        exact h
    · show (__on_prepare_response s m now).1.acceptor.is_committing = false
      rw [(on_prepare_response_frame s m now).2.1]
      exact h
    · intro _
      show (__on_propose_request s m).1.acceptor.is_committing = false
      by_cases hc : can_accept_spec s m
      · rw [on_propose_request_accept s m hc]
      · rw [on_propose_request_reject s m hc]
        exact h
    · show (__on_propose_response s m now).1.acceptor.is_committing = false
      rw [(on_propose_response_frame s m now).2.1]
      exact h
    · intro _
      show (__on_learn_chosen s m now).1.acceptor.is_committing = false
      rw [on_learn_chosen_committing]
      exact h
    · show (__on_request_chosen s m).1.acceptor.is_committing = false
      rw [(on_request_chosen_frame s m).1]
      exact h
    · show (__on_bootstrap s m).1.acceptor.is_committing = false
      rw [(on_bootstrap_frame s m).1]
      exact h
    · show (__on_catchup_start s m).1.acceptor.is_committing = false
      rw [(on_catchup_start_frame s m).1]
      exact h
    · show (__on_catchup_request s m).1.acceptor.is_committing = false
      rw [(on_catchup_request_frame s m).1]
      exact h
    · intro _
      show (__on_catchup_response s m).1.acceptor.is_committing = false
      unfold __on_catchup_response
      dsimp only
      split_ifs <;> exact h
    · exact h
  | propose value => exact h
  | bootstrap => exact h
  | timeout_trigger t =>
    show (paxos_timeout_trigger s t now).1.acceptor.is_committing = false
    rw [(timeout_trigger_frame s t now).2.1]
    exact h

theorem reachable_not_committing (s : paxos_t) (h : Reachable s) :
    s.acceptor.is_committing = false := by
  induction h with
  | opened prior node_id num_nodes => rfl
  | step s now c _ ih => exact step_keeps_not_committing s now c ih

/-- C35. With the synchronous commit of the source, `is_committing` is false in
every state reachable from `paxos_open` when an API call returns.  In such a state
a request is honoured exactly when it is for the current instance and its ballot
is not below the promise (the test of `is_committing` never decides), and an
honoured PREPARE_REQUEST or PROPOSE_REQUEST has its response sent to the requester
before `paxos_process_message` returns, with `written_paxos_id` equal to
`learner.paxos_id`; a PAXOS_LEARN_VALUE or PAXOS_LEARN_PROPOSAL message naming
an instance ahead is never dropped for a commit in flight: REQUEST_CHOSEN is
sent. -/
theorem commit_is_synchronous (s : paxos_t) (h : Reachable s) (m : paxos_message_t)
    (now : Nat) :
    s.acceptor.is_committing = false ∧
    (paxos_process_message s m now).1.acceptor.is_committing = false ∧
    (__can_accept_request s m = true ↔
      (m.paxos_id = s.learner.paxos_id ∧
        m.proposal_id ≥ s.acceptor.state.promised_proposal_id)) ∧
    (m.type = PAXOS_PREPARE_REQUEST → __can_accept_request s m = true →
      (paxos_process_message s m now).2 =
        [paxos_event.send m.node_id
          (if s.acceptor.state.accepted = false then
             paxos_message_prepare_currently_open m.paxos_id s.node_id m.proposal_id
           else
             paxos_message_prepare_previously_accepted m.paxos_id s.node_id m.proposal_id
               s.acceptor.state.accepted_proposal_id s.acceptor.state.accepted_value)] ∧
      (paxos_process_message s m now).1.acceptor.written_paxos_id = s.learner.paxos_id ∧
      (paxos_process_message s m now).1.learner.paxos_id = s.learner.paxos_id) ∧
    (m.type = PAXOS_PROPOSE_REQUEST → __can_accept_request s m = true →
      (paxos_process_message s m now).2 =
        [paxos_event.send m.node_id
          (paxos_message_propose_accepted m.paxos_id s.node_id m.proposal_id)] ∧
      (paxos_process_message s m now).1.acceptor.written_paxos_id = s.learner.paxos_id ∧
      (paxos_process_message s m now).1.learner.paxos_id = s.learner.paxos_id) ∧
    ((m.type = PAXOS_LEARN_VALUE ∨ m.type = PAXOS_LEARN_PROPOSAL) →
      m.paxos_id > s.learner.paxos_id →
      (paxos_process_message s m now).2 =
        [paxos_event.send m.node_id
          (paxos_message_request_chosen s.learner.paxos_id s.node_id)]) := by
  have hc := reachable_not_committing s h
  refine ⟨hc, step_keeps_not_committing s now (paxos_call.process_message m) hc, ?_, ?_, ?_, ?_⟩
  · rw [can_accept_request_iff]
    unfold can_accept_spec
    constructor
    · intro h1
      exact ⟨h1.1, h1.2.1⟩
    · intro h1
      exact ⟨h1.1, h1.2, hc⟩
  · intro hm ha
    rw [process_prepare_request_eq s m now hm,
      on_prepare_request_accept s m ((can_accept_request_iff s m).mp ha)]
    exact ⟨rfl, rfl, rfl⟩
  · intro hm ha
    rw [process_propose_request_eq s m now hm,
      on_propose_request_accept s m ((can_accept_request_iff s m).mp ha)]
    exact ⟨rfl, rfl, rfl⟩
  · intro hm hgt
    rw [process_learn_eq s m now hm.symm]
    unfold __on_learn_chosen
    rw [if_neg (by simp [hc]), if_pos hgt]
    rfl

/-- Witness of C35: a fresh acceptor honours the PREPARE_REQUEST of node 2 for
ballot 1 and answers at once. -/
theorem commit_is_synchronous_witness :
    (paxos_process_message (paxos_fresh 1 3) (paxos_message_prepare_request 0 2 1) 0).2 =
        [paxos_event.send 2 (paxos_message_prepare_currently_open 0 1 1)] ∧
    (paxos_process_message (paxos_fresh 1 3)
        (paxos_message_prepare_request 0 2 1) 0).1.acceptor.written_paxos_id = 0 ∧
    (paxos_process_message (paxos_fresh 1 3)
        (paxos_message_prepare_request 0 2 1) 0).1.learner.paxos_id = 0 :=
  (commit_is_synchronous (paxos_fresh 1 3) (Reachable.opened paxos_zero 1 3)
    (paxos_message_prepare_request 0 2 1) 0).2.2.2.1 rfl (by decide)

/-! ## Ballots and node identity -/

/-- C36. Ballot numbers do not depend on the node identity: two engines that
agree on `proposal_id` and `highest_promised_proposal_id` get the same ballot
when they enter phase 1 (by `__start_preparing`, hence by `paxos_propose` and by
the timer callbacks), whatever their node ids; and a freshly opened engine that
proposes broadcasts PREPARE_REQUEST for instance 0 with ballot 1, whatever its
node id. -/
theorem ballot_ignores_node_id (s1 s2 : paxos_t) (v1 v2 now1 now2 : Nat)
    (hp : s1.proposer.state.proposal_id = s2.proposer.state.proposal_id)
    (hh : s1.proposer.state.highest_promised_proposal_id
      = s2.proposer.state.highest_promised_proposal_id) :
    (__start_preparing s1 now1).1.proposer.state.proposal_id
      = (__start_preparing s2 now2).1.proposer.state.proposal_id ∧
    (paxos_propose s1 v1 now1).1.proposer.state.proposal_id
      = (paxos_propose s2 v2 now2).1.proposer.state.proposal_id ∧
    (∀ prior : paxos_t, ∀ node_id num_nodes : Nat,
      (paxos_propose (paxos_open prior node_id num_nodes) v1 now1).2 =
        [paxos_event.broadcast (paxos_message_prepare_request 0 node_id 1)]) := by
  refine ⟨?_, ?_, ?_⟩
  · show u64_add 1 (__math_max s1.proposer.state.proposal_id
        s1.proposer.state.highest_promised_proposal_id) =
      u64_add 1 (__math_max s2.proposer.state.proposal_id
        s2.proposer.state.highest_promised_proposal_id)
    rw [hp, hh]
  · show u64_add 1 (__math_max s1.proposer.state.proposal_id
        s1.proposer.state.highest_promised_proposal_id) =
      u64_add 1 (__math_max s2.proposer.state.proposal_id
        s2.proposer.state.highest_promised_proposal_id)
    rw [hp, hh]
  · intro prior node_id num_nodes
    rfl

/-- Witness of C36: the fresh nodes 1 and 2 of a three-node cluster both use
ballot 1. -/
theorem ballot_ignores_node_id_witness :
    (paxos_propose (paxos_fresh 1 3) 10 0).1.proposer.state.proposal_id
      = (paxos_propose (paxos_fresh 2 3) 20 0).1.proposer.state.proposal_id ∧
    (paxos_propose (paxos_fresh 1 3) 10 0).2 =
      [paxos_event.broadcast (paxos_message_prepare_request 0 1 1)] ∧
    (paxos_propose (paxos_fresh 2 3) 20 0).2 =
      [paxos_event.broadcast (paxos_message_prepare_request 0 2 1)] :=
  ⟨(ballot_ignores_node_id (paxos_fresh 1 3) (paxos_fresh 2 3) 10 20 0 0 rfl rfl).2.1,
   by decide, by decide⟩

/-! ## The timer callbacks -/

/-- `__start_preparing` re-enters phase 1 from any engine that has the ballot
members, the learner and the node id of `s`. -/
theorem start_preparing_reenters (s s1 : paxos_t) (now : Nat)
    (h1 : s1.proposer.state.proposal_id = s.proposer.state.proposal_id)
    (h2 : s1.proposer.state.highest_promised_proposal_id
      = s.proposer.state.highest_promised_proposal_id)
    (h3 : s1.learner = s.learner) (h4 : s1.node_id = s.node_id) :
    reenters_phase_one s (__start_preparing s1 now) := by
  have hb : (__start_preparing s1 now).1.proposer.state.proposal_id =
      (1 + max s.proposer.state.proposal_id
            s.proposer.state.highest_promised_proposal_id) % 2 ^ 64 := by
    show u64_add 1 (__math_max s1.proposer.state.proposal_id
      s1.proposer.state.highest_promised_proposal_id) = _
    rw [math_max_eq, h1, h2]
    rfl
  refine ⟨rfl, rfl, rfl, rfl, hb, ?_⟩
  rw [← hb, ← h3, ← h4]
  rfl

theorem is_blocked_iff (s : paxos_t) (now : Nat)
    (h1 : s.learner.last_request_chosen_time ≤ now) (h2 : now < 2 ^ 64) :
    paxos_is_blocked s now = true ↔ now - s.learner.last_request_chosen_time > 6000 := by
  unfold paxos_is_blocked __paxos_learned_timeout u64_sub U64 PAXOS_CHOSEN_TIMEOUT
    PAXOS_ROUND_TIMEOUT
  rw [decide_eq_true_eq, Nat.mod_eq_of_lt h2, Nat.mod_eq_of_lt (by omega), if_pos h1]

/-- C31. Round timeouts, in a state reachable from `paxos_open`.  When
`prepare_timeout` (or `propose_timeout`) is triggered while active: if the engine
is blocked (`now - last_request_chosen_time > 6000`, a `uint64_t` difference) or
the rejected quorum holds, the proposer re-enters phase 1; otherwise that timer is
armed again to expire at `now + 5000` (a `uint64_t` sum), nothing else changes
and no callback is called.  When `restart_timeout` is triggered while active: if
the engine is blocked the proposer re-enters phase 1, otherwise the timer is armed
again to expire at `now + 1000`, nothing else changes and no callback is called. -/
theorem round_timeouts (s : paxos_t) (hr : Reachable s) (now : Nat) :
    (s.proposer.prepare_timeout.active = true →
      ((paxos_is_blocked s now = true ∨ paxos_quorum_vote_is_rejected s.quorum = true) →
        reenters_phase_one s
          (paxos_timeout_trigger s (some paxos_timer_id.prepare_timeout) now)) ∧
      (paxos_is_blocked s now = false → paxos_quorum_vote_is_rejected s.quorum = false →
        paxos_timeout_trigger s (some paxos_timer_id.prepare_timeout) now =
          ({ s with
             proposer := { s.proposer with
                           prepare_timeout := { s.proposer.prepare_timeout with
                                                expire_time := (now + 5000) % 2 ^ 64 } } },
           []))) ∧
    (s.proposer.propose_timeout.active = true →
      ((paxos_is_blocked s now = true ∨ paxos_quorum_vote_is_rejected s.quorum = true) →
        reenters_phase_one s
          (paxos_timeout_trigger s (some paxos_timer_id.propose_timeout) now)) ∧
      (paxos_is_blocked s now = false → paxos_quorum_vote_is_rejected s.quorum = false →
        paxos_timeout_trigger s (some paxos_timer_id.propose_timeout) now =
          ({ s with
             proposer := { s.proposer with
                           propose_timeout := { s.proposer.propose_timeout with
                                                expire_time := (now + 5000) % 2 ^ 64 } } },
           []))) ∧
    (s.proposer.restart_timeout.active = true →
      (paxos_is_blocked s now = true →
        reenters_phase_one s
          (paxos_timeout_trigger s (some paxos_timer_id.restart_timeout) now)) ∧
      (paxos_is_blocked s now = false →
        paxos_timeout_trigger s (some paxos_timer_id.restart_timeout) now =
          ({ s with
             proposer := { s.proposer with
                           restart_timeout := { s.proposer.restart_timeout with
                                                expire_time := (now + 1000) % 2 ^ 64 } } },
           []))) ∧
    (s.learner.last_request_chosen_time ≤ now → now < 2 ^ 64 →
      (paxos_is_blocked s now = true ↔ now - s.learner.last_request_chosen_time > 6000)) := by
  obtain ⟨hp1, hp2, hp3⟩ := reachable_periods s hr
  have e : ∀ p : paxos_proposer_t,
      paxos_is_blocked { s with proposer := p } now = paxos_is_blocked s now := fun _ => rfl
  refine ⟨?_, ?_, ?_, is_blocked_iff s now⟩
  · intro ha
    constructor
    · intro hb
      unfold paxos_timeout_trigger __on_prepare_timeout
      dsimp only
      rw [if_pos ha, e, if_pos (by simpa using hb)]
      exact start_preparing_reenters s _ now rfl rfl rfl rfl
    · intro hb1 hb2
      unfold paxos_timeout_trigger __on_prepare_timeout
      dsimp only
      rw [if_pos ha, e, if_neg (by simp [hb1, hb2])]
      unfold paxos_timeout_start u64_add U64
      dsimp only
      rw [hp1, ← ha]
  · intro ha
    constructor
    · intro hb
      unfold paxos_timeout_trigger __on_propose_timeout
      dsimp only
      rw [if_pos ha, e, if_pos (by simpa using hb)]
      exact start_preparing_reenters s _ now rfl rfl rfl rfl
    · intro hb1 hb2
      unfold paxos_timeout_trigger __on_propose_timeout
      dsimp only
      rw [if_pos ha, e, if_neg (by simp [hb1, hb2])]
      unfold paxos_timeout_start u64_add U64
      dsimp only
      rw [hp2, ← ha]
  · intro ha
    constructor
    · intro hb
      unfold paxos_timeout_trigger __on_restart_timeout
      dsimp only
      rw [if_pos ha, e, if_pos hb]
      exact start_preparing_reenters s _ now rfl rfl rfl rfl
    · intro hb1
      unfold paxos_timeout_trigger __on_restart_timeout
      dsimp only
      rw [if_pos ha, e, if_neg (by simp [hb1])]
      unfold paxos_timeout_start u64_add U64
      dsimp only
      rw [hp3, ← ha]

/-- Witness of C31: node 1 began phase 1 with ballot 1 at clock reading 0 and got
no response; its `prepare_timeout` triggered at clock reading 7000 finds the
engine blocked and restarts phase 1 with ballot 2. -/
theorem round_timeouts_witness :
    reenters_phase_one (paxos_propose (paxos_fresh 1 3) 7 0).1
      (paxos_timeout_trigger (paxos_propose (paxos_fresh 1 3) 7 0).1
        (some paxos_timer_id.prepare_timeout) 7000) ∧
    (paxos_timeout_trigger (paxos_propose (paxos_fresh 1 3) 7 0).1
      (some paxos_timer_id.prepare_timeout) 7000).1.proposer.state.proposal_id = 2 :=
  ⟨((round_timeouts (paxos_propose (paxos_fresh 1 3) 7 0).1
      (Reachable.step (paxos_fresh 1 3) 0 (paxos_call.propose 7)
        (Reachable.opened paxos_zero 1 3)) 7000).1 rfl).1 (Or.inl (by decide)),
   by decide⟩

/-! ## A timer that outlives its ballot -/

/-- C32 fails on the code.  Node 1 enters phase 1 at clock reading 0 and then
honours a catch-up response for instance 4, which resets the proposer state and
leaves `prepare_timeout` active: `preparing` is false and `proposal_id` is 0.
The timer `paxos_timeout` returns is `prepare_timeout`; triggered at clock reading
7000 its callback starts a ballot: `preparing` is true, `proposal_id` is 1 and
a PREPARE_REQUEST for instance 4 is broadcast. -/
theorem stale_timeout_starts_ballot :
    (paxos_run (paxos_fresh 1 3)
      [(0, paxos_call.propose 7),
       (0, paxos_call.process_message (paxos_message_catchup_response 4 2 5))]
      ).proposer.state.preparing = false ∧
    (paxos_run (paxos_fresh 1 3)
      [(0, paxos_call.propose 7),
       (0, paxos_call.process_message (paxos_message_catchup_response 4 2 5))]
      ).proposer.state.proposal_id = 0 ∧
    paxos_timeout
      (paxos_run (paxos_fresh 1 3)
        [(0, paxos_call.propose 7),
         (0, paxos_call.process_message (paxos_message_catchup_response 4 2 5))])
      = some paxos_timer_id.prepare_timeout ∧
    (paxos_timeout_trigger
      (paxos_run (paxos_fresh 1 3)
        [(0, paxos_call.propose 7),
         (0, paxos_call.process_message (paxos_message_catchup_response 4 2 5))])
      (some paxos_timer_id.prepare_timeout) 7000).1.proposer.state.preparing = true ∧
    (paxos_timeout_trigger
      (paxos_run (paxos_fresh 1 3)
        [(0, paxos_call.propose 7),
         (0, paxos_call.process_message (paxos_message_catchup_response 4 2 5))])
      (some paxos_timer_id.prepare_timeout) 7000).1.proposer.state.proposal_id = 1 ∧
    (paxos_timeout_trigger
      (paxos_run (paxos_fresh 1 3)
        [(0, paxos_call.propose 7),
         (0, paxos_call.process_message (paxos_message_catchup_response 4 2 5))])
      (some paxos_timer_id.prepare_timeout) 7000).2
      = [paxos_event.broadcast (paxos_message_prepare_request 4 1 1)] := by
  refine ⟨?_, ?_, ?_, ?_, ?_, ?_⟩ <;> decide

/-! ## What engines send as catch-up traffic -/

theorem emits_wire_ok_nil (s : paxos_t) : emits_wire_ok (s, []) := by
  intro e he
  exact absurd he (List.not_mem_nil _)

theorem emits_wire_ok_one (s : paxos_t) (e : paxos_event)
    (h : ∀ m, event_message e = some m → catchup_wire_ok m) : emits_wire_ok (s, [e]) := by
  intro e1 he m hm
  rw [List.mem_singleton.mp he] at hm
  exact h m hm

/-- A message whose type is none of the three catch-up types with an instance
number. -/
theorem wire_ok_of_type (m : paxos_message_t)
    (h : m.type ≠ PAXOS_CATCHUP_START ∧ m.type ≠ PAXOS_CATCHUP_REQUEST ∧
      m.type ≠ PAXOS_CATCHUP_RESPONSE) : catchup_wire_ok m := by
  intro h1
  rcases h1 with h1 | h1 | h1
  · exact absurd h1 h.1
  · exact absurd h1 h.2.1
  · exact absurd h1 h.2.2

theorem on_prepare_request_emits (s : paxos_t) (m : paxos_message_t) :
    emits_wire_ok (__on_prepare_request s m) := by
  by_cases hc : can_accept_spec s m
  · rw [on_prepare_request_accept s m hc]
    apply emits_wire_ok_one
    intro m1 hm1
    simp only [event_message, Option.some.injEq] at hm1
    subst hm1
    apply wire_ok_of_type
    split_ifs <;>
    simp [paxos_message_prepare_currently_open, paxos_message_prepare_previously_accepted,
      paxos_message_prepare_rejected, paxos_message_propose_accepted,
      paxos_message_propose_rejected, paxos_message_prepare_request,
      paxos_message_propose_request, paxos_message_learn_proposal,
      paxos_message_request_chosen, paxos_message_bootstrap, __paxos_message_proposal_id,
      __paxos_message_paxos_id, PAXOS_PREPARE_REQUEST, PAXOS_PREPARE_REJECTED,
      PAXOS_PREPARE_PREVIOUSLY_ACCEPTED, PAXOS_PREPARE_CURRENTLY_OPEN, PAXOS_PROPOSE_REQUEST,
      PAXOS_PROPOSE_REJECTED, PAXOS_PROPOSE_ACCEPTED, PAXOS_LEARN_PROPOSAL,
      PAXOS_REQUEST_CHOSEN, PAXOS_BOOTSTRAP, PAXOS_CATCHUP_START, PAXOS_CATCHUP_REQUEST,
      PAXOS_CATCHUP_RESPONSE]
  · rw [on_prepare_request_reject s m hc]
    apply emits_wire_ok_one
    intro m1 hm1
    simp only [event_message, Option.some.injEq] at hm1
    subst hm1
    apply wire_ok_of_type
    simp [paxos_message_prepare_currently_open, paxos_message_prepare_previously_accepted,
      paxos_message_prepare_rejected, paxos_message_propose_accepted,
      paxos_message_propose_rejected, paxos_message_prepare_request,
      paxos_message_propose_request, paxos_message_learn_proposal,
      paxos_message_request_chosen, paxos_message_bootstrap, __paxos_message_proposal_id,
      __paxos_message_paxos_id, PAXOS_PREPARE_REQUEST, PAXOS_PREPARE_REJECTED,
      PAXOS_PREPARE_PREVIOUSLY_ACCEPTED, PAXOS_PREPARE_CURRENTLY_OPEN, PAXOS_PROPOSE_REQUEST,
      PAXOS_PROPOSE_REJECTED, PAXOS_PROPOSE_ACCEPTED, PAXOS_LEARN_PROPOSAL,
      PAXOS_REQUEST_CHOSEN, PAXOS_BOOTSTRAP, PAXOS_CATCHUP_START, PAXOS_CATCHUP_REQUEST,
      PAXOS_CATCHUP_RESPONSE]

theorem on_propose_request_emits (s : paxos_t) (m : paxos_message_t) :
    emits_wire_ok (__on_propose_request s m) := by
  by_cases hc : can_accept_spec s m
  · rw [on_propose_request_accept s m hc]
    apply emits_wire_ok_one
    intro m1 hm1
    simp only [event_message, Option.some.injEq] at hm1
    subst hm1
    apply wire_ok_of_type
    simp [paxos_message_prepare_currently_open, paxos_message_prepare_previously_accepted,
      paxos_message_prepare_rejected, paxos_message_propose_accepted,
      paxos_message_propose_rejected, paxos_message_prepare_request,
      paxos_message_propose_request, paxos_message_learn_proposal,
      paxos_message_request_chosen, paxos_message_bootstrap, __paxos_message_proposal_id,
      __paxos_message_paxos_id, PAXOS_PREPARE_REQUEST, PAXOS_PREPARE_REJECTED,
      PAXOS_PREPARE_PREVIOUSLY_ACCEPTED, PAXOS_PREPARE_CURRENTLY_OPEN, PAXOS_PROPOSE_REQUEST,
      PAXOS_PROPOSE_REJECTED, PAXOS_PROPOSE_ACCEPTED, PAXOS_LEARN_PROPOSAL,
      PAXOS_REQUEST_CHOSEN, PAXOS_BOOTSTRAP, PAXOS_CATCHUP_START, PAXOS_CATCHUP_REQUEST,
      PAXOS_CATCHUP_RESPONSE]
  · rw [on_propose_request_reject s m hc]
    apply emits_wire_ok_one
    intro m1 hm1
    simp only [event_message, Option.some.injEq] at hm1
    subst hm1
    apply wire_ok_of_type
    simp [paxos_message_prepare_currently_open, paxos_message_prepare_previously_accepted,
      paxos_message_prepare_rejected, paxos_message_propose_accepted,
      paxos_message_propose_rejected, paxos_message_prepare_request,
      paxos_message_propose_request, paxos_message_learn_proposal,
      paxos_message_request_chosen, paxos_message_bootstrap, __paxos_message_proposal_id,
      __paxos_message_paxos_id, PAXOS_PREPARE_REQUEST, PAXOS_PREPARE_REJECTED,
      PAXOS_PREPARE_PREVIOUSLY_ACCEPTED, PAXOS_PREPARE_CURRENTLY_OPEN, PAXOS_PROPOSE_REQUEST,
      PAXOS_PROPOSE_REJECTED, PAXOS_PROPOSE_ACCEPTED, PAXOS_LEARN_PROPOSAL,
      PAXOS_REQUEST_CHOSEN, PAXOS_BOOTSTRAP, PAXOS_CATCHUP_START, PAXOS_CATCHUP_REQUEST,
      PAXOS_CATCHUP_RESPONSE]

theorem start_preparing_emits (s : paxos_t) (now : Nat) :
    emits_wire_ok (__start_preparing s now) := by
  apply emits_wire_ok_one
  intro m1 hm1
  simp only [event_message, Option.some.injEq] at hm1
  subst hm1
  apply wire_ok_of_type
  simp [paxos_message_prepare_currently_open, paxos_message_prepare_previously_accepted,
      paxos_message_prepare_rejected, paxos_message_propose_accepted,
      paxos_message_propose_rejected, paxos_message_prepare_request,
      paxos_message_propose_request, paxos_message_learn_proposal,
      paxos_message_request_chosen, paxos_message_bootstrap, __paxos_message_proposal_id,
      __paxos_message_paxos_id, PAXOS_PREPARE_REQUEST, PAXOS_PREPARE_REJECTED,
      PAXOS_PREPARE_PREVIOUSLY_ACCEPTED, PAXOS_PREPARE_CURRENTLY_OPEN, PAXOS_PROPOSE_REQUEST,
      PAXOS_PROPOSE_REJECTED, PAXOS_PROPOSE_ACCEPTED, PAXOS_LEARN_PROPOSAL,
      PAXOS_REQUEST_CHOSEN, PAXOS_BOOTSTRAP, PAXOS_CATCHUP_START, PAXOS_CATCHUP_REQUEST,
      PAXOS_CATCHUP_RESPONSE]

theorem start_proposing_emits (s : paxos_t) (now : Nat) :
    emits_wire_ok (__start_proposing s now) := by
  apply emits_wire_ok_one
  intro m1 hm1
  simp only [event_message, Option.some.injEq] at hm1
  subst hm1
  apply wire_ok_of_type
  simp [paxos_message_prepare_currently_open, paxos_message_prepare_previously_accepted,
      paxos_message_prepare_rejected, paxos_message_propose_accepted,
      paxos_message_propose_rejected, paxos_message_prepare_request,
      paxos_message_propose_request, paxos_message_learn_proposal,
      paxos_message_request_chosen, paxos_message_bootstrap, __paxos_message_proposal_id,
      __paxos_message_paxos_id, PAXOS_PREPARE_REQUEST, PAXOS_PREPARE_REJECTED,
      PAXOS_PREPARE_PREVIOUSLY_ACCEPTED, PAXOS_PREPARE_CURRENTLY_OPEN, PAXOS_PROPOSE_REQUEST,
      PAXOS_PROPOSE_REJECTED, PAXOS_PROPOSE_ACCEPTED, PAXOS_LEARN_PROPOSAL,
      PAXOS_REQUEST_CHOSEN, PAXOS_BOOTSTRAP, PAXOS_CATCHUP_START, PAXOS_CATCHUP_REQUEST,
      PAXOS_CATCHUP_RESPONSE]

theorem on_prepare_response_emits (s : paxos_t) (m : paxos_message_t) (now : Nat) :
    emits_wire_ok (__on_prepare_response s m now) := by
  by_cases hp : s.proposer.state.preparing = true ∧ m.proposal_id = s.proposer.state.proposal_id
  · rw [on_prepare_response_processed s m now hp.1 hp.2]
    split_ifs
    · exact start_proposing_emits _ now
    · exact emits_wire_ok_nil _
    · exact emits_wire_ok_nil _
  · rw [on_prepare_response_ignored s m now (by
      by_cases h1 : s.proposer.state.preparing = true
      · exact Or.inr (fun h2 => hp ⟨h1, h2⟩)
      · exact Or.inl (by simpa using h1))]
    exact emits_wire_ok_nil _

theorem on_propose_response_emits (s : paxos_t) (m : paxos_message_t) (now : Nat) :
    emits_wire_ok (__on_propose_response s m now) := by
  by_cases hp : s.proposer.state.proposing = true ∧ m.proposal_id = s.proposer.state.proposal_id
  · rw [on_propose_response_processed s m now hp.1 hp.2]
    split_ifs
    · apply emits_wire_ok_one
      intro m1 hm1
      simp only [event_message, Option.some.injEq] at hm1
      subst hm1
      apply wire_ok_of_type
      simp [paxos_message_prepare_currently_open, paxos_message_prepare_previously_accepted,
      paxos_message_prepare_rejected, paxos_message_propose_accepted,
      paxos_message_propose_rejected, paxos_message_prepare_request,
      paxos_message_propose_request, paxos_message_learn_proposal,
      paxos_message_request_chosen, paxos_message_bootstrap, __paxos_message_proposal_id,
      __paxos_message_paxos_id, PAXOS_PREPARE_REQUEST, PAXOS_PREPARE_REJECTED,
      PAXOS_PREPARE_PREVIOUSLY_ACCEPTED, PAXOS_PREPARE_CURRENTLY_OPEN, PAXOS_PROPOSE_REQUEST,
      PAXOS_PROPOSE_REJECTED, PAXOS_PROPOSE_ACCEPTED, PAXOS_LEARN_PROPOSAL,
      PAXOS_REQUEST_CHOSEN, PAXOS_BOOTSTRAP, PAXOS_CATCHUP_START, PAXOS_CATCHUP_REQUEST,
      PAXOS_CATCHUP_RESPONSE]
    · exact emits_wire_ok_nil _
    · exact emits_wire_ok_nil _
  · rw [on_propose_response_ignored s m now (by
      by_cases h1 : s.proposer.state.proposing = true
      · exact Or.inr (fun h2 => hp ⟨h1, h2⟩)
      · exact Or.inl (by simpa using h1))]
    exact emits_wire_ok_nil _

theorem request_chosen_emits (s : paxos_t) (node_id now : Nat) :
    emits_wire_ok (__request_chosen s node_id now) := by
  unfold __request_chosen
  dsimp only
  apply emits_wire_ok_one
  intro m1 hm1
  simp only [event_message, Option.some.injEq] at hm1
  subst hm1
  apply wire_ok_of_type
  simp [paxos_message_prepare_currently_open, paxos_message_prepare_previously_accepted,
      paxos_message_prepare_rejected, paxos_message_propose_accepted,
      paxos_message_propose_rejected, paxos_message_prepare_request,
      paxos_message_propose_request, paxos_message_learn_proposal,
      paxos_message_request_chosen, paxos_message_bootstrap, __paxos_message_proposal_id,
      __paxos_message_paxos_id, PAXOS_PREPARE_REQUEST, PAXOS_PREPARE_REJECTED,
      PAXOS_PREPARE_PREVIOUSLY_ACCEPTED, PAXOS_PREPARE_CURRENTLY_OPEN, PAXOS_PROPOSE_REQUEST,
      PAXOS_PROPOSE_REJECTED, PAXOS_PROPOSE_ACCEPTED, PAXOS_LEARN_PROPOSAL,
      PAXOS_REQUEST_CHOSEN, PAXOS_BOOTSTRAP, PAXOS_CATCHUP_START, PAXOS_CATCHUP_REQUEST,
      PAXOS_CATCHUP_RESPONSE]

theorem on_learn_chosen_emits (s : paxos_t) (m : paxos_message_t) (now : Nat) :
    emits_wire_ok (__on_learn_chosen s m now) := by
  unfold __on_learn_chosen
  dsimp only
  split_ifs
  · exact emits_wire_ok_nil _
  · exact request_chosen_emits s m.node_id now
  · exact emits_wire_ok_nil _
  · intro e he m1 hm1
    simp only [paxos_learner_learn_value, List.mem_singleton] at he
    rw [he] at hm1
    exact absurd hm1 (by simp [event_message])
  · exact request_chosen_emits s m.node_id now
  · intro e he m1 hm1
    simp only [paxos_learner_learn_value, List.mem_singleton] at he
    rw [he] at hm1
    exact absurd hm1 (by simp [event_message])

/-- The reply of `__on_request_chosen` is a PAXOS_CATCHUP_START for the instance
of the replier, which is above the instance asked for. -/
theorem on_request_chosen_emits (s : paxos_t) (m : paxos_message_t) :
    emits_wire_ok (__on_request_chosen s m) := by
  unfold __on_request_chosen
  split_ifs with h
  · exact emits_wire_ok_nil _
  · have hg : paxos_get_accepted_value s m.paxos_id = none := by
      unfold paxos_get_accepted_value
      rw [if_neg (by omega)]
    dsimp only
    rw [hg]
    apply emits_wire_ok_one
    intro m1 hm1
    simp only [event_message, Option.some.injEq] at hm1
    subst hm1
    intro _
    show 1 ≤ s.learner.paxos_id
    omega

/-- The reply of `__on_bootstrap` names the instance of an engine that has
learned. -/
theorem on_bootstrap_emits (s : paxos_t) (m : paxos_message_t) (h : learned_positive s) :
    emits_wire_ok (__on_bootstrap s m) := by
  unfold __on_bootstrap
  split_ifs with h1
  · exact emits_wire_ok_nil _
  · have hg : paxos_get_accepted_value s s.learner.paxos_id = some s.learner.learned_value := by
      unfold paxos_get_accepted_value
      rw [if_pos rfl]
    rw [hg]
    apply emits_wire_ok_one
    intro m1 hm1
    simp only [event_message, Option.some.injEq] at hm1
    subst hm1
    intro _
    show 1 ≤ s.learner.paxos_id
    exact h (by simpa using h1)

/-- The request of `__on_catchup_start` echoes the instance of the message. -/
theorem on_catchup_start_emits (s : paxos_t) (m : paxos_message_t)
    (hm : m.type = PAXOS_CATCHUP_START) (hin : catchup_wire_ok m) :
    emits_wire_ok (__on_catchup_start s m) := by
  unfold __on_catchup_start
  split_ifs
  · exact emits_wire_ok_nil _
  · apply emits_wire_ok_one
    intro m1 hm1
    simp only [event_message, Option.some.injEq] at hm1
    subst hm1
    intro _
    show 1 ≤ m.paxos_id
    exact hin (Or.inl hm)

/-- The reply of `__on_catchup_request` echoes the instance of the message. -/
theorem on_catchup_request_emits (s : paxos_t) (m : paxos_message_t)
    (hm : m.type = PAXOS_CATCHUP_REQUEST) (hin : catchup_wire_ok m) :
    emits_wire_ok (__on_catchup_request s m) := by
  unfold __on_catchup_request
  split
  · apply emits_wire_ok_one
    intro m1 hm1
    simp only [event_message, Option.some.injEq] at hm1
    subst hm1
    intro _
    show 1 ≤ m.paxos_id
    exact hin (Or.inr (Or.inl hm))
  · exact emits_wire_ok_nil _

theorem on_catchup_response_emits (s : paxos_t) (m : paxos_message_t) :
    emits_wire_ok (__on_catchup_response s m) := by
  unfold __on_catchup_response
  dsimp only
  split_ifs
  · exact emits_wire_ok_nil _
  · intro e he m1 hm1
    simp only [paxos_learner_learn_value, List.mem_singleton] at he
    rw [he] at hm1
    exact absurd hm1 (by simp [event_message])

theorem timeout_trigger_emits (s : paxos_t) (t : Option paxos_timer_id) (now : Nat) :
    emits_wire_ok (paxos_timeout_trigger s t now) := by
  rcases timeout_trigger_entry s t now with h | ⟨s1, _, _, _, _, _, h⟩
  · intro e he
    rw [h] at he
    exact absurd he (List.not_mem_nil _)
  · rw [h]
    exact start_preparing_emits s1 now

/-- Case analysis on the dispatch of `paxos_process_message`, with the type of the
message known in each case. -/
theorem process_message_dispatch_typed (P : paxos_t × List paxos_event → Prop)
    (s : paxos_t) (m : paxos_message_t) (now : Nat)
    (h1 : m.type = PAXOS_PREPARE_REQUEST → P (__on_prepare_request s m))
    (h2 : P (__on_prepare_response s m now))
    (h3 : m.type = PAXOS_PROPOSE_REQUEST → P (__on_propose_request s m))
    (h4 : P (__on_propose_response s m now))
    (h5 : m.type = PAXOS_LEARN_PROPOSAL ∨ m.type = PAXOS_LEARN_VALUE →
      P (__on_learn_chosen s m now))
    (h6 : P (__on_request_chosen s m))
    (h7 : P (__on_bootstrap s m))
    (h8 : m.type = PAXOS_CATCHUP_START → P (__on_catchup_start s m))
    (h9 : m.type = PAXOS_CATCHUP_REQUEST → P (__on_catchup_request s m))
    (h10 : m.type = PAXOS_CATCHUP_RESPONSE → P (__on_catchup_response s m))
    (h11 : P (s, [])) :
    P (paxos_process_message s m now) := by
  unfold paxos_process_message
  by_cases c1 : m.type = PAXOS_PREPARE_REQUEST
  · rw [if_pos c1]
    exact h1 c1
  rw [if_neg c1]
  by_cases c2 : m.type = PAXOS_PREPARE_REJECTED ∨
      m.type = PAXOS_PREPARE_PREVIOUSLY_ACCEPTED ∨ m.type = PAXOS_PREPARE_CURRENTLY_OPEN
  · rw [if_pos c2]
    exact h2
  rw [if_neg c2]
  by_cases c3 : m.type = PAXOS_PROPOSE_REQUEST
  · rw [if_pos c3]
    exact h3 c3
  rw [if_neg c3]
  by_cases c4 : m.type = PAXOS_PROPOSE_REJECTED ∨ m.type = PAXOS_PROPOSE_ACCEPTED
  · rw [if_pos c4]
    exact h4
  rw [if_neg c4]
  by_cases c5 : m.type = PAXOS_LEARN_PROPOSAL ∨ m.type = PAXOS_LEARN_VALUE
  · rw [if_pos c5]
    exact h5 c5
  rw [if_neg c5]
  by_cases c6 : m.type = PAXOS_REQUEST_CHOSEN
  · rw [if_pos c6]
    exact h6
  rw [if_neg c6]
  by_cases c7 : m.type = PAXOS_BOOTSTRAP
  · rw [if_pos c7]
    exact h7
  rw [if_neg c7]
  by_cases c8 : m.type = PAXOS_CATCHUP_START
  · rw [if_pos c8]
    exact h8 c8
  rw [if_neg c8]
  by_cases c9 : m.type = PAXOS_CATCHUP_REQUEST
  · rw [if_pos c9]
    exact h9 c9
  rw [if_neg c9]
  by_cases c10 : m.type = PAXOS_CATCHUP_RESPONSE
  · rw [if_pos c10]
    exact h10 c10
  rw [if_neg c10]
  exact h11

/-- An engine that has received only catch-up messages naming an instance of at
least 1 sends only such messages. -/
theorem step_emits_wire_ok (s : paxos_t) (now : Nat) (c : paxos_call)
    (h : learned_positive s)
    (hin : ∀ m, c = paxos_call.process_message m → catchup_wire_ok m) :
    emits_wire_ok (paxos_step s now c) := by
  cases c with
  | process_message m =>
    have hm := hin m rfl
    show emits_wire_ok (paxos_process_message s m now)
    apply process_message_dispatch_typed emits_wire_ok
    · intro _
      exact on_prepare_request_emits s m
    · exact on_prepare_response_emits s m now
    · intro _
      exact on_propose_request_emits s m
    · exact on_propose_response_emits s m now
    · intro _
      exact on_learn_chosen_emits s m now
    · exact on_request_chosen_emits s m
    · exact on_bootstrap_emits s m h
    · intro ht
      exact on_catchup_start_emits s m ht hm
    · intro ht
      exact on_catchup_request_emits s m ht hm
    · intro _
      exact on_catchup_response_emits s m
    · exact emits_wire_ok_nil s
  | propose value => exact start_preparing_emits _ now
  | bootstrap =>
    show emits_wire_ok (paxos_bootstrap s)
    unfold paxos_bootstrap
    apply emits_wire_ok_one
    intro m1 hm1
    simp only [event_message, Option.some.injEq] at hm1
    subst hm1
    apply wire_ok_of_type
    simp [paxos_message_bootstrap, __paxos_message_paxos_id, PAXOS_BOOTSTRAP,
      PAXOS_CATCHUP_START, PAXOS_CATCHUP_REQUEST, PAXOS_CATCHUP_RESPONSE]
  | timeout_trigger t => exact timeout_trigger_emits s t now

/-- Below the wrap, a step keeps an engine that has learned at instance 1 or
beyond, when the catch-up responses it receives name such an instance. -/
theorem step_keeps_learned_positive (s : paxos_t) (now : Nat) (c : paxos_call)
    (h : learned_positive s)
    (hin : ∀ m, c = paxos_call.process_message m → catchup_wire_ok m)
    (hw : s.learner.paxos_id < U64 - 1) :
    learned_positive (paxos_step s now c).1 := by
  intro hl
  rcases step_cases s now c with hq | hq | hq
  · obtain ⟨_, h2, h3, _, _⟩ := hq
    rw [h2]
    exact h (by rw [← h3]; exact hl)
  · obtain ⟨m, _, _, _, _, h5, _⟩ := hq
    rw [h5, u64_add_one_of_lt _ hw]
    omega
  · obtain ⟨m, hc, hm, _, _, h5, _⟩ := hq
    rw [h5]
    exact hin m hc (Or.inr (Or.inr hm))

/-! ## Catch-up traffic in a cluster -/

/-- Routing the callbacks of a step keeps the engines and adds to the network
only messages of the step. -/
theorem cluster_emit_spec (node_id : Nat) (evs : List paxos_event) :
    ∀ c : cluster_t, (cluster_emit node_id c evs).nodes = c.nodes ∧
      ∀ x ∈ (cluster_emit node_id c evs).sent,
        x ∈ c.sent ∨ ∃ e ∈ evs, event_message e = some x.2 := by
  induction evs with
  | nil =>
    intro c
    exact ⟨rfl, fun x hx => Or.inl hx⟩
  | cons e evs ih =>
    intro c
    cases e with
    | send target message =>
      obtain ⟨h1, h2⟩ := ih { c with sent := c.sent ++ [(some target, message)] }
      refine ⟨h1, ?_⟩
      intro x hx
      rcases h2 x hx with h | ⟨e, he, hm⟩
      · rcases List.mem_append.mp h with h | h
        · exact Or.inl h
        · rw [List.mem_singleton.mp h]
          exact Or.inr ⟨_, List.mem_cons_self _ _, rfl⟩
      · exact Or.inr ⟨e, List.mem_cons_of_mem _ he, hm⟩
    | broadcast message =>
      obtain ⟨h1, h2⟩ := ih { c with sent := c.sent ++ [(none, message)] }
      refine ⟨h1, ?_⟩
      intro x hx
      rcases h2 x hx with h | ⟨e, he, hm⟩
      · rcases List.mem_append.mp h with h | h
        · exact Or.inl h
        · rw [List.mem_singleton.mp h]
          exact Or.inr ⟨_, List.mem_cons_self _ _, rfl⟩
      · exact Or.inr ⟨e, List.mem_cons_of_mem _ he, hm⟩
    | learned_value paxos_id value =>
      obtain ⟨h1, h2⟩ := ih { c with learned := c.learned ++ [(node_id, paxos_id, value)] }
      refine ⟨h1, ?_⟩
      intro x hx
      rcases h2 x hx with h | ⟨e, he, hm⟩
      · exact Or.inl h
      · exact Or.inr ⟨e, List.mem_cons_of_mem _ he, hm⟩

/-- A host call on a node of a cluster keeps `cluster_ok`, below the wrap and for
an inbound message that satisfies `catchup_wire_ok`. -/
theorem cluster_call_ok (c c1 : cluster_t) (node_id now : Nat) (call : paxos_call)
    (hok : cluster_ok c)
    (hw : ∀ p ∈ c.nodes, p.learner.paxos_id < U64 - 1)
    (hin : ∀ m, call = paxos_call.process_message m → catchup_wire_ok m)
    (h : cluster_call c node_id now call = some c1) : cluster_ok c1 := by
  unfold cluster_call at h
  cases hf : cluster_node c node_id with
  | none =>
    rw [hf] at h
    exact Option.noConfusion h
  | some p =>
    rw [hf] at h
    simp only [Option.some.injEq] at h
    have hp : p ∈ c.nodes := by
      unfold cluster_node at hf
      exact List.mem_of_find?_eq_some hf
    obtain ⟨e1, e2⟩ := cluster_emit_spec node_id (paxos_step p now call).2
      ⟨List.map (fun q => if q.node_id = node_id then (paxos_step p now call).1 else q)
        c.nodes, c.sent, c.learned⟩
    rw [h] at e1 e2
    constructor
    · intro q hq
      rw [e1] at hq
      obtain ⟨q0, hq0, hq1⟩ := List.mem_map.mp hq
      by_cases hid : q0.node_id = node_id
      · rw [if_pos hid] at hq1
        rw [← hq1]
        exact step_keeps_learned_positive p now call (hok.1 p hp) hin (hw p hp)
      · rw [if_neg hid] at hq1
        rw [← hq1]
        exact hok.1 q0 hq0
    · intro x hx
      rcases e2 x hx with hx | ⟨e, he, hm⟩
      · exact hok.2 x hx
      · exact step_emits_wire_ok p now call (hok.1 p hp) hin e he x.2 hm

/-- A scheduler action keeps `cluster_ok`: what is delivered was sent. -/
theorem cluster_step_ok (c c1 : cluster_t) (now : Nat) (a : cluster_action)
    (hok : cluster_ok c)
    (hw : ∀ p ∈ c.nodes, p.learner.paxos_id < U64 - 1)
    (h : cluster_step c now a = some c1) : cluster_ok c1 := by
  cases a with
  | propose node_id value =>
    exact cluster_call_ok c c1 node_id now _ hok hw (fun m hm => by cases hm) h
  | deliver node_id k =>
    simp only [cluster_step] at h
    cases hk : c.sent.get? k with
    | none =>
      rw [hk] at h
      exact Option.noConfusion h
    | some x =>
      rw [hk] at h
      obtain ⟨target, message⟩ := x
      dsimp only at h
      split_ifs at h
      refine cluster_call_ok c c1 node_id now _ hok hw ?_ h
      intro m hm
      cases hm
      exact hok.2 (target, message) (List.get?_mem hk)
  | timeout_trigger node_id timer =>
    exact cluster_call_ok c c1 node_id now _ hok hw (fun m hm => by cases hm) h

theorem cluster_run_ok (as : List (Nat × cluster_action)) :
    ∀ c c1 : cluster_t, cluster_ok c → cluster_below_wrap c as = true →
      cluster_run c as = some c1 → cluster_ok c1 := by
  induction as with
  | nil =>
    intro c c1 hok _ h
    simp only [cluster_run, Option.some.injEq] at h
    rw [← h]
    exact hok
  | cons a as ih =>
    intro c c1 hok hw h
    simp only [cluster_below_wrap, Bool.and_eq_true, List.all_eq_true, decide_eq_true_eq] at hw
    simp only [cluster_run] at h
    cases hs : cluster_step c a.1 a.2 with
    | none =>
      rw [hs] at h
      exact Option.noConfusion h
    | some c2 =>
      rw [hs] at h hw
      exact ih c2 c1 (cluster_step_ok c c2 a.1 a.2 hok hw.1 hs) hw.2 h

/-- In a cluster of freshly opened engines, under any schedule of proposals,
deliveries of sent messages and timer triggers that stays below the wrap at
2^64, every PAXOS_CATCHUP_RESPONSE sent names an instance of at least 1. -/
theorem cluster_catchup_ids_positive (num_nodes : Nat) (node_ids : List Nat)
    (as : List (Nat × cluster_action)) (c : cluster_t)
    (hw : cluster_below_wrap (cluster_open num_nodes node_ids) as = true)
    (h : cluster_run (cluster_open num_nodes node_ids) as = some c) :
    ∀ x ∈ c.sent, x.2.type = PAXOS_CATCHUP_RESPONSE → 1 ≤ x.2.paxos_id := by
  have h0 : cluster_ok (cluster_open num_nodes node_ids) := by
    constructor
    · intro p hp hl
      unfold cluster_open at hp
      obtain ⟨i, _, hi⟩ := List.mem_map.mp hp
      rw [← hi] at hl
      exact Bool.noConfusion hl
    · intro x hx
      exact absurd hx (List.not_mem_nil _)
  intro x hx ht
  exact (cluster_run_ok as _ c h0 hw h).2 x hx (Or.inr (Or.inr ht))

end Paxos
